import Mathlib

/-!
# Duplicate-node constraint element of the C1 Foeppl-von Karman drivers

A shallow embedding of `DuplicateNodeConstraintElement` (src/star_trek.cc):
the redundancy validation `validate_and_pin_redundant_constraints`, the
coordinate transform `get_jac_and_hess_of_coordinate_transform` and the
residual assembly `fill_in_generic_residual_contribution_constraint`; of
`upgrade_edge_elements_to_curve` and `rotate_edge_degrees_of_freedom` of both
drivers (src/star_trek.cc and src/circular_sector.cc); of
`duplicate_corner_nodes` of src/star_trek.cc; and of the three boundary frames
`Parameters::get_normal_and_tangent_*` and the forcing functions of
src/circular_sector.cc.

Conventions of the embedding:
* in the validation and the assembly `double` is read as an exact rational
  number and `std::sqrt` is a parameter `sqrt : ℚ → ℚ` of every definition
  that calls it; the coordinate transform is also given with the rounding of
  every operation explicit (`Rounded.get_jac_and_hess_locals`), to be read in
  exact arithmetic (no rounding, over the reals with the real square root) and
  in the arithmetic of `double` (`Binary64.round`, `Binary64.sqrt`), where a
  finite double is the rational number it stands for;
* the boundary frames are written over any field, with `sqrt`, `pow`, `cos`
  and `sin` as parameters, and are studied over the reals with the real
  functions, where a derivative is a statement `HasDerivAt`;
* the mesh is the table of its boundary elements, an element its three
  vertex nodes and the curved-edge data attached to it, if any; where the
  source relies on the identity of a node (`duplicate_corner_nodes`), nodes
  and elements are named by a number and a dereferenced null pointer ends the
  run with no result;
* calls into the library whose effect is outside the drivers are recorded as
  the list of calls issued, in order;
* `Vector<double>` and `std::vector<bool>` are functions of the index,
  `DenseMatrix<double>` is a function of the two indices;
* a C++ `for` loop is a left fold of its body over the index range, a
  `continue` is an early result of the body, a `throw` ends the run with
  the state left behind;
* the debugging output (`cout`, the `.csv` and `.dat` files) is not part of
  the state.
-/

namespace C1FvK

/-! ## Loops and exceptions -/

/-- The loop `for (unsigned i = lo; i < hi; i++) body`, threading the state. -/
def forLoop {σ : Type} (lo hi : Nat) (body : σ → Nat → σ) (init : σ) : σ :=
  (List.range' lo (hi - lo)).foldl body init

/-- The error thrown by `throw_unsatisfiable_constraint_error`: the index of
the offending constraint, the position of the corner and the residual. -/
structure OomphLibError where
  i : Nat
  x : Nat → ℚ
  res : ℚ

/-- Result of running a piece of code that may throw: it either returns with
the final state or throws, leaving the state reached so far behind. -/
inductive Outcome (σ : Type) where
  | returned (s : σ) : Outcome σ
  | threw (e : OomphLibError) (s : σ) : Outcome σ

/-- Sequencing: the next statement runs only if nothing was thrown. -/
def Outcome.andThen {σ : Type} (o : Outcome σ) (f : σ → Outcome σ) : Outcome σ :=
  match o with
  | Outcome.returned s => f s
  | Outcome.threw e s => Outcome.threw e s

/-- The loop `for (unsigned i = lo; i < hi; i++) body` whose body may throw. -/
def forLoopThrowing {σ : Type} (lo hi : Nat) (body : σ → Nat → Outcome σ) (init : σ) :
    Outcome σ :=
  (List.range' lo (hi - lo)).foldl (fun o i => o.andThen (fun s => body s i))
    (Outcome.returned init)

/-- The state an outcome ends in, whether it returned or threw. -/
def Outcome.state {σ : Type} : Outcome σ → σ
  | Outcome.returned s => s
  | Outcome.threw _ s => s

/-- Whether the run returned normally. -/
def Outcome.isReturned {σ : Type} : Outcome σ → Bool
  | Outcome.returned _ => true
  | Outcome.threw _ _ => false

/-- The error of a run that threw. -/
def Outcome.error {σ : Type} : Outcome σ → Option OomphLibError
  | Outcome.returned _ => none
  | Outcome.threw e _ => some e

/-- The outcome satisfies `Q` on its final state if it returned and `E` on
the error and the state left behind if it threw. -/
def Outcome.Sat {σ : Type} (o : Outcome σ) (Q : σ → Prop) (E : OomphLibError → σ → Prop) :
    Prop :=
  match o with
  | Outcome.returned s => Q s
  | Outcome.threw e s => E e s

/-! ## Data model -/

/-- Modelled from the spec: the library class `Data` (not in src/). Each of
its values carries a pinned/free flag next to the stored value; `pin` and
`set_value` are separate operations, as in the drivers' own
`pin(j); set_value(j, 0.0)` pairs. -/
structure Data where
  value : Nat → ℚ
  pinned : Nat → Bool

/-- Modelled from the spec: `Data::is_pinned(i)` reads the flag of value `i`. -/
def Data.is_pinned (d : Data) (i : Nat) : Bool := d.pinned i

/-- Modelled from the spec: `Data::pin(i)` sets the flag of value `i` and
leaves every stored value as it is. -/
def Data.pin (d : Data) (i : Nat) : Data :=
  { d with pinned := Function.update d.pinned i true }

/-- Modelled from the spec: `Data::unpin_all()` clears every flag. -/
def Data.unpin_all (d : Data) : Data :=
  { d with pinned := fun _ => false }

/-- Modelled from the spec: the library class `CurvilineGeomObject` (not in
src/), a parametric curve exposing position and its first and second
derivative with respect to the boundary coordinate, and the inverse map
`get_zeta` from a point to its boundary coordinate. -/
structure CurvilineGeomObject where
  position : ℚ → Nat → ℚ
  dposition : ℚ → Nat → ℚ
  d2position : ℚ → Nat → ℚ
  get_zeta : (Nat → ℚ) → ℚ

/-- The members of `DuplicateNodeConstraintElement`. `lagrange` is the
internal data holding the eight Lagrange multipliers, `left` and `right` are
the external data of the two nodes; the two `*_local_eqn` tables are the
local equation numbers the library assigns (negative for a pinned value). -/
structure DuplicateNodeConstraintElement where
  lagrange : Data
  left : Data
  right : Data
  Left_boundary_pt : CurvilineGeomObject
  Right_boundary_pt : CurvilineGeomObject
  Left_node_coord : ℚ
  Right_node_coord : ℚ
  internal_local_eqn : Nat → Nat → Int
  external_local_eqn : Nat → Nat → Int

/-- Index returned by `add_internal_data` in the constructor. -/
def Index_of_lagrange_data : Nat := 0

/-- Index returned by the first `add_external_data` in the constructor. -/
def Index_of_left_data : Nat := 0

/-- Index returned by the second `add_external_data` in the constructor. -/
def Index_of_right_data : Nat := 1

/-- Tolerance when validating fully pinned constraints (`1.0e-10`). -/
def Constraint_tolerance : ℚ := 1 / 10 ^ 10

/-- The error object built by `throw_unsatisfiable_constraint_error`. -/
def throw_unsatisfiable_constraint_error (el : DuplicateNodeConstraintElement)
    (i : Nat) (res : ℚ) : OomphLibError :=
  { i := i, x := el.Left_boundary_pt.position el.Left_node_coord, res := res }

/-! ## Jacobian and Hessian of the coordinate transform -/

/-- The sum `f 0 + f 1` accumulated by a loop `for (k = 0; k < 2; k++) acc += f k`
that starts from `0.0`. -/
def sum2 (f : Nat → ℚ) : ℚ :=
  forLoop 0 2 (fun acc k => acc + f k) 0

/-- The local variables of `get_jac_and_hess_of_coordinate_transform` that
later statements refer to, next to its two outputs. -/
structure TransformLocals where
  left_ti : Nat → ℚ
  left_ni : Nat → ℚ
  left_dtids : Nat → ℚ
  left_dnids : Nat → ℚ
  right_ti : Nat → ℚ
  right_ni : Nat → ℚ
  right_dtids : Nat → ℚ
  right_dnids : Nat → ℚ
  left_jac : Nat → Nat → ℚ
  right_jac : Nat → Nat → ℚ
  left_hess : Nat → Nat → Nat → ℚ
  right_hess : Nat → Nat → Nat → ℚ
  left_jac_inv : Nat → Nat → ℚ
  left_hess_inv : Nat → Nat → Nat → ℚ
  jac_of_transform : Nat → Nat → ℚ
  hess_of_transform : Nat → Nat → Nat → ℚ

/-- The body of `get_jac_and_hess_of_coordinate_transform`, keeping its local
variables. Every entry of a matrix starts at `0.0` and accumulates over the
inner loops of the source. -/
def get_jac_and_hess_locals (sqrt : ℚ → ℚ)
    (el : DuplicateNodeConstraintElement) : TransformLocals :=
  let left_dxids := el.Left_boundary_pt.dposition el.Left_node_coord
  let left_d2xids2 := el.Left_boundary_pt.d2position el.Left_node_coord
  let right_dxids := el.Right_boundary_pt.dposition el.Right_node_coord
  let right_d2xids2 := el.Right_boundary_pt.d2position el.Right_node_coord
  -- the speed of each parametrisation
  let left_mag := sqrt (left_dxids 0 * left_dxids 0 + left_dxids 1 * left_dxids 1)
  let right_mag := sqrt (right_dxids 0 * right_dxids 0 + right_dxids 1 * right_dxids 1)
  -- tangents and their derivatives
  let left_ti : Nat → ℚ := fun alpha => left_dxids alpha / left_mag
  let right_ti : Nat → ℚ := fun alpha => right_dxids alpha / right_mag
  let left_dtids : Nat → ℚ := fun alpha =>
    left_d2xids2 alpha / left_mag ^ 2
      - (left_dxids 0 * left_d2xids2 0 + left_dxids 1 * left_d2xids2 1)
        * left_dxids alpha / left_mag ^ 4
  let right_dtids : Nat → ℚ := fun alpha =>
    right_d2xids2 alpha / right_mag ^ 2
      - (right_dxids 0 * right_d2xids2 0 + right_dxids 1 * right_d2xids2 1)
        * right_dxids alpha / right_mag ^ 4
  -- normals and their derivatives by orthogonality
  let left_ni : Nat → ℚ := fun alpha => (-1) ^ alpha * left_ti ((alpha + 1) % 2)
  let right_ni : Nat → ℚ := fun alpha => (-1) ^ alpha * right_ti ((alpha + 1) % 2)
  let left_dnids : Nat → ℚ := fun alpha => (-1) ^ alpha * left_dtids ((alpha + 1) % 2)
  let right_dnids : Nat → ℚ := fun alpha => (-1) ^ alpha * right_dtids ((alpha + 1) % 2)
  -- Jacobians {{nx,tx},{ny,ty}} and Hessians of the boundary coordinates
  let left_jac : Nat → Nat → ℚ := fun alpha c =>
    match c with
    | 0 => left_ni alpha
    | 1 => left_ti alpha
    | _ => 0
  let right_jac : Nat → Nat → ℚ := fun alpha c =>
    match c with
    | 0 => right_ni alpha
    | 1 => right_ti alpha
    | _ => 0
  let left_hess : Nat → Nat → Nat → ℚ := fun alpha b c =>
    match b, c with
    | 0, 1 => left_dnids alpha
    | 1, 0 => left_dnids alpha
    | 1, 1 => left_dtids alpha
    | _, _ => 0
  let right_hess : Nat → Nat → Nat → ℚ := fun alpha b c =>
    match b, c with
    | 0, 1 => right_dnids alpha
    | 1, 0 => right_dnids alpha
    | 1, 1 => right_dtids alpha
    | _, _ => 0
  -- inverse Jacobian and Hessian of the left parametrisation
  let left_jac_inv : Nat → Nat → ℚ := fun a b =>
    match a, b with
    | 0, 0 => left_jac 1 1
    | 0, 1 => - left_jac 0 1
    | 1, 0 => - left_jac 1 0
    | 1, 1 => left_jac 0 0
    | _, _ => 0
  let left_hess_inv : Nat → Nat → Nat → ℚ := fun alpha beta gamma =>
    0 - sum2 (fun alpha2 => sum2 (fun beta2 => sum2 (fun gamma2 =>
      left_jac_inv alpha alpha2 * left_hess alpha2 beta2 gamma2
        * left_jac_inv beta2 beta * left_jac_inv gamma2 gamma)))
  -- J = J_left^{-1} J_right,  H = H_left^{-1} J_right J_right + J_left^{-1} H_right
  let jac_of_transform : Nat → Nat → ℚ := fun alpha beta =>
    sum2 (fun gamma => left_jac_inv alpha gamma * right_jac gamma beta)
  let hess_of_transform : Nat → Nat → Nat → ℚ := fun alpha beta gamma =>
    sum2 (fun mu =>
      left_jac_inv alpha mu * right_hess mu beta gamma
        + sum2 (fun nu => left_hess_inv alpha mu nu * right_jac mu beta * right_jac nu gamma))
  { left_ti := left_ti, left_ni := left_ni, left_dtids := left_dtids,
    left_dnids := left_dnids, right_ti := right_ti, right_ni := right_ni,
    right_dtids := right_dtids, right_dnids := right_dnids,
    left_jac := left_jac, right_jac := right_jac,
    left_hess := left_hess, right_hess := right_hess,
    left_jac_inv := left_jac_inv, left_hess_inv := left_hess_inv,
    jac_of_transform := jac_of_transform, hess_of_transform := hess_of_transform }

/-- `get_jac_and_hess_of_coordinate_transform`: returns `jac_of_transform`
and `hess_of_transform`. -/
def get_jac_and_hess_of_coordinate_transform (sqrt : ℚ → ℚ)
    (el : DuplicateNodeConstraintElement) : (Nat → Nat → ℚ) × (Nat → Nat → Nat → ℚ) :=
  ((get_jac_and_hess_locals sqrt el).jac_of_transform,
    (get_jac_and_hess_locals sqrt el).hess_of_transform)

/-! ## Validation of redundant constraints -/

/-- Local variables of `validate_and_pin_redundant_constraints` next to the
element itself: the two vectors of booleans marking dofs already used by a
constraint. -/
structure ValidationState where
  element : DuplicateNodeConstraintElement
  right_data_used : Nat → Bool
  left_data_used : Nat → Bool

/-- Mark entry `i` of the right vector: `right_data_used[i]=true`. -/
def ValidationState.use_right (st : ValidationState) (i : Nat) : ValidationState :=
  { st with right_data_used := Function.update st.right_data_used i true }

/-- Mark entry `i` of the left vector: `left_data_used[i]=true`. -/
def ValidationState.use_left (st : ValidationState) (i : Nat) : ValidationState :=
  { st with left_data_used := Function.update st.left_data_used i true }

/-- Pin multiplier `i`: `internal_data_pt(Index_of_lagrange_data)->pin(i)`. -/
def ValidationState.pin_multiplier (st : ValidationState) (i : Nat) : ValidationState :=
  { st with element := { st.element with lagrange := st.element.lagrange.pin i } }

/-- The tail shared by the three loops: check the residual of a constraint
that claimed no dof against the tolerance, throw if it is larger, otherwise
pin the multiplier `i_con`. -/
def check_and_pin (st : ValidationState) (i_con : Nat) (constraint_residual : ℚ) :
    Outcome ValidationState :=
  if constraint_residual > Constraint_tolerance then
    Outcome.threw (throw_unsatisfiable_constraint_error st.element i_con constraint_residual) st
  else
    Outcome.returned (st.pin_multiplier i_con)

/-- Body of the first loop (constraints 0-2), lines 227-256. -/
def validate_value_constraint (st : ValidationState) (i_con : Nat) : Outcome ValidationState :=
  let right_ui_pinned := st.element.right.is_pinned i_con
  let left_ui_pinned := st.element.left.is_pinned i_con
  if !right_ui_pinned && !st.right_data_used i_con then
    Outcome.returned (st.use_right i_con)
  else if !left_ui_pinned && !st.left_data_used i_con then
    Outcome.returned (st.use_left i_con)
  else
    let constraint_residual := st.element.right.value i_con - st.element.left.value i_con
    check_and_pin st i_con constraint_residual

/-- Body of the second loop (constraints 3-4), lines 260-301. -/
def validate_gradient_constraint (jac_of_transform : Nat → Nat → ℚ)
    (st : ValidationState) (alpha : Nat) : Outcome ValidationState :=
  let i_con := 3 + alpha
  let right_ui_pinned := st.element.right.is_pinned i_con
  let left_u3_pinned := st.element.left.is_pinned 3
  let left_u4_pinned := st.element.left.is_pinned 4
  if !right_ui_pinned && !st.right_data_used i_con then
    Outcome.returned (st.use_right i_con)
  else if !left_u3_pinned && !st.left_data_used 3 then
    Outcome.returned (st.use_left 3)
  else if !left_u4_pinned && !st.left_data_used 4 then
    Outcome.returned (st.use_left 4)
  else
    let constraint_residual := forLoop 0 2 (fun constraint_residual beta =>
      constraint_residual
        + - st.element.left.value (3 + beta) * jac_of_transform beta alpha)
      (st.element.right.value i_con)
    check_and_pin st i_con constraint_residual

/-- Body of the inner loop of the third loop nest (constraints 5-7), lines
308-367. The flags named `left_u4_pinned` and `left_u6_pinned` are read from
the right node's data, as in the source. -/
def validate_curvature_constraint (jac_of_transform : Nat → Nat → ℚ)
    (hess_of_transform : Nat → Nat → Nat → ℚ) (alpha : Nat)
    (st : ValidationState) (beta : Nat) : Outcome ValidationState :=
  let i_con := 5 + alpha + beta
  let right_ui_pinned := st.element.right.is_pinned i_con
  let left_u3_pinned := st.element.left.is_pinned 3
  let left_u4_pinned := st.element.right.is_pinned 4
  let left_u5_pinned := st.element.left.is_pinned 5
  let left_u6_pinned := st.element.right.is_pinned 6
  let left_u7_pinned := st.element.left.is_pinned 7
  if !right_ui_pinned && !st.right_data_used i_con then
    Outcome.returned (st.use_right i_con)
  else if !left_u3_pinned && !st.left_data_used 3 then
    Outcome.returned (st.use_left 3)
  else if !left_u4_pinned && !st.left_data_used 4 then
    Outcome.returned (st.use_left 4)
  else if !left_u5_pinned && !st.left_data_used 5 then
    Outcome.returned (st.use_left 5)
  else if !left_u6_pinned && !st.left_data_used 6 then
    Outcome.returned (st.use_left 6)
  else if !left_u7_pinned && !st.left_data_used 7 then
    Outcome.returned (st.use_left 7)
  else
    let constraint_residual := forLoop 0 2 (fun constraint_residual gamma =>
      forLoop 0 2 (fun constraint_residual delta =>
        constraint_residual
          + - st.element.left.value (5 + gamma + delta)
            * jac_of_transform gamma alpha * jac_of_transform delta beta)
        (constraint_residual
          + - st.element.left.value (3 + gamma) * hess_of_transform alpha beta gamma))
      (st.element.right.value i_con)
    check_and_pin st i_con constraint_residual

/-- The state on entry to the loops of `validate_and_pin_redundant_constraints`:
all multipliers unpinned (`unpin_all`), both vectors of booleans all `false`. -/
def validation_entry (el : DuplicateNodeConstraintElement) : ValidationState :=
  { element := { el with lagrange := el.lagrange.unpin_all },
    right_data_used := fun _ => false,
    left_data_used := fun _ => false }

/-- The run of `validate_and_pin_redundant_constraints` with its local
variables: unpin all multipliers, then the three loops in order. -/
def validate_run (sqrt : ℚ → ℚ) (el : DuplicateNodeConstraintElement) :
    Outcome ValidationState :=
  let st := validation_entry el
  let jh := get_jac_and_hess_of_coordinate_transform sqrt st.element
  let jac_of_transform := jh.1
  let hess_of_transform := jh.2
  ((forLoopThrowing 0 3 validate_value_constraint st).andThen
    (forLoopThrowing 0 2 (validate_gradient_constraint jac_of_transform))).andThen
    (forLoopThrowing 0 2 (fun st alpha =>
      forLoopThrowing alpha 2
        (validate_curvature_constraint jac_of_transform hess_of_transform alpha) st))

/-- `validate_and_pin_redundant_constraints`: the element after the call and
whether the call returned or threw. -/
def validate_and_pin_redundant_constraints (sqrt : ℚ → ℚ)
    (el : DuplicateNodeConstraintElement) : Outcome DuplicateNodeConstraintElement :=
  match validate_run sqrt el with
  | Outcome.returned st => Outcome.returned st.element
  | Outcome.threw e st => Outcome.threw e st.element

/-! ## Residual assembly -/

/-- The statement `residuals[eqn] += v`. -/
def add_to (residuals : Int → ℚ) (eqn : Int) (v : ℚ) : Int → ℚ :=
  Function.update residuals eqn (residuals eqn + v)

/-- The statement `acc[i] += v` on one of the local accumulators. -/
def accumulate (acc : Nat → ℚ) (i : Nat) (v : ℚ) : Nat → ℚ :=
  Function.update acc i (acc i + v)

/-- Body of the loop over the right node's equations, lines 686-697. -/
def right_node_contribution (el : DuplicateNodeConstraintElement)
    (residuals : Int → ℚ) (k_type : Nat) : Int → ℚ :=
  let right_eqn_number := el.external_local_eqn Index_of_right_data k_type
  if right_eqn_number ≥ 0 then
    add_to residuals right_eqn_number (el.lagrange.value k_type)
  else residuals

/-- Body of the loop over the left node's displacement equations, lines
704-715. -/
def left_displacement_contribution (el : DuplicateNodeConstraintElement)
    (residuals : Int → ℚ) (i : Nat) : Int → ℚ :=
  let left_eqn_number := el.external_local_eqn Index_of_left_data i
  if left_eqn_number ≥ 0 then
    add_to residuals left_eqn_number (- el.lagrange.value i)
  else residuals

/-- Body of the loop over the left node's gradient equations, lines 721-744. -/
def left_gradient_contribution (el : DuplicateNodeConstraintElement)
    (jac_of_transform : Nat → Nat → ℚ) (hess_of_transform : Nat → Nat → Nat → ℚ)
    (residuals : Int → ℚ) (alpha : Nat) : Int → ℚ :=
  let left_eqn_number := el.external_local_eqn Index_of_left_data (3 + alpha)
  if left_eqn_number ≥ 0 then
    forLoop 0 2 (fun residuals beta =>
      forLoop beta 2 (fun residuals gamma =>
        add_to residuals left_eqn_number
          (- el.lagrange.value (5 + beta + gamma) * hess_of_transform alpha beta gamma))
        (add_to residuals left_eqn_number
          (- el.lagrange.value (3 + beta) * jac_of_transform alpha beta)))
      residuals
  else residuals

/-- Body of the inner loop over the left node's curvature equations, lines
753-774. -/
def left_curvature_contribution (el : DuplicateNodeConstraintElement)
    (jac_of_transform : Nat → Nat → ℚ) (alpha : Nat)
    (residuals : Int → ℚ) (beta : Nat) : Int → ℚ :=
  let left_eqn_number := el.external_local_eqn Index_of_left_data (5 + alpha + beta)
  if left_eqn_number ≥ 0 then
    forLoop 0 2 (fun residuals gamma =>
      forLoop gamma 2 (fun residuals delta =>
        add_to residuals left_eqn_number
          (- el.lagrange.value (5 + gamma + delta)
            * jac_of_transform alpha gamma * jac_of_transform beta delta))
        residuals)
      residuals
  else residuals

/-- The residual vector together with the three local accumulators `DwJ`,
`D2wJJ` and `DwH` of the assembly. -/
structure AssemblyState where
  residuals : Int → ℚ
  DwJ : Nat → ℚ
  D2wJJ : Nat → ℚ
  DwH : Nat → ℚ

/-- Body of the loop over the first three multiplier equations, lines 796-812. -/
def value_constraint_contribution (el : DuplicateNodeConstraintElement)
    (st : AssemblyState) (i_dof : Nat) : AssemblyState :=
  let internal_eqn_number := el.internal_local_eqn Index_of_lagrange_data i_dof
  if internal_eqn_number ≥ 0 then
    { st with residuals :=
        (add_to st.residuals internal_eqn_number (el.right.value i_dof - el.left.value i_dof)) }
  else st

/-- Body of the loop over the two gradient multiplier equations, lines
817-834. -/
def gradient_constraint_contribution (el : DuplicateNodeConstraintElement)
    (jac_of_transform : Nat → Nat → ℚ)
    (st : AssemblyState) (alpha : Nat) : AssemblyState :=
  let internal_eqn_number := el.internal_local_eqn Index_of_lagrange_data (3 + alpha)
  if internal_eqn_number ≥ 0 then
    let DwJ := forLoop 0 2 (fun DwJ beta =>
      accumulate DwJ alpha (el.left.value (3 + beta) * jac_of_transform beta alpha)) st.DwJ
    { st with
      DwJ := DwJ,
      residuals :=
        (add_to st.residuals internal_eqn_number (el.right.value (3 + alpha) - DwJ alpha)) }
  else st

/-- Body of the inner loop over the three curvature multiplier equations,
lines 844-895. -/
def curvature_constraint_contribution (el : DuplicateNodeConstraintElement)
    (jac_of_transform : Nat → Nat → ℚ) (hess_of_transform : Nat → Nat → Nat → ℚ)
    (alpha : Nat) (st : AssemblyState) (beta : Nat) : AssemblyState :=
  let internal_eqn_number := el.internal_local_eqn Index_of_lagrange_data (5 + alpha + beta)
  if internal_eqn_number ≥ 0 then
    let acc := forLoop 0 2 (fun (acc : (Nat → ℚ) × (Nat → ℚ)) gamma =>
      let D2wJJ := forLoop 0 2 (fun D2wJJ delta =>
        accumulate D2wJJ (alpha + beta)
          (el.left.value (5 + gamma + delta)
            * jac_of_transform gamma alpha * jac_of_transform delta beta)) acc.1
      let DwH := accumulate acc.2 (alpha + beta)
        (el.left.value (3 + gamma) * hess_of_transform gamma alpha beta)
      (D2wJJ, DwH)) (st.D2wJJ, st.DwH)
    { st with
      D2wJJ := acc.1,
      DwH := acc.2,
      residuals :=
        (add_to st.residuals internal_eqn_number
          (el.right.value (5 + alpha + beta) - acc.1 (alpha + beta) - acc.2 (alpha + beta))) }
  else st

/-- `fill_in_generic_residual_contribution_constraint` with `flag = 0`: the
residual vector after the call. -/
def fill_in_generic_residual_contribution_constraint (sqrt : ℚ → ℚ)
    (el : DuplicateNodeConstraintElement) (residuals : Int → ℚ) : Int → ℚ :=
  let jh := get_jac_and_hess_of_coordinate_transform sqrt el
  let jac_of_transform := jh.1
  let hess_of_transform := jh.2
  -- contributions to the right node external equations
  let residuals := forLoop 0 8 (right_node_contribution el) residuals
  -- contributions to the left node external equations
  let residuals := forLoop 0 3 (left_displacement_contribution el) residuals
  let residuals :=
    forLoop 0 2 (left_gradient_contribution el jac_of_transform hess_of_transform) residuals
  let residuals := forLoop 0 2 (fun residuals alpha =>
    forLoop 0 2 (left_curvature_contribution el jac_of_transform alpha) residuals) residuals
  -- contributions to the internal (Lagrange multiplier) equations
  let st : AssemblyState :=
    { residuals := residuals, DwJ := fun _ => 0, D2wJJ := fun _ => 0, DwH := fun _ => 0 }
  let st := forLoop 0 3 (value_constraint_contribution el) st
  let st := forLoop 0 2 (gradient_constraint_contribution el jac_of_transform) st
  let st := forLoop 0 2 (fun st alpha =>
    forLoop alpha 2
      (curvature_constraint_contribution el jac_of_transform hess_of_transform alpha) st) st
  st.residuals

/-- `fill_in_contribution_to_residuals`: the generic routine with flag 0. -/
def fill_in_contribution_to_residuals (sqrt : ℚ → ℚ)
    (el : DuplicateNodeConstraintElement) (residuals : Int → ℚ) : Int → ℚ :=
  fill_in_generic_residual_contribution_constraint sqrt el residuals

/-! ## Contract of the local equation numbering -/

/-- Contract of the library's local equation numbering, which the element
only consumes: a value has a negative local equation number exactly when it
is pinned, and the non-negative numbers of the twenty-four values of the
internal and the two external data are pairwise different. -/
structure LocalEqnsAssigned (el : DuplicateNodeConstraintElement) : Prop where
  internal_pinned : ∀ k, k < 8 →
    (el.lagrange.is_pinned k = true ↔ el.internal_local_eqn Index_of_lagrange_data k < 0)
  left_pinned : ∀ k, k < 8 →
    (el.left.is_pinned k = true ↔ el.external_local_eqn Index_of_left_data k < 0)
  right_pinned : ∀ k, k < 8 →
    (el.right.is_pinned k = true ↔ el.external_local_eqn Index_of_right_data k < 0)
  internal_inj : ∀ i, i < 8 → ∀ j, j < 8 →
    0 ≤ el.internal_local_eqn Index_of_lagrange_data i →
    el.internal_local_eqn Index_of_lagrange_data i
      = el.internal_local_eqn Index_of_lagrange_data j → i = j
  internal_ne_external : ∀ i, i < 8 → ∀ d, d < 2 → ∀ j, j < 8 →
    0 ≤ el.internal_local_eqn Index_of_lagrange_data i →
    el.internal_local_eqn Index_of_lagrange_data i ≠ el.external_local_eqn d j
  external_inj : ∀ d, d < 2 → ∀ i, i < 8 → ∀ e, e < 2 → ∀ j, j < 8 →
    0 ≤ el.external_local_eqn d i →
    el.external_local_eqn d i = el.external_local_eqn e j → d = e ∧ i = j

/-- The amount a guarded statement `if (eqn >= 0) residuals[eqn] += v` adds
to entry `e` of the residual vector. -/
def hit (eqn e : Int) (v : ℚ) : ℚ :=
  if 0 ≤ eqn ∧ e = eqn then v else 0

/-! ## Concrete elements for evaluation -/

/-- A straight boundary through the origin with constant velocity `(vx, vy)`. -/
def straightBoundary (vx vy : ℚ) : CurvilineGeomObject :=
  { position := fun s i => if i = 0 then vx * s else vy * s,
    dposition := fun _ i => if i = 0 then vx else vy,
    d2position := fun _ _ => 0,
    get_zeta := fun x => (vx * x 0 + vy * x 1) / (vx * vx + vy * vy) }

/-- An element for concrete evaluations: a corner between the straight
boundaries with velocities `(3,4)` and `(-4,3)`, with the given data, and
local equation numbers `k`, `8+k`, `16+k` for the unpinned values of the
multipliers, the left node and the right node. -/
def exampleElement (lagrange left right : Data) : DuplicateNodeConstraintElement :=
  { lagrange := lagrange, left := left, right := right,
    Left_boundary_pt := straightBoundary 3 4,
    Right_boundary_pt := straightBoundary (-4) 3,
    Left_node_coord := 0,
    Right_node_coord := 0,
    internal_local_eqn := fun _ k => if lagrange.pinned k then -1 else (k : Int),
    external_local_eqn := fun d k =>
      if d = 0 then (if left.pinned k then -1 else 8 + (k : Int))
      else (if right.pinned k then -1 else 16 + (k : Int)) }

/-- A square root that is exact on the squared speed `25` of the example
boundaries. -/
def exampleSqrt (x : ℚ) : ℚ := if x = 25 then 5 else 1

/-- Data with the given values, all unpinned. -/
def freeData (value : Nat → ℚ) : Data := { value := value, pinned := fun _ => false }

/-- Data with the given values, all pinned. -/
def pinnedData (value : Nat → ℚ) : Data := { value := value, pinned := fun _ => true }

/-! ## The constraints as the specification writes them -/

/-- The eight constraint residuals as the specification writes them, as
functions of the left and right dof values: `right[k] - left[k]` for k < 3,
the gradient form for k = 3, 4, and the curvature form for k = 5 + alpha + beta
with alpha <= beta, i.e. (alpha, beta) = (0,0), (0,1), (1,1) for k = 5, 6, 7. -/
def constraint_residual_spec (J : Nat → Nat → ℚ) (H : Nat → Nat → Nat → ℚ)
    (left right : Nat → ℚ) (k : Nat) : ℚ :=
  if k < 3 then right k - left k
  else if k < 5 then
    right k - ∑ beta in Finset.range 2, left (3 + beta) * J beta (k - 3)
  else
    let alpha := (k - 5) / 2
    let beta := (k - 5) - alpha
    right k
      - ∑ gamma in Finset.range 2, ∑ delta in Finset.range 2,
          left (5 + gamma + delta) * J gamma alpha * J delta beta
      - ∑ gamma in Finset.range 2, left (3 + gamma) * H gamma alpha beta

/-- Partial derivative of constraint `k` with respect to the left dof `j`,
as the difference quotient with step `step` at the point `(left, right)`
(the constraints are affine in the dofs, so every non-zero step at every
point gives the derivative). -/
def d_constraint_d_left (J : Nat → Nat → ℚ) (H : Nat → Nat → Nat → ℚ)
    (left right : Nat → ℚ) (step : ℚ) (k j : Nat) : ℚ :=
  (constraint_residual_spec J H (Function.update left j (left j + step)) right k
    - constraint_residual_spec J H left right k) / step

/-- Partial derivative of constraint `k` with respect to the right dof `j`,
as the difference quotient with step `step` at the point `(left, right)`. -/
def d_constraint_d_right (J : Nat → Nat → ℚ) (H : Nat → Nat → Nat → ℚ)
    (left right : Nat → ℚ) (step : ℚ) (k j : Nat) : ℚ :=
  (constraint_residual_spec J H left (Function.update right j (right j + step)) k
    - constraint_residual_spec J H left right k) / step

/-- The transpose coefficients in expanded form: what `sum_k lambda_k * d c_k / d left[j]`
amounts to for each left dof `j`. -/
def left_transpose_amount (J : Nat → Nat → ℚ) (H : Nat → Nat → Nat → ℚ)
    (lam : Nat → ℚ) (j : Nat) : ℚ :=
  if j < 3 then - lam j
  else if j < 5 then
    - lam 3 * J (j - 3) 0 - lam 5 * H (j - 3) 0 0 - lam 6 * H (j - 3) 0 1
      - lam 4 * J (j - 3) 1 - lam 7 * H (j - 3) 1 1
  else if j = 5 then
    - lam 5 * J 0 0 * J 0 0 - lam 6 * J 0 0 * J 0 1 - lam 7 * J 0 1 * J 0 1
  else if j = 6 then
    - lam 5 * (J 0 0 * J 1 0 + J 1 0 * J 0 0) - lam 6 * (J 0 0 * J 1 1 + J 1 0 * J 0 1)
      - lam 7 * (J 0 1 * J 1 1 + J 1 1 * J 0 1)
  else
    - lam 5 * J 1 0 * J 1 0 - lam 6 * J 1 0 * J 1 1 - lam 7 * J 1 1 * J 1 1


/-! ## Concrete corners used for evaluation -/

/-- A corner with every multiplier and every nodal dof free. -/
def freeCorner : DuplicateNodeConstraintElement :=
  exampleElement (freeData (fun k => (k : ℚ) + 1)) (freeData (fun k => 2 * (k : ℚ) + 1))
    (freeData (fun k => 3 * (k : ℚ) + 2))

/-- A corner with every multiplier and every nodal dof pinned, all values zero. -/
def clampedCorner : DuplicateNodeConstraintElement :=
  exampleElement (pinnedData (fun _ => 0)) (pinnedData (fun _ => 0)) (pinnedData (fun _ => 0))


/-! ## Invariant of the validation run -/

/-- What is known of the validation state when the first `n` constraints
(0, 1, 2, then 3, 4, then 5, 6, 7) have been processed without a throw,
in terms of the element `el` the validation was called on. -/
structure ValidationInv (el : DuplicateNodeConstraintElement) (n : Nat)
    (st : ValidationState) : Prop where
  element_eq : st.element = { el with lagrange := st.element.lagrange }
  value_eq : st.element.lagrange.value = el.lagrange.value
  pinned_ge : ∀ j, n ≤ j → st.element.lagrange.pinned j = false
  right_used_ge : ∀ j, n ≤ j → st.right_data_used j = false
  left_used_ge : ∀ j, n ≤ j → j < 3 → st.left_data_used j = false
  left_used_grad : n ≤ 3 → ∀ j, 3 ≤ j → st.left_data_used j = false
  pinned_value : ∀ j, j < 3 → j < n →
    st.element.lagrange.pinned j = (el.right.pinned j && el.left.pinned j)
  pinned_3 : 3 < n →
    st.element.lagrange.pinned 3 = (el.right.pinned 3 && el.left.pinned 3 && el.left.pinned 4)
  left_used_3 : n = 4 → st.left_data_used 3 = (el.right.pinned 3 && !el.left.pinned 3)
  left_used_4 : n = 4 →
    st.left_data_used 4 = (el.right.pinned 3 && el.left.pinned 3 && !el.left.pinned 4)
  pinned_4 : 4 < n →
    st.element.lagrange.pinned 4 =
      (el.right.pinned 4
        && !(!el.left.pinned 3 && !(el.right.pinned 3 && !el.left.pinned 3))
        && !(!el.left.pinned 4 && !(el.right.pinned 3 && el.left.pinned 3 && !el.left.pinned 4)))

/-- What is known when the validation throws error `e`, leaving `st` behind. -/
structure ValidationThrow (el : DuplicateNodeConstraintElement) (J : Nat → Nat → ℚ)
    (e : OomphLibError) (st : ValidationState) : Prop where
  index_lt : e.i < 8
  inv : ValidationInv el e.i st
  x_eq : e.x = el.Left_boundary_pt.position el.Left_node_coord
  res_gt : e.res > Constraint_tolerance
  value_case : e.i < 3 →
    el.right.pinned e.i = true ∧ el.left.pinned e.i = true
      ∧ e.res = el.right.value e.i - el.left.value e.i
  gradient_case : ∀ alpha, alpha < 2 → e.i = 3 + alpha →
    el.right.pinned (3 + alpha) = true
      ∧ (el.left.pinned 3 = true ∨ st.left_data_used 3 = true)
      ∧ (el.left.pinned 4 = true ∨ st.left_data_used 4 = true)
      ∧ e.res = el.right.value (3 + alpha)
          - ∑ beta in Finset.range 2, el.left.value (3 + beta) * J beta alpha

/-- Data with the given values, pinned except at index `free`. -/
def pinnedExcept (free : Nat) (value : Nat → ℚ) : Data :=
  { value := value, pinned := fun k => decide (k ≠ free) }

/-- All nodal dofs pinned to zero except the right node's dof 4. -/
def rightDof4FreeCorner : DuplicateNodeConstraintElement :=
  exampleElement (freeData (fun _ => 0)) (pinnedData (fun _ => 0)) (pinnedExcept 4 (fun _ => 0))

/-- All nodal dofs pinned to zero except the left node's dof 6. -/
def leftDof6FreeCorner : DuplicateNodeConstraintElement :=
  exampleElement (freeData (fun _ => 0)) (pinnedExcept 6 (fun _ => 0)) (pinnedData (fun _ => 0))

/-- Both nodes fully pinned, all values zero except the left node's dof 0,
which is pinned to 1: the displacement `u_1` is torn at the corner. -/
def tornCorner : DuplicateNodeConstraintElement :=
  exampleElement (freeData (fun _ => 0)) (pinnedData (fun k => if k = 0 then 1 else 0))
    (pinnedData (fun _ => 0))

/-- Both nodes fully pinned to zero, the multipliers holding the value 1
left by an earlier solve. -/
def staleCorner : DuplicateNodeConstraintElement :=
  exampleElement (freeData (fun _ => 1)) (pinnedData (fun _ => 0)) (pinnedData (fun _ => 0))

/-- A dof of the duplicated pair, as the specification names them. -/
inductive NodeDof where
  | right (i : Nat) : NodeDof
  | left (i : Nat) : NodeDof

/-- A dof can be claimed when it is unpinned and not yet claimed. -/
def NodeDof.available (st : ValidationState) : NodeDof → Bool
  | NodeDof.right i => !st.element.right.is_pinned i && !st.right_data_used i
  | NodeDof.left i => !st.element.left.is_pinned i && !st.left_data_used i

/-- Claiming a dof marks it as used. -/
def NodeDof.claim (st : ValidationState) : NodeDof → ValidationState
  | NodeDof.right i => st.use_right i
  | NodeDof.left i => st.use_left i

/-- The specification's rule for one constraint: claim the first available
dof of the priority list and leave the multiplier free; if there is none,
check the residual and pin the multiplier. -/
def claim_first_free (st : ValidationState) (priority : List NodeDof) (i_con : Nat)
    (constraint_residual : ℚ) : Outcome ValidationState :=
  match priority.find? (NodeDof.available st) with
  | some d => Outcome.returned (d.claim st)
  | none => check_and_pin st i_con constraint_residual

/-- Both nodes fully pinned, all values zero except the right node's dof 3,
which is pinned to 1: the gradient is torn at the corner. -/
def gradientTornCorner : DuplicateNodeConstraintElement :=
  exampleElement (freeData (fun _ => 0)) (pinnedData (fun _ => 0))
    (pinnedData (fun k => if k = 3 then 1 else 0))

/-! ## Corners with one free node -/

/-- All values zero, the left node free and the right node pinned. -/
def leftFreeCorner : DuplicateNodeConstraintElement :=
  exampleElement (freeData (fun _ => 0)) (freeData (fun _ => 0)) (pinnedData (fun _ => 0))

/-- The element as the next assembly sees it: the local equation numbers
reassigned by the library after the pin flags changed. -/
def renumbered (el : DuplicateNodeConstraintElement)
    (internal_local_eqn external_local_eqn : Nat → Nat → Int) :
    DuplicateNodeConstraintElement :=
  { el with internal_local_eqn := internal_local_eqn,
            external_local_eqn := external_local_eqn }

/-! ## Upgrade of boundary elements to curved elements -/

/-- Result of running code that may throw an error of type `ε`: it either
returns with the final state or throws, leaving the state reached so far. -/
inductive Run (ε σ : Type) where
  | returned (s : σ) : Run ε σ
  | threw (e : ε) (s : σ) : Run ε σ

/-- Sequencing: the next statement runs only if nothing was thrown. -/
def Run.andThen {ε σ : Type} (o : Run ε σ) (f : σ → Run ε σ) : Run ε σ :=
  match o with
  | Run.returned s => f s
  | Run.threw e s => Run.threw e s

/-- The state a run ends in, whether it returned or threw. -/
def Run.state {ε σ : Type} : Run ε σ → σ
  | Run.returned s => s
  | Run.threw _ s => s

/-- The error of a run that threw. -/
def Run.error {ε σ : Type} : Run ε σ → Option ε
  | Run.returned _ => none
  | Run.threw e _ => some e

/-- The loop `for (unsigned i = lo; i < hi; i++) body` whose body may throw. -/
def forLoopRun {ε σ : Type} (lo hi : Nat) (body : σ → Nat → Run ε σ) (init : σ) :
    Run ε σ :=
  (List.range' lo (hi - lo)).foldl (fun o i => o.andThen (fun s => body s i))
    (Run.returned init)

/-- The errors thrown by `upgrade_edge_elements_to_curve`, named after their
messages. -/
inductive UpgradeError where
  | unexpected_boundary_number : UpgradeError
  | no_interior_nodes : UpgradeError
  | multiple_interior_nodes : UpgradeError
  | decreasing_parametric_coordinate : UpgradeError
  deriving DecidableEq

/-- Modelled from the spec: a mesh node, with its position and the
boundaries it lies on. -/
structure Node where
  x : Nat → ℚ
  is_on_boundary : Nat → Bool

/-- The arguments of a call of `upgrade_element_to_curved`. -/
structure CurvedEdge where
  edge : Nat
  s_ubar : ℚ
  s_obar : ℚ
  parametric_curve_pt : CurvilineGeomObject
  boundary_order : Nat

/-- Modelled from the spec: a triangular bulk element, its three nodes and
the curve data attached to it (`none` while it is straight-sided). -/
structure BulkElement where
  node_pt : Nat → Node
  curved : Option CurvedEdge

/-- Modelled from the spec: `upgrade_element_to_curved` attaches the edge
variant, the two bounding parameters, the curve and the order to the element. -/
def BulkElement.upgrade_element_to_curved (bulk_el : BulkElement) (edge : Nat)
    (s_ubar s_obar : ℚ) (parametric_curve_pt : CurvilineGeomObject) (boundary_order : Nat) :
    BulkElement :=
  { bulk_el with curved := some (CurvedEdge.mk edge s_ubar s_obar parametric_curve_pt
      boundary_order) }

/-- Modelled from the spec: the boundary-element registry of the bulk mesh.
Each boundary lists its own elements; an element listed under two boundaries
is two entries here. -/
structure Mesh where
  nboundary_element : Nat → Nat
  boundary_element_pt : Nat → Nat → BulkElement

/-- The mesh after the element `e` of boundary `ibound` was changed in place. -/
def Mesh.with_boundary_element (mesh : Mesh) (ibound e : Nat) (bulk_el : BulkElement) : Mesh :=
  { mesh with boundary_element_pt := fun b i =>
      if b = ibound ∧ i = e then bulk_el else mesh.boundary_element_pt b i }

/-- The loop over the three nodes of an element: the index of the last node
not on boundary `bound` (3 if there is none) and the number of such nodes. -/
def record_boundary_nodes (bound : Nat) (bulk_el : BulkElement) : Nat × Nat :=
  forLoop 0 3 (fun (acc : Nat × Nat) n =>
    if !((bulk_el.node_pt n).is_on_boundary bound) then (n, acc.2 + 1) else acc) (3, 0)

/-- The body of the loop over the boundary elements, shared by the two
drivers up to the boundary `bound` the nodes are tested against and the order
passed on: it throws or upgrades the element. -/
def upgrade_boundary_element (parametric_curve_pt : CurvilineGeomObject)
    (bound boundary_order : Nat) (bulk_el : BulkElement) : Except UpgradeError BulkElement :=
  let index_of_interior_node := (record_boundary_nodes bound bulk_el).1
  let nnode_on_neither_boundary := (record_boundary_nodes bound bulk_el).2
  let xn : Nat → Nat → ℚ := fun n => (bulk_el.node_pt n).x
  -- s at the next (cyclic) node after interior
  let s_ubar := parametric_curve_pt.get_zeta (xn ((index_of_interior_node + 1) % 3))
  -- s at the previous (cyclic) node before interior
  let s_obar := parametric_curve_pt.get_zeta (xn ((index_of_interior_node + 2) % 3))
  let edge := index_of_interior_node
  if nnode_on_neither_boundary = 0 then
    Except.error UpgradeError.no_interior_nodes
  else if nnode_on_neither_boundary > 1 then
    Except.error UpgradeError.multiple_interior_nodes
  else if s_ubar > s_obar then
    Except.error UpgradeError.decreasing_parametric_coordinate
  else
    Except.ok (bulk_el.upgrade_element_to_curved edge s_ubar s_obar parametric_curve_pt
      boundary_order)

/-- One iteration of the loop over the boundary elements: element `e` of
boundary `ibound` is upgraded in place unless the body throws. -/
def upgrade_step (parametric_curve_pt : CurvilineGeomObject) (bound boundary_order : Nat)
    (ibound : Nat) (mesh : Mesh) (e : Nat) : Run UpgradeError Mesh :=
  match upgrade_boundary_element parametric_curve_pt bound boundary_order
      (mesh.boundary_element_pt ibound e) with
  | Except.error err => Run.threw err mesh
  | Except.ok bulk_el => Run.returned (mesh.with_boundary_element ibound e bulk_el)

/-- `UnstructuredFvKProblem::upgrade_edge_elements_to_curve` of
src/star_trek.cc, with the two curves of `Parameters` as arguments. -/
def StarTrek.upgrade_edge_elements_to_curve
    (Upper_parametric_elliptical_curve Lower_parametric_elliptical_curve : CurvilineGeomObject)
    (ibound : Nat) (Bulk_mesh_pt : Mesh) : Run UpgradeError Mesh :=
  let parametric_curve_pt : Option CurvilineGeomObject :=
    match ibound with
    | 0 => some Upper_parametric_elliptical_curve
    | 1 => some Lower_parametric_elliptical_curve
    | _ => none
  match parametric_curve_pt with
  | none => Run.threw UpgradeError.unexpected_boundary_number Bulk_mesh_pt
  | some parametric_curve_pt =>
    let n_els := Bulk_mesh_pt.nboundary_element ibound
    forLoopRun 0 n_els (upgrade_step parametric_curve_pt ibound 5 ibound) Bulk_mesh_pt

/-- Boundary id of the circular arc in src/circular_sector.cc. -/
def Circular_arc_bnum : Nat := 1

/-- `UnstructuredFvKProblem::upgrade_edge_elements_to_curve` of
src/circular_sector.cc, with `Parameters::parametric_arc` as argument. -/
def CircularSector.upgrade_edge_elements_to_curve (parametric_arc : CurvilineGeomObject)
    (ibound : Nat) (bulk_mesh_pt : Mesh) : Run UpgradeError Mesh :=
  if ibound = Circular_arc_bnum then
    let parametric_curve_pt := parametric_arc
    let n_els := bulk_mesh_pt.nboundary_element ibound
    forLoopRun 0 n_els (upgrade_step parametric_curve_pt Circular_arc_bnum 3 ibound)
      bulk_mesh_pt
  else Run.threw UpgradeError.unexpected_boundary_number bulk_mesh_pt

/-- Node `i` is the only one of the three nodes of the element that is not on
boundary `bound`. -/
def ExactlyOneOffBoundary (bound : Nat) (bulk_el : BulkElement) (i : Nat) : Prop :=
  i < 3 ∧ (bulk_el.node_pt i).is_on_boundary bound = false
    ∧ ∀ j, j < 3 → j ≠ i → (bulk_el.node_pt j).is_on_boundary bound = true

/-- The mesh `m` is `mesh` with the first `k` elements of boundary `ibound`
upgraded by `verdict` and everything else untouched. -/
structure UpgradedUpTo (verdict : BulkElement → Except UpgradeError BulkElement)
    (ibound : Nat) (mesh : Mesh) (k : Nat) (m : Mesh) : Prop where
  nboundary_element_eq : m.nboundary_element = mesh.nboundary_element
  below : ∀ i, i < k →
    verdict (mesh.boundary_element_pt ibound i) = Except.ok (m.boundary_element_pt ibound i)
  above : ∀ i, k ≤ i → m.boundary_element_pt ibound i = mesh.boundary_element_pt ibound i
  other : ∀ b i, b ≠ ibound → m.boundary_element_pt b i = mesh.boundary_element_pt b i

/-- What is known of the loop over the first `n` boundary elements: it
returned with all of them upgraded, or threw at the first element `e0` the
body rejects, with the elements before it upgraded. -/
def UpgradeRunInv (verdict : BulkElement → Except UpgradeError BulkElement)
    (ibound : Nat) (mesh : Mesh) (n : Nat) (o : Run UpgradeError Mesh) : Prop :=
  match o with
  | Run.returned m => UpgradedUpTo verdict ibound mesh n m
  | Run.threw err m =>
    ∃ e0, e0 < n ∧ UpgradedUpTo verdict ibound mesh e0 m
      ∧ verdict (mesh.boundary_element_pt ibound e0) = Except.error err

/-- The element passes both checks of the loop body: exactly one node is off
the boundary and the parameter of the node after it does not exceed that of
the node before it. -/
def PassesChecks (parametric_curve_pt : CurvilineGeomObject) (bound : Nat)
    (bulk_el : BulkElement) : Prop :=
  ∃ i, ExactlyOneOffBoundary bound bulk_el i
    ∧ parametric_curve_pt.get_zeta (bulk_el.node_pt ((i + 1) % 3)).x
        ≤ parametric_curve_pt.get_zeta (bulk_el.node_pt ((i + 2) % 3)).x


/-- A node at `(x0, x1)` that is on every boundary or on none. -/
def exampleNode (x0 x1 : ℚ) (on_boundary : Bool) : Node :=
  { x := fun i => if i = 0 then x0 else x1, is_on_boundary := fun _ => on_boundary }

/-- A straight-sided triangle with the given nodes. -/
def triangle (n0 n1 n2 : Node) : BulkElement :=
  { node_pt := fun i => if i = 0 then n0 else if i = 1 then n1 else n2, curved := none }

/-- Interior node 0; the boundary nodes 1 and 2 at parameters 1 and 2. -/
def goodElement : BulkElement :=
  triangle (exampleNode 0 1 false) (exampleNode 1 0 true) (exampleNode 2 0 true)

/-- Interior node 0; the boundary nodes 1 and 2 at parameters 2 and 1. -/
def invertedElement : BulkElement :=
  triangle (exampleNode 0 1 false) (exampleNode 2 0 true) (exampleNode 1 0 true)

/-- Interior node 0; the boundary nodes 1 and 2 both at parameter 1. -/
def degenerateElement : BulkElement :=
  triangle (exampleNode 0 1 false) (exampleNode 1 0 true) (exampleNode 1 0 true)

/-- All three nodes on the boundary. -/
def boundaryOnlyElement : BulkElement :=
  triangle (exampleNode 0 0 true) (exampleNode 1 0 true) (exampleNode 2 0 true)

/-- A mesh every boundary of which lists the given elements. -/
def meshOf (els : List BulkElement) : Mesh :=
  { nboundary_element := fun _ => els.length,
    boundary_element_pt := fun _ e => els.getD e boundaryOnlyElement }

/-- The boundary along the x axis, whose parameter is the x coordinate. -/
def xAxis : CurvilineGeomObject := straightBoundary 1 0

/-- No node on the boundary. -/
def floatingElement : BulkElement :=
  triangle (exampleNode 0 1 false) (exampleNode 1 1 false) (exampleNode 2 1 false)


/-! ## The boundary frames of circular_sector.cc

The three functions of type `Norm_and_tan_func` in namespace `Parameters`.
They are written over any field `K`, with the library functions `sqrt`, `cos`,
`sin` and `pow` as parameters, so that they run on rationals and can be
studied on the reals with the real functions. -/

/-- The four outputs of a `Norm_and_tan_func`: the normal `n`, the tangent `t`
and the matrices `dn`, `dt` of their derivatives. -/
structure NormalAndTangent (K : Type) where
  n : Nat → K
  t : Nat → K
  dn : Nat → Nat → K
  dt : Nat → Nat → K

/-- `Parameters::get_normal_and_tangent_straight_boundary_0` of
circular_sector.cc. -/
def Parameters.get_normal_and_tangent_straight_boundary_0 {K : Type} [Field K]
    (sqrt : K → K) (_x : Nat → K) : NormalAndTangent K :=
  -- endpoints
  let x0 : Nat → K := fun _ => 0
  let x1 : Nat → K := Function.update (fun _ => 0) 0 1
  let dx := x1 0 - x0 0
  let dy := x1 1 - x0 1
  let mag := sqrt (dx * dx + dy * dy)
  -- zero derivatives for straight lines
  let dn : Nat → Nat → K := fun _ _ => 0
  { n := fun i => if i = 0 then -dy / mag else dx / mag,
    t := fun i => if i = 0 then dx / mag else dy / mag,
    dn := dn,
    dt := dn }

/-- `Parameters::get_normal_and_tangent_straight_boundary_1` of
circular_sector.cc; `Alpha` is the global opening angle. -/
def Parameters.get_normal_and_tangent_straight_boundary_1 {K : Type} [Field K]
    (sqrt cos sin : K → K) (Alpha : K) (_x : Nat → K) : NormalAndTangent K :=
  -- endpoints
  let x0 : Nat → K := Function.update (Function.update (fun _ => 0) 0 (cos Alpha)) 1 (sin Alpha)
  let x1 : Nat → K := fun _ => 0
  let dx := x1 0 - x0 0
  let dy := x1 1 - x0 1
  let mag := sqrt (dx * dx + dy * dy)
  -- zero derivatives for straight lines
  let dn : Nat → Nat → K := fun _ _ => 0
  { n := fun i => if i = 0 then -dy / mag else dx / mag,
    t := fun i => if i = 0 then dx / mag else dy / mag,
    dn := dn,
    dt := dn }

/-- `Parameters::get_normal_and_tangent_circular_arc` of circular_sector.cc. -/
def Parameters.get_normal_and_tangent_circular_arc {K : Type} [Field K]
    (sqrt : K → K) (pow : K → K → K) (x : Nat → K) : NormalAndTangent K :=
  let mag := sqrt (x 0 * x 0 + x 1 * x 1)
  -- the (x,y) derivatives of the (x,y) components of the normal
  let dn : Nat → Nat → K := fun i j =>
    match i, j with
    | 0, 0 => x 1 * x 1 * pow (x 0 * x 0 + x 1 * x 1) (-1.5)
    | 1, 0 => -x 1 * x 0 * pow (x 0 * x 0 + x 1 * x 1) (-1.5)
    | 0, 1 => -x 0 * x 1 * pow (x 0 * x 0 + x 1 * x 1) (-1.5)
    | 1, 1 => x 0 * x 0 * pow (x 0 * x 0 + x 1 * x 1) (-1.5)
    | _, _ => 0
  { n := fun i => if i = 0 then x 0 / mag else x 1 / mag,
    t := fun i => if i = 0 then -x 1 / mag else x 0 / mag,
    dn := dn,
    dt := fun i j =>
      match i, j with
      | 0, 0 => -dn 1 0
      | 1, 0 => dn 0 0
      | 0, 1 => -dn 1 1
      | 1, 1 => dn 0 1
      | _, _ => 0 }

/-- The point `(3, 4)`, at distance 5 from the origin. -/
def examplePoint {K : Type} [Field K] : Nat → K := fun i => if i = 0 then 3 else 4

/-- The corner of the sector, where the two straight boundaries meet. -/
def cornerPoint {K : Type} [Field K] : Nat → K := fun _ => 0


/-! ## Exact square roots and curved example boundaries -/

/-- The parameter `sqrt` is exact at the squared speed of `curve` at the
boundary coordinate `s`: it returns a number whose square is
`dposition[0]^2 + dposition[1]^2`. -/
def ExactSqrtOfSpeed (sqrt : ℚ → ℚ) (curve : CurvilineGeomObject) (s : ℚ) : Prop :=
  sqrt (curve.dposition s 0 * curve.dposition s 0 + curve.dposition s 1 * curve.dposition s 1)
      * sqrt (curve.dposition s 0 * curve.dposition s 0
        + curve.dposition s 1 * curve.dposition s 1)
    = curve.dposition s 0 * curve.dposition s 0 + curve.dposition s 1 * curve.dposition s 1

/-- A parabola through the origin with velocity `(vx, vy)` and constant
acceleration `(0, c)`, so a curved boundary when `vx` and `c` are non-zero. -/
def parabolaBoundary (vx vy c : ℚ) : CurvilineGeomObject :=
  { position := fun s i => if i = 0 then vx * s else vy * s + c * s * s / 2,
    dposition := fun s i => if i = 0 then vx else vy + c * s,
    d2position := fun _ i => if i = 0 then 0 else c,
    get_zeta := fun x => x 0 / vx }

/-- The example element with both sides on the same parabola, of velocity
`(3, 4)` at the corner. -/
def smoothCorner (lagrange left right : Data) : DuplicateNodeConstraintElement :=
  { exampleElement lagrange left right with
    Left_boundary_pt := parabolaBoundary 3 4 25,
    Right_boundary_pt := parabolaBoundary 3 4 25 }

/-- Both nodes fully pinned, between the straight boundary of velocity
`(3, 4)` and the parabola of velocity `(-4, 3)`; the pinned values
`left[4] = -5`, `right[3] = -5`, `right[7] = -4` satisfy all eight
constraints as the assembly writes them. -/
def falseTearCorner : DuplicateNodeConstraintElement :=
  { exampleElement (freeData (fun _ => 0))
      (pinnedData (fun k => if k = 4 then -5 else 0))
      (pinnedData (fun k => if k = 3 then -5 else if k = 7 then -4 else 0)) with
    Right_boundary_pt := parabolaBoundary (-4) 3 25 }

/-- The number of unpinned values among the eight values of a data object. -/
def Data.count_unpinned (d : Data) : Nat :=
  ((List.range 8).filter (fun k => !d.is_pinned k)).length


/-! ## Rotation of the edge degrees of freedom

`rotate_edge_degrees_of_freedom` of both drivers hands each element with
nodes on a boundary to the library. What the library then does to the element
is not part of the drivers; the functions below return the sequence of calls
they issue. -/

/-- Modelled from the spec: the element list of the bulk mesh, `nelement()`
and `element_pt(e)`. -/
structure ElementList where
  nelement : Nat
  element_pt : Nat → BulkElement

/-- A call `el_pt->set_up_rotated_dofs(boundary_nodes.size(), boundary_nodes,
boundary_parametrisation_pt[b])` issued by src/circular_sector.cc for the
element number `e`. -/
structure RotatedDofsCall where
  e : Nat
  n_boundary_nodes : Nat
  boundary_nodes : List Nat
  b : Nat

/-- A call `set_nodal_boundary_parametrisation(boundary_node,
boundary_coordinate_of_node, Parametric_curve_pt[b])` issued by
src/star_trek.cc for the element number `e`. -/
structure BoundaryParametrisationCall where
  e : Nat
  boundary_node : List Nat
  boundary_coordinate_of_node : List ℚ
  b : Nat

/-- The loop over the three nodes of an element in src/circular_sector.cc:
the local indices of the nodes on boundary `b`, in the order they are pushed. -/
def CircularSector.boundary_nodes (b : Nat) (el_pt : BulkElement) : List Nat :=
  forLoop 0 3 (fun boundary_nodes n =>
    if (el_pt.node_pt n).is_on_boundary b then boundary_nodes ++ [n] else boundary_nodes) []

/-- `UnstructuredFvKProblem::rotate_edge_degrees_of_freedom` of
src/circular_sector.cc: the calls it issues, in order. -/
def CircularSector.rotate_edge_degrees_of_freedom (bulk_mesh_pt : ElementList) :
    List RotatedDofsCall :=
  let n_boundaries := 3
  forLoop 0 n_boundaries (fun calls b =>
    let n_element := bulk_mesh_pt.nelement
    forLoop 0 n_element (fun calls e =>
      let el_pt := bulk_mesh_pt.element_pt e
      let boundary_nodes := CircularSector.boundary_nodes b el_pt
      if !boundary_nodes.isEmpty then
        calls ++ [RotatedDofsCall.mk e boundary_nodes.length boundary_nodes b]
      else calls) calls) []

/-- The loop over the three nodes of an element in src/star_trek.cc: the
local indices of the nodes on boundary `b` and their boundary coordinates. -/
def StarTrek.boundary_node (Parametric_curve_pt : Nat → CurvilineGeomObject) (b : Nat)
    (el_pt : BulkElement) : List Nat × List ℚ :=
  forLoop 0 3 (fun (acc : List Nat × List ℚ) n =>
    if (el_pt.node_pt n).is_on_boundary b then
      (acc.1 ++ [n], acc.2 ++ [(Parametric_curve_pt b).get_zeta (el_pt.node_pt n).x])
    else acc) ([], [])

/-- `UnstructuredFvKProblem::rotate_edge_degrees_of_freedom` of
src/star_trek.cc: the calls it issues, in order. -/
def StarTrek.rotate_edge_degrees_of_freedom (Parametric_curve_pt : Nat → CurvilineGeomObject)
    (Bulk_mesh_pt : ElementList) : List BoundaryParametrisationCall :=
  let n_bound := 2
  let n_element := Bulk_mesh_pt.nelement
  forLoop 0 n_element (fun calls e =>
    let el_pt := Bulk_mesh_pt.element_pt e
    forLoop 0 n_bound (fun calls b =>
      let nodes := StarTrek.boundary_node Parametric_curve_pt b el_pt
      if !nodes.1.isEmpty then
        calls ++ [BoundaryParametrisationCall.mk e nodes.1 nodes.2 b]
      else calls) calls) []

/-- The element list holding the given elements. -/
def elementsOf (els : List BulkElement) : ElementList :=
  { nelement := els.length, element_pt := fun e => els.getD e boundaryOnlyElement }


/-! ## Forcing of the circular-sector driver -/

/-- `Parameters::P_mag` of src/circular_sector.cc, "Magnitude of pressure",
with the value it is initialised to; nothing in the driver assigns it. -/
def Parameters.P_mag : ℚ := 10.0

/-- `Parameters::get_pressure` of src/circular_sector.cc: the value assigned
to `pressure` at the point `x`. -/
def Parameters.get_pressure (_x : Nat → ℚ) : ℚ :=
  Parameters.P_mag

/-- `Parameters::get_in_plane_force` of src/circular_sector.cc: the vector
`grad` after the call at the point `x`. -/
def Parameters.get_in_plane_force (_x : Nat → ℚ) (grad : Nat → ℚ) : Nat → ℚ :=
  Function.update (Function.update grad 0 0) 1 0


/-! ## Duplication of the corner nodes

`duplicate_corner_nodes` of src/star_trek.cc works on pointers: the same node
is reached from the registry of a boundary and from the elements that contain
it. Nodes and elements are therefore named by a number here, and the mesh
holds their attributes as functions of that number. -/

/-- The arguments `duplicate_corner_nodes` passes to the constructor of
`DuplicateNodeConstraintElement`; the two nodes are named by their number. -/
structure ConstraintElementArgs where
  left_node_pt : Nat
  right_node_pt : Nat
  left_boundary_pt : CurvilineGeomObject
  right_boundary_pt : CurvilineGeomObject
  left_coord : ℚ
  right_coord : ℚ

/-- Modelled from the spec: the part of the library's mesh that
`duplicate_corner_nodes` reads and writes. Node `k < nnode` is `node_pt(k)` of
the bulk mesh; `x k` is its position and `is_on_boundary k b` its boundary
flag; `boundary_node_pt b` is the registry of the nodes of boundary `b`, in
order; `boundary_element_pt b` lists the elements next to boundary `b`;
`node_pt el n` is the node with local number `n` of element `el`;
`constraint_elements` is the content of `Constraint_mesh_pt`. -/
structure CornerMesh where
  nnode : Nat
  x : Nat → Nat → ℚ
  is_on_boundary : Nat → Nat → Bool
  nboundary : Nat
  boundary_node_pt : Nat → List Nat
  boundary_element_pt : Nat → List Nat
  node_pt : Nat → Nat → Nat
  constraint_elements : List ConstraintElementArgs

/-- Modelled from the spec: `FiniteElement::get_node_number`, the local
number of a node in a three-node element, or -1 when the node is not in the
element; a null pointer is in no element. -/
def CornerMesh.get_node_number (m : CornerMesh) (el_pt : Nat) (node_pt : Option Nat) : Int :=
  match node_pt with
  | none => -1
  | some k =>
    if m.node_pt el_pt 0 = k then 0
    else if m.node_pt el_pt 1 = k then 1
    else if m.node_pt el_pt 2 = k then 2
    else -1

/-- Modelled from the spec: `FiniteElement::construct_boundary_node(n)`
allocates a node, here named `m.nnode`, on no boundary and at the origin, and
makes it the node with local number `n` of the element. -/
def CornerMesh.construct_boundary_node (m : CornerMesh) (el_pt n : Nat) : CornerMesh :=
  { m with
    x := Function.update m.x m.nnode (fun _ => 0),
    is_on_boundary := Function.update m.is_on_boundary m.nnode (fun _ => false),
    node_pt := Function.update m.node_pt el_pt (Function.update (m.node_pt el_pt) n m.nnode) }

/-- Modelled from the spec: `Mesh::add_node_pt` appends the node to the
node list of the mesh. -/
def CornerMesh.add_node_pt (m : CornerMesh) : CornerMesh :=
  { m with nnode := m.nnode + 1 }

/-- Modelled from the spec: `Mesh::remove_boundary_node(b, node_pt)` takes
the node out of the registry of boundary `b` and clears its flag for `b`, if
the registry holds it, and does nothing otherwise. -/
def CornerMesh.remove_boundary_node (m : CornerMesh) (b node_pt : Nat) : CornerMesh :=
  if node_pt ∈ m.boundary_node_pt b then
    { m with
      boundary_node_pt := Function.update m.boundary_node_pt b
        ((m.boundary_node_pt b).erase node_pt),
      is_on_boundary := Function.update m.is_on_boundary node_pt
        (Function.update (m.is_on_boundary node_pt) b false) }
  else m

/-- Modelled from the spec: `Mesh::add_boundary_node(b, node_pt)` sets the
flag of the node for boundary `b` and appends the node to the registry of `b`
unless it is there already. -/
def CornerMesh.add_boundary_node (m : CornerMesh) (b node_pt : Nat) : CornerMesh :=
  { m with
    is_on_boundary := Function.update m.is_on_boundary node_pt
      (Function.update (m.is_on_boundary node_pt) b true),
    boundary_node_pt :=
      if node_pt ∈ m.boundary_node_pt b then m.boundary_node_pt
      else Function.update m.boundary_node_pt b (m.boundary_node_pt b ++ [node_pt]) }

/-- The first loop of an iteration: the first node in the registry of
boundary `i_bound` that is also on boundary `ip1_bound`, or the null pointer. -/
def CornerMesh.find_corner_node (m : CornerMesh) (i_bound ip1_bound : Nat) : Option Nat :=
  (m.boundary_node_pt i_bound).find? (fun node_pt => m.is_on_boundary node_pt ip1_bound)

/-- The second loop of an iteration: the first boundary element of
`ip1_bound` that contains the corner node, or the null pointer. -/
def CornerMesh.find_right_element (m : CornerMesh) (ip1_bound : Nat)
    (old_node_pt : Option Nat) : Option Nat :=
  (m.boundary_element_pt ip1_bound).find?
    (fun el_pt => decide (m.get_node_number el_pt old_node_pt ≠ -1))

/-- One iteration of the loop over the boundaries in
`duplicate_corner_nodes`. The result is `none` when the iteration
dereferences a null pointer, that is when no corner node or no element
containing it is found. -/
def duplicate_corner_node (Parametric_curve_pt : Nat → CurvilineGeomObject) (n_bound : Nat)
    (m : CornerMesh) (i_bound : Nat) : Option CornerMesh :=
  let ip1_bound := (i_bound + 1) % n_bound
  let old_node_pt := m.find_corner_node i_bound ip1_bound
  let right_element_pt := m.find_right_element ip1_bound old_node_pt
  match old_node_pt, right_element_pt with
  | some old_node, some right_element =>
    let new_node := m.nnode
    -- create the new node in place of the old one in the right element
    let m1 := m.construct_boundary_node right_element
      (m.get_node_number right_element (some old_node)).toNat
    -- copy the position
    let m2 := { m1 with
      x := Function.update m1.x new_node
        (Function.update (Function.update (m1.x new_node) 0 (m1.x old_node 0)) 1
          (m1.x old_node 1)) }
    let m3 := m2.add_node_pt
    -- replace the old node by the new one on the right boundary
    let m4 := m3.remove_boundary_node ip1_bound old_node
    let m5 := m4.add_boundary_node ip1_bound new_node
    let left_parametrisation_pt := Parametric_curve_pt i_bound
    let right_parametrisation_pt := Parametric_curve_pt ip1_bound
    let left_boundary_coordinate := left_parametrisation_pt.get_zeta (m5.x old_node)
    let right_boundary_coordinate := right_parametrisation_pt.get_zeta (m5.x new_node)
    some { m5 with
      constraint_elements := m5.constraint_elements ++
        [ConstraintElementArgs.mk old_node new_node left_parametrisation_pt
          right_parametrisation_pt left_boundary_coordinate right_boundary_coordinate] }
  | _, _ => none

/-- `UnstructuredFvKProblem::duplicate_corner_nodes` of src/star_trek.cc. -/
def duplicate_corner_nodes (Parametric_curve_pt : Nat → CurvilineGeomObject)
    (Bulk_mesh_pt : CornerMesh) : Option CornerMesh :=
  let n_bound := Bulk_mesh_pt.nboundary
  forLoop 0 n_bound (fun o i_bound =>
    o.bind (fun m => duplicate_corner_node Parametric_curve_pt n_bound m i_bound))
    (some Bulk_mesh_pt)

/-- The lookup scheme of the library is set up: the registry of a boundary
holds, once each, the nodes of the mesh whose flag for that boundary is set. -/
structure CornerMesh.WellFormed (m : CornerMesh) : Prop where
  registry : ∀ b k, k ∈ m.boundary_node_pt b ↔ (k < m.nnode ∧ m.is_on_boundary k b = true)
  nodup : ∀ b, (m.boundary_node_pt b).Nodup

/-- A mesh of four elements around the interior node 4, with two boundaries
that meet at the nodes 0 and 1: boundary 0 runs through the nodes 0, 2, 1 and
boundary 1 through the nodes 1, 3, 0. -/
def lensMesh : CornerMesh :=
  { nnode := 5,
    x := fun k i =>
      if k = 0 then (if i = 0 then -1 else 0)
      else if k = 1 then (if i = 0 then 1 else 0)
      else if k = 2 then (if i = 0 then 0 else 1)
      else if k = 3 then (if i = 0 then 0 else -1)
      else 0,
    is_on_boundary := fun k b =>
      (b = 0 && (k = 0 || k = 2 || k = 1)) || (b = 1 && (k = 1 || k = 3 || k = 0)),
    nboundary := 2,
    boundary_node_pt := fun b => if b = 0 then [0, 2, 1] else if b = 1 then [1, 3, 0] else [],
    boundary_element_pt := fun b => if b = 0 then [0, 1] else if b = 1 then [2, 3] else [],
    node_pt := fun el n =>
      if el = 0 then (if n = 0 then 0 else if n = 1 then 2 else 4)
      else if el = 1 then (if n = 0 then 2 else if n = 1 then 1 else 4)
      else if el = 2 then (if n = 0 then 1 else if n = 1 then 3 else 4)
      else (if n = 0 then 3 else if n = 1 then 0 else 4),
    constraint_elements := [] }

/-- Both nodes pinned to zero except the left node's dof 3, which is free;
the multipliers are zero except multiplier 4, which holds the value 7 left by
an earlier solve. -/
def staleGradientCorner : DuplicateNodeConstraintElement :=
  exampleElement (freeData (fun k => if k = 4 then 7 else 0)) (pinnedExcept 3 (fun _ => 0))
    (pinnedData (fun _ => 0))

/-- The number of binary digits of `n`, found by halving at most `fuel`
times. -/
def Binary64.bits : Nat → Nat → Nat
  | 0, _ => 0
  | fuel + 1, n => if n = 0 then 0 else Binary64.bits fuel (n / 2) + 1

/-- The binary exponent of a non-zero rational `x`: the integer `e` with
`2^e ≤ |x| < 2^(e+1)`. -/
def Binary64.exponent (x : ℚ) : ℤ :=
  if (2 : ℚ) ^ ((Binary64.bits x.num.natAbs x.num.natAbs : ℤ) - (Binary64.bits x.den x.den : ℤ))
      ≤ |x| then
    (Binary64.bits x.num.natAbs x.num.natAbs : ℤ) - (Binary64.bits x.den x.den : ℤ)
  else
    (Binary64.bits x.num.natAbs x.num.natAbs : ℤ) - (Binary64.bits x.den x.den : ℤ) - 1

/-- The spacing of the doubles around `x`: `2^(e-52)` for the exponent `e` of
`x`, and `2^(-1074)` in the subnormal range below `2^(-1022)`. -/
def Binary64.ulp (x : ℚ) : ℚ :=
  (2 : ℚ) ^ (max (Binary64.exponent x) (-1022) - 52)

/-- The integer nearest to `m`, the even one of the two when `m` lies half
way between them. -/
def Binary64.roundHalfEven (m : ℚ) : ℤ :=
  if m - ⌊m⌋ < 1 / 2 then ⌊m⌋
  else if 1 / 2 < m - ⌊m⌋ then ⌊m⌋ + 1
  else if ⌊m⌋ % 2 = 0 then ⌊m⌋ else ⌊m⌋ + 1

/-- Rounding of a non-negative rational to the nearest double. -/
def Binary64.roundMagnitude (x : ℚ) : ℚ :=
  (Binary64.roundHalfEven (x / Binary64.ulp x) : ℚ) * Binary64.ulp x

/-- Modelled from the spec: the rounding IEEE 754 binary64 applies to the exact
result of an operation (round to nearest, ties to even, 53 significant bits,
gradual underflow). A finite double is the rational number it stands for;
overflow to infinity and the sign of zero are not represented. -/
def Binary64.round (x : ℚ) : ℚ :=
  if 0 ≤ x then Binary64.roundMagnitude x else - Binary64.roundMagnitude (-x)

/-- Newton iteration for the integer square root, from a guess `g` that is
not below it. -/
def Binary64.isqrtFrom : Nat → Nat → Nat → Nat
  | 0, _, g => g
  | fuel + 1, n, g =>
    if (g + n / g) / 2 < g then Binary64.isqrtFrom fuel n ((g + n / g) / 2) else g

/-- The integer square root: the largest `r` with `r * r ≤ n`. -/
def Binary64.isqrt (n : Nat) : Nat :=
  if n = 0 then 0 else Binary64.isqrtFrom n n n

/-- Modelled from the spec: `std::sqrt` on doubles, which IEEE 754 requires to
be the exact square root rounded to the nearest double. With
`r = isqrt (floor (x * 4^k))` of more than 64 bits, the exact root times `2^k`
is `r` when `r * r = x * 4^k` and lies strictly between `r` and `r + 1`
otherwise, where every number rounds as `r + 1/2` does. -/
def Binary64.sqrt (x : ℚ) : ℚ :=
  if x ≤ 0 then 0
  else
    let k := Binary64.bits x.den x.den + 64
    let r := Binary64.isqrt (x.num.natAbs * 4 ^ k / x.den)
    if r * r * x.den = x.num.natAbs * 4 ^ k then Binary64.round ((r : ℚ) / 2 ^ k)
    else Binary64.round (((2 * r + 1 : ℕ) : ℚ) / 2 ^ (k + 1))

/-- The local variables and the two outputs of
`get_jac_and_hess_of_coordinate_transform` over a number type `K`. -/
structure Rounded.TransformLocals (K : Type) where
  left_mag : K
  right_mag : K
  left_ti : Nat → K
  left_ni : Nat → K
  left_dtids : Nat → K
  left_dnids : Nat → K
  right_ti : Nat → K
  right_ni : Nat → K
  right_dtids : Nat → K
  right_dnids : Nat → K
  left_jac : Nat → Nat → K
  right_jac : Nat → Nat → K
  left_hess : Nat → Nat → Nat → K
  right_hess : Nat → Nat → Nat → K
  left_jac_inv : Nat → Nat → K
  left_hess_inv : Nat → Nat → Nat → K
  jac_of_transform : Nat → Nat → K
  hess_of_transform : Nat → Nat → Nat → K

/-- The body of `get_jac_and_hess_of_coordinate_transform` (lines 419-550)
from the four vectors it reads off the two boundaries, in the order of
evaluation of the source, with `fl` applied to the result of every arithmetic
operation and `sqrt` for `sqrt`. `std::pow` is taken as the rounded power; a
sign change and an assignment do not round. Every entry of a matrix starts at
`0.0` and is accumulated by the loops in the order of the source. With
`fl = id` it is the formula in exact arithmetic, with `fl = Binary64.round`
the computation in doubles. -/
def Rounded.get_jac_and_hess_locals {K : Type} [Field K] (fl : K → K) (sqrt : K → K)
    (left_dxids left_d2xids2 right_dxids right_d2xids2 : Nat → K) :
    Rounded.TransformLocals K :=
  -- the speed of each parametrisation
  let left_mag := sqrt (fl (fl (left_dxids 0 * left_dxids 0) + fl (left_dxids 1 * left_dxids 1)))
  let right_mag :=
    sqrt (fl (fl (right_dxids 0 * right_dxids 0) + fl (right_dxids 1 * right_dxids 1)))
  -- tangents and their derivatives
  let left_ti : Nat → K := fun alpha => fl (left_dxids alpha / left_mag)
  let right_ti : Nat → K := fun alpha => fl (right_dxids alpha / right_mag)
  let left_dtids : Nat → K := fun alpha =>
    fl (fl (left_d2xids2 alpha / fl (left_mag ^ 2))
      - fl (fl (fl (fl (left_dxids 0 * left_d2xids2 0) + fl (left_dxids 1 * left_d2xids2 1))
          * left_dxids alpha) / fl (left_mag ^ 4)))
  let right_dtids : Nat → K := fun alpha =>
    fl (fl (right_d2xids2 alpha / fl (right_mag ^ 2))
      - fl (fl (fl (fl (right_dxids 0 * right_d2xids2 0) + fl (right_dxids 1 * right_d2xids2 1))
          * right_dxids alpha) / fl (right_mag ^ 4)))
  -- normals and their derivatives by orthogonality
  let left_ni : Nat → K := fun alpha => fl (fl ((-1) ^ alpha) * left_ti ((alpha + 1) % 2))
  let right_ni : Nat → K := fun alpha => fl (fl ((-1) ^ alpha) * right_ti ((alpha + 1) % 2))
  let left_dnids : Nat → K := fun alpha => fl (fl ((-1) ^ alpha) * left_dtids ((alpha + 1) % 2))
  let right_dnids : Nat → K := fun alpha =>
    fl (fl ((-1) ^ alpha) * right_dtids ((alpha + 1) % 2))
  -- Jacobians {{nx,tx},{ny,ty}} and Hessians of the boundary coordinates
  let left_jac : Nat → Nat → K := fun alpha c =>
    match c with
    | 0 => left_ni alpha
    | 1 => left_ti alpha
    | _ => 0
  let right_jac : Nat → Nat → K := fun alpha c =>
    match c with
    | 0 => right_ni alpha
    | 1 => right_ti alpha
    | _ => 0
  let left_hess : Nat → Nat → Nat → K := fun alpha b c =>
    match b, c with
    | 0, 1 => left_dnids alpha
    | 1, 0 => left_dnids alpha
    | 1, 1 => left_dtids alpha
    | _, _ => 0
  let right_hess : Nat → Nat → Nat → K := fun alpha b c =>
    match b, c with
    | 0, 1 => right_dnids alpha
    | 1, 0 => right_dnids alpha
    | 1, 1 => right_dtids alpha
    | _, _ => 0
  -- inverse Jacobian and Hessian of the left parametrisation
  let left_jac_inv : Nat → Nat → K := fun a b =>
    match a, b with
    | 0, 0 => left_jac 1 1
    | 0, 1 => - left_jac 0 1
    | 1, 0 => - left_jac 1 0
    | 1, 1 => left_jac 0 0
    | _, _ => 0
  let left_hess_inv : Nat → Nat → Nat → K := fun alpha beta gamma =>
    forLoop 0 2 (fun acc alpha2 =>
      forLoop 0 2 (fun acc beta2 =>
        forLoop 0 2 (fun acc gamma2 =>
          fl (acc - fl (fl (fl (left_jac_inv alpha alpha2 * left_hess alpha2 beta2 gamma2)
            * left_jac_inv beta2 beta) * left_jac_inv gamma2 gamma))) acc) acc) 0
  -- J = J_left^{-1} J_right,  H = H_left^{-1} J_right J_right + J_left^{-1} H_right
  let jac_of_transform : Nat → Nat → K := fun alpha beta =>
    forLoop 0 2 (fun acc gamma => fl (acc + fl (left_jac_inv alpha gamma * right_jac gamma beta)))
      0
  let hess_of_transform : Nat → Nat → Nat → K := fun alpha beta gamma =>
    forLoop 0 2 (fun acc mu =>
      forLoop 0 2 (fun acc nu =>
        fl (acc + fl (fl (left_hess_inv alpha mu nu * right_jac mu beta) * right_jac nu gamma)))
        (fl (acc + fl (left_jac_inv alpha mu * right_hess mu beta gamma)))) 0
  { left_mag := left_mag, right_mag := right_mag,
    left_ti := left_ti, left_ni := left_ni, left_dtids := left_dtids,
    left_dnids := left_dnids, right_ti := right_ti, right_ni := right_ni,
    right_dtids := right_dtids, right_dnids := right_dnids,
    left_jac := left_jac, right_jac := right_jac,
    left_hess := left_hess, right_hess := right_hess,
    left_jac_inv := left_jac_inv, left_hess_inv := left_hess_inv,
    jac_of_transform := jac_of_transform, hess_of_transform := hess_of_transform }

/-- The computation of `get_jac_and_hess_of_coordinate_transform` in doubles,
for the element `el`. -/
def Binary64.get_jac_and_hess_locals (el : DuplicateNodeConstraintElement) :
    Rounded.TransformLocals ℚ :=
  Rounded.get_jac_and_hess_locals Binary64.round Binary64.sqrt
    (el.Left_boundary_pt.dposition el.Left_node_coord)
    (el.Left_boundary_pt.d2position el.Left_node_coord)
    (el.Right_boundary_pt.dposition el.Right_node_coord)
    (el.Right_boundary_pt.d2position el.Right_node_coord)

/-- The computation of `get_jac_and_hess_of_coordinate_transform` in doubles:
`jac_of_transform` and `hess_of_transform` as the element receives them. -/
def Binary64.get_jac_and_hess_of_coordinate_transform (el : DuplicateNodeConstraintElement) :
    (Nat → Nat → ℚ) × (Nat → Nat → Nat → ℚ) :=
  ((Binary64.get_jac_and_hess_locals el).jac_of_transform,
    (Binary64.get_jac_and_hess_locals el).hess_of_transform)

/-- What the proofs use of a rounding: zero and one are doubles, the sign is
carried through, and a rounded number is not rounded again. -/
structure Rounded.IsRounding {K : Type} [Field K] (fl : K → K) : Prop where
  zero : fl 0 = 0
  one : fl 1 = 1
  neg : ∀ x, fl (-x) = - fl x
  idem : ∀ x, fl (fl x) = fl x

theorem forLoop_zero_two {σ : Type} (body : σ → Nat → σ) (init : σ) :
    forLoop 0 2 body init = body (body init 0) 1 := rfl

theorem forLoop_zero_three {σ : Type} (body : σ → Nat → σ) (init : σ) :
    forLoop 0 3 body init = body (body (body init 0) 1) 2 := rfl

theorem forLoop_one_two {σ : Type} (body : σ → Nat → σ) (init : σ) :
    forLoop 1 2 body init = body init 1 := rfl

theorem forLoop_zero_eight {σ : Type} (body : σ → Nat → σ) (init : σ) :
    forLoop 0 8 body init =
      body (body (body (body (body (body (body (body init 0) 1) 2) 3) 4) 5) 6) 7 := rfl

theorem hit_self (eqn : Int) (v : ℚ) (h : 0 ≤ eqn) : hit eqn eqn v = v := by
  simp [hit, h]

theorem hit_of_neg (eqn e : Int) (v : ℚ) (h : eqn < 0) : hit eqn e v = 0 := by
  simp [hit, not_le.mpr h]

theorem hit_of_ne (eqn e : Int) (v : ℚ) (h : ¬ e = eqn) : hit eqn e v = 0 := by
  simp [hit, h]

theorem add_to_apply (residuals : Int → ℚ) (eqn : Int) (v : ℚ) (e : Int) :
    add_to residuals eqn v e = residuals e + if e = eqn then v else 0 := by
  unfold add_to
  by_cases h : e = eqn
  · subst h; simp
  · simp [Function.update_apply, h]

theorem accumulate_apply (acc : Nat → ℚ) (i : Nat) (v : ℚ) (a : Nat) :
    accumulate acc i v a = acc a + if a = i then v else 0 := by
  unfold accumulate
  by_cases h : a = i
  · subst h; simp
  · simp [Function.update_apply, h]

theorem right_node_contribution_apply (el : DuplicateNodeConstraintElement)
    (residuals : Int → ℚ) (k : Nat) (e : Int) :
    right_node_contribution el residuals k e =
      residuals e + hit (el.external_local_eqn Index_of_right_data k) e
        (el.lagrange.value k) := by
  unfold right_node_contribution hit
  by_cases hq : 0 ≤ el.external_local_eqn Index_of_right_data k <;>
    simp [hq, add_to_apply]

theorem left_displacement_contribution_apply (el : DuplicateNodeConstraintElement)
    (residuals : Int → ℚ) (i : Nat) (e : Int) :
    left_displacement_contribution el residuals i e =
      residuals e + hit (el.external_local_eqn Index_of_left_data i) e
        (- el.lagrange.value i) := by
  unfold left_displacement_contribution hit
  by_cases hq : 0 ≤ el.external_local_eqn Index_of_left_data i <;>
    simp [hq, add_to_apply]

theorem left_gradient_contribution_apply (el : DuplicateNodeConstraintElement)
    (J : Nat → Nat → ℚ) (H : Nat → Nat → Nat → ℚ)
    (residuals : Int → ℚ) (alpha : Nat) (e : Int) :
    left_gradient_contribution el J H residuals alpha e =
      residuals e + hit (el.external_local_eqn Index_of_left_data (3 + alpha)) e
        (- el.lagrange.value 3 * J alpha 0 - el.lagrange.value 5 * H alpha 0 0
          - el.lagrange.value 6 * H alpha 0 1
          - el.lagrange.value 4 * J alpha 1 - el.lagrange.value 7 * H alpha 1 1) := by
  unfold left_gradient_contribution hit
  by_cases hq : 0 ≤ el.external_local_eqn Index_of_left_data (3 + alpha)
  · by_cases he : e = el.external_local_eqn Index_of_left_data (3 + alpha)
    · simp [hq, he, add_to_apply, forLoop_zero_two, forLoop_one_two]; ring
    · simp [hq, he, add_to_apply, forLoop_zero_two, forLoop_one_two]
  · simp [hq]

theorem left_curvature_contribution_apply (el : DuplicateNodeConstraintElement)
    (J : Nat → Nat → ℚ) (alpha : Nat) (residuals : Int → ℚ) (beta : Nat) (e : Int) :
    left_curvature_contribution el J alpha residuals beta e =
      residuals e + hit (el.external_local_eqn Index_of_left_data (5 + alpha + beta)) e
        (- el.lagrange.value 5 * J alpha 0 * J beta 0
          - el.lagrange.value 6 * J alpha 0 * J beta 1
          - el.lagrange.value 7 * J alpha 1 * J beta 1) := by
  unfold left_curvature_contribution hit
  by_cases hq : 0 ≤ el.external_local_eqn Index_of_left_data (5 + alpha + beta)
  · by_cases he : e = el.external_local_eqn Index_of_left_data (5 + alpha + beta)
    · simp [hq, he, add_to_apply, forLoop_zero_two, forLoop_one_two]; ring
    · simp [hq, he, add_to_apply, forLoop_zero_two, forLoop_one_two]
  · simp [hq]

theorem value_constraint_contribution_residuals (el : DuplicateNodeConstraintElement)
    (st : AssemblyState) (i : Nat) (e : Int) :
    (value_constraint_contribution el st i).residuals e =
      st.residuals e + hit (el.internal_local_eqn Index_of_lagrange_data i) e
        (el.right.value i - el.left.value i) := by
  unfold value_constraint_contribution hit
  by_cases h : 0 ≤ el.internal_local_eqn Index_of_lagrange_data i
  · simp [h, add_to_apply]
  · simp [h]

theorem value_constraint_contribution_acc (el : DuplicateNodeConstraintElement)
    (st : AssemblyState) (i : Nat) :
    (value_constraint_contribution el st i).DwJ = st.DwJ
      ∧ (value_constraint_contribution el st i).D2wJJ = st.D2wJJ
      ∧ (value_constraint_contribution el st i).DwH = st.DwH := by
  unfold value_constraint_contribution
  by_cases hq : 0 ≤ el.internal_local_eqn Index_of_lagrange_data i <;> simp [hq]

theorem gradient_constraint_contribution_residuals (el : DuplicateNodeConstraintElement)
    (J : Nat → Nat → ℚ) (st : AssemblyState) (alpha : Nat) (e : Int) :
    (gradient_constraint_contribution el J st alpha).residuals e =
      st.residuals e + hit (el.internal_local_eqn Index_of_lagrange_data (3 + alpha)) e
        (el.right.value (3 + alpha)
          - (st.DwJ alpha + el.left.value 3 * J 0 alpha + el.left.value 4 * J 1 alpha)) := by
  unfold gradient_constraint_contribution hit
  by_cases h : 0 ≤ el.internal_local_eqn Index_of_lagrange_data (3 + alpha)
  · simp [h, add_to_apply, accumulate_apply, forLoop_zero_two]
  · simp [h]

theorem gradient_constraint_contribution_DwJ (el : DuplicateNodeConstraintElement)
    (J : Nat → Nat → ℚ) (st : AssemblyState) (alpha a : Nat) (h : a ≠ alpha) :
    (gradient_constraint_contribution el J st alpha).DwJ a = st.DwJ a := by
  unfold gradient_constraint_contribution
  by_cases hq : 0 ≤ el.internal_local_eqn Index_of_lagrange_data (3 + alpha) <;>
    simp [hq, accumulate_apply, forLoop_zero_two, h]

theorem gradient_constraint_contribution_acc (el : DuplicateNodeConstraintElement)
    (J : Nat → Nat → ℚ) (st : AssemblyState) (alpha : Nat) :
    (gradient_constraint_contribution el J st alpha).D2wJJ = st.D2wJJ
      ∧ (gradient_constraint_contribution el J st alpha).DwH = st.DwH := by
  unfold gradient_constraint_contribution
  by_cases hq : 0 ≤ el.internal_local_eqn Index_of_lagrange_data (3 + alpha) <;> simp [hq]

theorem curvature_constraint_contribution_residuals (el : DuplicateNodeConstraintElement)
    (J : Nat → Nat → ℚ) (H : Nat → Nat → Nat → ℚ) (alpha : Nat) (st : AssemblyState)
    (beta : Nat) (e : Int) :
    (curvature_constraint_contribution el J H alpha st beta).residuals e =
      st.residuals e + hit (el.internal_local_eqn Index_of_lagrange_data (5 + alpha + beta)) e
        (el.right.value (5 + alpha + beta)
          - (st.D2wJJ (alpha + beta)
              + el.left.value 5 * J 0 alpha * J 0 beta + el.left.value 6 * J 0 alpha * J 1 beta
              + el.left.value 6 * J 1 alpha * J 0 beta + el.left.value 7 * J 1 alpha * J 1 beta)
          - (st.DwH (alpha + beta)
              + el.left.value 3 * H 0 alpha beta + el.left.value 4 * H 1 alpha beta)) := by
  unfold curvature_constraint_contribution hit
  by_cases h : 0 ≤ el.internal_local_eqn Index_of_lagrange_data (5 + alpha + beta)
  · simp [h, add_to_apply, accumulate_apply, forLoop_zero_two]
  · simp [h]

theorem curvature_constraint_contribution_acc (el : DuplicateNodeConstraintElement)
    (J : Nat → Nat → ℚ) (H : Nat → Nat → Nat → ℚ) (alpha : Nat) (st : AssemblyState)
    (beta a : Nat) (h : a ≠ alpha + beta) :
    (curvature_constraint_contribution el J H alpha st beta).D2wJJ a = st.D2wJJ a
      ∧ (curvature_constraint_contribution el J H alpha st beta).DwH a = st.DwH a := by
  unfold curvature_constraint_contribution
  by_cases hq : 0 ≤ el.internal_local_eqn Index_of_lagrange_data (5 + alpha + beta) <;>
    simp [hq, accumulate_apply, forLoop_zero_two, h]

/-- Entry `e` of the residual vector after the assembly: its value before
plus one guarded term per `+=` group of the source, with `J`, `H` the
outputs of `get_jac_and_hess_of_coordinate_transform`. -/
theorem fill_in_apply (sqrt : ℚ → ℚ) (el : DuplicateNodeConstraintElement)
    (residuals : Int → ℚ) (e : Int) (J : Nat → Nat → ℚ) (H : Nat → Nat → Nat → ℚ)
    (hJ : J = (get_jac_and_hess_of_coordinate_transform sqrt el).1)
    (hH : H = (get_jac_and_hess_of_coordinate_transform sqrt el).2) :
    fill_in_generic_residual_contribution_constraint sqrt el residuals e =
      residuals e
      + hit (el.external_local_eqn 1 0) e (el.lagrange.value 0)
      + hit (el.external_local_eqn 1 1) e (el.lagrange.value 1)
      + hit (el.external_local_eqn 1 2) e (el.lagrange.value 2)
      + hit (el.external_local_eqn 1 3) e (el.lagrange.value 3)
      + hit (el.external_local_eqn 1 4) e (el.lagrange.value 4)
      + hit (el.external_local_eqn 1 5) e (el.lagrange.value 5)
      + hit (el.external_local_eqn 1 6) e (el.lagrange.value 6)
      + hit (el.external_local_eqn 1 7) e (el.lagrange.value 7)
      + hit (el.external_local_eqn 0 0) e (- el.lagrange.value 0)
      + hit (el.external_local_eqn 0 1) e (- el.lagrange.value 1)
      + hit (el.external_local_eqn 0 2) e (- el.lagrange.value 2)
      + hit (el.external_local_eqn 0 3) e
          (- el.lagrange.value 3 * J 0 0 - el.lagrange.value 5 * H 0 0 0
            - el.lagrange.value 6 * H 0 0 1
            - el.lagrange.value 4 * J 0 1 - el.lagrange.value 7 * H 0 1 1)
      + hit (el.external_local_eqn 0 4) e
          (- el.lagrange.value 3 * J 1 0 - el.lagrange.value 5 * H 1 0 0
            - el.lagrange.value 6 * H 1 0 1
            - el.lagrange.value 4 * J 1 1 - el.lagrange.value 7 * H 1 1 1)
      + hit (el.external_local_eqn 0 5) e
          (- el.lagrange.value 5 * J 0 0 * J 0 0 - el.lagrange.value 6 * J 0 0 * J 0 1
            - el.lagrange.value 7 * J 0 1 * J 0 1)
      + hit (el.external_local_eqn 0 6) e
          (- el.lagrange.value 5 * J 0 0 * J 1 0 - el.lagrange.value 6 * J 0 0 * J 1 1
            - el.lagrange.value 7 * J 0 1 * J 1 1)
      + hit (el.external_local_eqn 0 6) e
          (- el.lagrange.value 5 * J 1 0 * J 0 0 - el.lagrange.value 6 * J 1 0 * J 0 1
            - el.lagrange.value 7 * J 1 1 * J 0 1)
      + hit (el.external_local_eqn 0 7) e
          (- el.lagrange.value 5 * J 1 0 * J 1 0 - el.lagrange.value 6 * J 1 0 * J 1 1
            - el.lagrange.value 7 * J 1 1 * J 1 1)
      + hit (el.internal_local_eqn 0 0) e (el.right.value 0 - el.left.value 0)
      + hit (el.internal_local_eqn 0 1) e (el.right.value 1 - el.left.value 1)
      + hit (el.internal_local_eqn 0 2) e (el.right.value 2 - el.left.value 2)
      + hit (el.internal_local_eqn 0 3) e
          (el.right.value 3 - (el.left.value 3 * J 0 0 + el.left.value 4 * J 1 0))
      + hit (el.internal_local_eqn 0 4) e
          (el.right.value 4 - (el.left.value 3 * J 0 1 + el.left.value 4 * J 1 1))
      + hit (el.internal_local_eqn 0 5) e
          (el.right.value 5
            - (el.left.value 5 * J 0 0 * J 0 0 + el.left.value 6 * J 0 0 * J 1 0
                + el.left.value 6 * J 1 0 * J 0 0 + el.left.value 7 * J 1 0 * J 1 0)
            - (el.left.value 3 * H 0 0 0 + el.left.value 4 * H 1 0 0))
      + hit (el.internal_local_eqn 0 6) e
          (el.right.value 6
            - (el.left.value 5 * J 0 0 * J 0 1 + el.left.value 6 * J 0 0 * J 1 1
                + el.left.value 6 * J 1 0 * J 0 1 + el.left.value 7 * J 1 0 * J 1 1)
            - (el.left.value 3 * H 0 0 1 + el.left.value 4 * H 1 0 1))
      + hit (el.internal_local_eqn 0 7) e
          (el.right.value 7
            - (el.left.value 5 * J 0 1 * J 0 1 + el.left.value 6 * J 0 1 * J 1 1
                + el.left.value 6 * J 1 1 * J 0 1 + el.left.value 7 * J 1 1 * J 1 1)
            - (el.left.value 3 * H 0 1 1 + el.left.value 4 * H 1 1 1)) := by
  subst hJ hH
  unfold fill_in_generic_residual_contribution_constraint
  simp only [forLoop_zero_two, forLoop_zero_three, forLoop_one_two, forLoop_zero_eight]
  simp only [curvature_constraint_contribution_residuals,
    gradient_constraint_contribution_residuals, value_constraint_contribution_residuals]
  simp [curvature_constraint_contribution_acc, gradient_constraint_contribution_acc,
    gradient_constraint_contribution_DwJ, value_constraint_contribution_acc,
    left_curvature_contribution_apply, left_gradient_contribution_apply,
    left_displacement_contribution_apply, right_node_contribution_apply,
    Index_of_left_data, Index_of_right_data, Index_of_lagrange_data]

theorem internal_nonneg_of_unpinned {el : DuplicateNodeConstraintElement}
    (h : LocalEqnsAssigned el) (k : Nat) (hk : k < 8)
    (hu : el.lagrange.is_pinned k = false) : 0 ≤ el.internal_local_eqn 0 k := by
  by_contra hneg
  have := (h.internal_pinned k hk).mpr (not_le.mp hneg)
  rw [hu] at this
  exact Bool.noConfusion this

theorem left_nonneg_of_unpinned {el : DuplicateNodeConstraintElement}
    (h : LocalEqnsAssigned el) (k : Nat) (hk : k < 8)
    (hu : el.left.is_pinned k = false) : 0 ≤ el.external_local_eqn 0 k := by
  by_contra hneg
  have := (h.left_pinned k hk).mpr (not_le.mp hneg)
  rw [hu] at this
  exact Bool.noConfusion this

theorem right_nonneg_of_unpinned {el : DuplicateNodeConstraintElement}
    (h : LocalEqnsAssigned el) (k : Nat) (hk : k < 8)
    (hu : el.right.is_pinned k = false) : 0 ≤ el.external_local_eqn 1 k := by
  by_contra hneg
  have := (h.right_pinned k hk).mpr (not_le.mp hneg)
  rw [hu] at this
  exact Bool.noConfusion this

theorem hit_external_at_internal {el : DuplicateNodeConstraintElement}
    (h : LocalEqnsAssigned el) (k : Nat) (hk : k < 8)
    (hn : 0 ≤ el.internal_local_eqn 0 k) (d j : Nat) (hd : d < 2) (hj : j < 8) (v : ℚ) :
    hit (el.external_local_eqn d j) (el.internal_local_eqn 0 k) v = 0 :=
  hit_of_ne _ _ _ (h.internal_ne_external k hk d hd j hj hn)

theorem hit_internal_at_internal {el : DuplicateNodeConstraintElement}
    (h : LocalEqnsAssigned el) (k : Nat) (hk : k < 8)
    (hn : 0 ≤ el.internal_local_eqn 0 k) (j : Nat) (hj : j < 8) (hjk : k ≠ j) (v : ℚ) :
    hit (el.internal_local_eqn 0 j) (el.internal_local_eqn 0 k) v = 0 :=
  hit_of_ne _ _ _ (fun heq => hjk (h.internal_inj k hk j hj hn heq))

theorem hit_internal_at_external {el : DuplicateNodeConstraintElement}
    (h : LocalEqnsAssigned el) (d j : Nat) (hd : d < 2) (hj : j < 8)
    (k : Nat) (hk : k < 8) (v : ℚ) :
    hit (el.internal_local_eqn 0 k) (el.external_local_eqn d j) v = 0 := by
  by_cases hn : 0 ≤ el.internal_local_eqn 0 k
  · exact hit_of_ne _ _ _ (fun heq => h.internal_ne_external k hk d hd j hj hn heq.symm)
  · exact hit_of_neg _ _ _ (not_le.mp hn)

theorem hit_external_at_external {el : DuplicateNodeConstraintElement}
    (h : LocalEqnsAssigned el) (d j : Nat) (hd : d < 2) (hj : j < 8)
    (hn : 0 ≤ el.external_local_eqn d j) (d2 j2 : Nat) (hd2 : d2 < 2) (hj2 : j2 < 8)
    (hne : ¬ (d = d2 ∧ j = j2)) (v : ℚ) :
    hit (el.external_local_eqn d2 j2) (el.external_local_eqn d j) v = 0 :=
  hit_of_ne _ _ _ (fun heq => hne (h.external_inj d hd j hj d2 hd2 j2 hj2 hn heq))

theorem exampleElement_assigned (lagrange left right : Data) :
    LocalEqnsAssigned (exampleElement lagrange left right) := by
  constructor
  · intro k _
    simp only [exampleElement, Data.is_pinned]
    cases lagrange.pinned k <;> simp
  · intro k _
    simp only [exampleElement, Data.is_pinned, Index_of_left_data]
    cases left.pinned k <;> simp
    omega
  · intro k _
    simp only [exampleElement, Data.is_pinned, Index_of_right_data]
    cases right.pinned k <;> simp
    omega
  · intro i _ j _
    simp only [exampleElement]
    cases lagrange.pinned i <;> cases lagrange.pinned j <;> simp
  · intro i hi d _ j hj
    simp only [exampleElement]
    cases lagrange.pinned i <;> cases left.pinned j <;> cases right.pinned j <;>
      by_cases hd : d = 0 <;> simp [hd] <;> omega
  · intro d hd i hi e he j hj
    simp only [exampleElement]
    have hd2 : d = 0 ∨ d = 1 := by omega
    have he2 : e = 0 ∨ e = 1 := by omega
    rcases hd2 with rfl | rfl <;> rcases he2 with rfl | rfl <;>
      cases left.pinned i <;> cases left.pinned j <;>
      cases right.pinned i <;> cases right.pinned j <;> simp <;> omega

theorem d_constraint_d_right_eq (J : Nat → Nat → ℚ) (H : Nat → Nat → Nat → ℚ)
    (left right : Nat → ℚ) (step : ℚ) (hs : step ≠ 0) (k j : Nat) (hk : k < 8) :
    d_constraint_d_right J H left right step k j = if k = j then 1 else 0 := by
  unfold d_constraint_d_right constraint_residual_spec
  by_cases hkj : k = j
  · subst hkj
    interval_cases k <;> simp [Finset.sum_range_succ] <;> field_simp
  · have hjk : ¬ j = k := fun h => hkj h.symm
    interval_cases k <;> simp [Finset.sum_range_succ, Function.update_apply, hkj, hjk]

theorem d_constraint_d_left_sum (J : Nat → Nat → ℚ) (H : Nat → Nat → Nat → ℚ)
    (left right : Nat → ℚ) (step : ℚ) (hs : step ≠ 0) (lam : Nat → ℚ) (j : Nat) (hj : j < 8) :
    ∑ k in Finset.range 8, lam k * d_constraint_d_left J H left right step k j =
      left_transpose_amount J H lam j := by
  have hsum : ∑ k in Finset.range 8, lam k * d_constraint_d_left J H left right step k j
      = (∑ k in Finset.range 8, lam k
          * (constraint_residual_spec J H (Function.update left j (left j + step)) right k
              - constraint_residual_spec J H left right k)) / step := by
    rw [Finset.sum_div]
    refine Finset.sum_congr rfl (fun k _ => ?_)
    unfold d_constraint_d_left
    ring
  rw [hsum, div_eq_iff hs]
  unfold constraint_residual_spec left_transpose_amount
  interval_cases j <;> simp [Finset.sum_range_succ, Function.update_apply] <;> ring

theorem left_node_amount (sqrt : ℚ → ℚ) (el : DuplicateNodeConstraintElement)
    (residuals : Int → ℚ) (h : LocalEqnsAssigned el) (j : Nat) (hj : j < 8)
    (hu : el.left.is_pinned j = false) :
    fill_in_generic_residual_contribution_constraint sqrt el residuals
        (el.external_local_eqn Index_of_left_data j)
      - residuals (el.external_local_eqn Index_of_left_data j)
      = left_transpose_amount (get_jac_and_hess_of_coordinate_transform sqrt el).1
          (get_jac_and_hess_of_coordinate_transform sqrt el).2 el.lagrange.value j := by
  have hn := left_nonneg_of_unpinned h j hj hu
  rw [fill_in_apply sqrt el residuals _ _ _ rfl rfl]
  unfold left_transpose_amount
  interval_cases j <;>
    simp [Index_of_left_data, hit_self _ _ hn,
      hit_internal_at_external h 0 _ (by norm_num) hj,
      hit_external_at_external h 0 _ (by norm_num) hj hn] <;> ring

theorem right_node_amount (sqrt : ℚ → ℚ) (el : DuplicateNodeConstraintElement)
    (residuals : Int → ℚ) (h : LocalEqnsAssigned el) (j : Nat) (hj : j < 8)
    (hu : el.right.is_pinned j = false) :
    fill_in_generic_residual_contribution_constraint sqrt el residuals
        (el.external_local_eqn Index_of_right_data j)
      - residuals (el.external_local_eqn Index_of_right_data j)
      = el.lagrange.value j := by
  have hn := right_nonneg_of_unpinned h j hj hu
  rw [fill_in_apply sqrt el residuals _ _ _ rfl rfl]
  interval_cases j <;>
    simp [Index_of_right_data, hit_self _ _ hn,
      hit_internal_at_external h 1 _ (by norm_num) hj,
      hit_external_at_external h 1 _ (by norm_num) hj hn]

/-! ## Claims on the residual assembly -/

/-- C1: for 0 <= alpha <= beta <= 1 with multiplier 5+alpha+beta unpinned,
the assembly adds to that multiplier's equation exactly
`right[5+alpha+beta] - sum_{gamma,delta} left[5+gamma+delta] J[gamma,alpha] J[delta,beta]
 - sum_gamma left[3+gamma] H[gamma](alpha,beta)`, once, with `J` and `H` the
outputs of `get_jac_and_hess_of_coordinate_transform`. -/
theorem curvature_constraint_equation (sqrt : ℚ → ℚ) (el : DuplicateNodeConstraintElement)
    (residuals : Int → ℚ) (h : LocalEqnsAssigned el) (alpha beta : Nat)
    (hab : alpha ≤ beta) (hb : beta ≤ 1)
    (hu : el.lagrange.is_pinned (5 + alpha + beta) = false) :
    fill_in_generic_residual_contribution_constraint sqrt el residuals
        (el.internal_local_eqn Index_of_lagrange_data (5 + alpha + beta))
      - residuals (el.internal_local_eqn Index_of_lagrange_data (5 + alpha + beta))
      = el.right.value (5 + alpha + beta)
        - ∑ gamma in Finset.range 2, ∑ delta in Finset.range 2,
            el.left.value (5 + gamma + delta)
              * (get_jac_and_hess_of_coordinate_transform sqrt el).1 gamma alpha
              * (get_jac_and_hess_of_coordinate_transform sqrt el).1 delta beta
        - ∑ gamma in Finset.range 2, el.left.value (3 + gamma)
            * (get_jac_and_hess_of_coordinate_transform sqrt el).2 gamma alpha beta := by
  have hn := internal_nonneg_of_unpinned h (5 + alpha + beta) (by omega) hu
  rw [fill_in_apply sqrt el residuals _ _ _ rfl rfl]
  have hcases : (alpha = 0 ∧ beta = 0) ∨ (alpha = 0 ∧ beta = 1) ∨ (alpha = 1 ∧ beta = 1) := by
    omega
  rcases hcases with ⟨rfl, rfl⟩ | ⟨rfl, rfl⟩ | ⟨rfl, rfl⟩ <;>
    simp [Index_of_lagrange_data, hit_self _ _ hn, hit_external_at_internal h _ (by norm_num) hn,
      hit_internal_at_internal h _ (by norm_num) hn, Finset.sum_range_succ] <;> ring

/-- C3: for i in 0..2 with multiplier i unpinned the assembly adds exactly
`right[i] - left[i]` to multiplier i's equation, whatever the boundary
curves (hence whatever `J` and `H`); when multiplier i is pinned its loop
iteration adds nothing. -/
theorem value_constraint_equation (sqrt : ℚ → ℚ) (el : DuplicateNodeConstraintElement)
    (residuals : Int → ℚ) (h : LocalEqnsAssigned el) (i : Nat) (hi : i < 3) :
    (el.lagrange.is_pinned i = false →
      fill_in_generic_residual_contribution_constraint sqrt el residuals
          (el.internal_local_eqn Index_of_lagrange_data i)
        - residuals (el.internal_local_eqn Index_of_lagrange_data i)
        = el.right.value i - el.left.value i)
    ∧ (el.lagrange.is_pinned i = true →
      ∀ st : AssemblyState, value_constraint_contribution el st i = st) := by
  constructor
  · intro hu
    have hn := internal_nonneg_of_unpinned h i (by omega) hu
    rw [fill_in_apply sqrt el residuals _ _ _ rfl rfl]
    interval_cases i <;>
      simp [Index_of_lagrange_data, hit_self _ _ hn,
        hit_external_at_internal h _ (by norm_num) hn,
        hit_internal_at_internal h _ (by norm_num) hn]
  · intro hp st
    have hneg := (h.internal_pinned i (by omega)).mp hp
    unfold value_constraint_contribution
    simp [not_le.mpr hneg]

/-- C2: for alpha in 0..1 with multiplier 3+alpha unpinned, the assembly adds
exactly `right[3+alpha] - sum_beta left[3+beta]*J[beta,alpha]` to that
multiplier's equation, with `J` the Jacobian of the coordinate transform. -/
theorem gradient_constraint_equation (sqrt : ℚ → ℚ) (el : DuplicateNodeConstraintElement)
    (residuals : Int → ℚ) (h : LocalEqnsAssigned el) (alpha : Nat) (ha : alpha < 2)
    (hu : el.lagrange.is_pinned (3 + alpha) = false) :
    fill_in_generic_residual_contribution_constraint sqrt el residuals
        (el.internal_local_eqn Index_of_lagrange_data (3 + alpha))
      - residuals (el.internal_local_eqn Index_of_lagrange_data (3 + alpha))
      = el.right.value (3 + alpha)
        - ∑ beta in Finset.range 2, el.left.value (3 + beta)
            * (get_jac_and_hess_of_coordinate_transform sqrt el).1 beta alpha := by
  have hn := internal_nonneg_of_unpinned h (3 + alpha) (by omega) hu
  rw [fill_in_apply sqrt el residuals _ _ _ rfl rfl]
  interval_cases alpha <;>
    simp [Index_of_lagrange_data, hit_self _ _ hn, hit_external_at_internal h _ (by norm_num) hn,
      hit_internal_at_internal h _ (by norm_num) hn, Finset.sum_range_succ]


/-- C4: the node-equation contributions are the transpose of the constraint
equations. For every unpinned dof j of the right node the assembly adds
`lambda_j = sum_k lambda_k * d c_k / d right[j]` to its equation; for every
unpinned dof j of the left node it adds `sum_k lambda_k * d c_k / d left[j]`,
which is `-lambda_j` for j < 3,
`-sum_beta lambda_{3+beta} J[alpha,beta] - sum_{beta<=gamma} lambda_{5+beta+gamma} H[alpha](beta,gamma)`
for j = 3 + alpha, and the `J*J` chain-rule factors for j = 5 + g. -/
theorem node_equations_transpose (sqrt : ℚ → ℚ) (el : DuplicateNodeConstraintElement)
    (residuals : Int → ℚ) (h : LocalEqnsAssigned el) (j : Nat) (hj : j < 8) :
    (el.right.is_pinned j = false →
      fill_in_generic_residual_contribution_constraint sqrt el residuals
          (el.external_local_eqn Index_of_right_data j)
        - residuals (el.external_local_eqn Index_of_right_data j) = el.lagrange.value j
      ∧ ∀ (left right : Nat → ℚ) (step : ℚ), step ≠ 0 →
        fill_in_generic_residual_contribution_constraint sqrt el residuals
            (el.external_local_eqn Index_of_right_data j)
          - residuals (el.external_local_eqn Index_of_right_data j)
          = ∑ k in Finset.range 8, el.lagrange.value k
              * d_constraint_d_right (get_jac_and_hess_of_coordinate_transform sqrt el).1
                  (get_jac_and_hess_of_coordinate_transform sqrt el).2 left right step k j)
    ∧ (el.left.is_pinned j = false →
      (∀ (left right : Nat → ℚ) (step : ℚ), step ≠ 0 →
        fill_in_generic_residual_contribution_constraint sqrt el residuals
            (el.external_local_eqn Index_of_left_data j)
          - residuals (el.external_local_eqn Index_of_left_data j)
          = ∑ k in Finset.range 8, el.lagrange.value k
              * d_constraint_d_left (get_jac_and_hess_of_coordinate_transform sqrt el).1
                  (get_jac_and_hess_of_coordinate_transform sqrt el).2 left right step k j)
      ∧ (j < 3 →
        fill_in_generic_residual_contribution_constraint sqrt el residuals
            (el.external_local_eqn Index_of_left_data j)
          - residuals (el.external_local_eqn Index_of_left_data j) = - el.lagrange.value j)
      ∧ (∀ alpha, alpha < 2 → j = 3 + alpha →
        fill_in_generic_residual_contribution_constraint sqrt el residuals
            (el.external_local_eqn Index_of_left_data j)
          - residuals (el.external_local_eqn Index_of_left_data j)
          = - ∑ beta in Finset.range 2, el.lagrange.value (3 + beta)
                * (get_jac_and_hess_of_coordinate_transform sqrt el).1 alpha beta
            - ∑ beta in Finset.range 2, ∑ gamma in Finset.Ico beta 2,
                el.lagrange.value (5 + beta + gamma)
                  * (get_jac_and_hess_of_coordinate_transform sqrt el).2 alpha beta gamma)
      ∧ (∀ g, g < 3 → j = 5 + g →
        fill_in_generic_residual_contribution_constraint sqrt el residuals
            (el.external_local_eqn Index_of_left_data j)
          - residuals (el.external_local_eqn Index_of_left_data j)
          = - ∑ beta in Finset.range 2, ∑ gamma in Finset.Ico beta 2,
                el.lagrange.value (5 + beta + gamma)
                  * ∑ a in Finset.range 2, ∑ b in Finset.range 2,
                      if a + b = g then
                        (get_jac_and_hess_of_coordinate_transform sqrt el).1 a beta
                          * (get_jac_and_hess_of_coordinate_transform sqrt el).1 b gamma
                      else 0)) := by
  refine ⟨fun hu => ?_, fun hu => ?_⟩
  · have hr := right_node_amount sqrt el residuals h j hj hu
    refine ⟨hr, fun left right step hs => ?_⟩
    rw [hr, Finset.sum_congr rfl (fun k hk => by
      rw [d_constraint_d_right_eq _ _ left right step hs k j (Finset.mem_range.mp hk)])]
    simp [Finset.sum_ite_eq', hj]
  · have hl := left_node_amount sqrt el residuals h j hj hu
    refine ⟨fun left right step hs => ?_, fun h3 => ?_, fun alpha ha hja => ?_,
      fun g hg hjg => ?_⟩
    · rw [hl, d_constraint_d_left_sum _ _ left right step hs _ j hj]
    · rw [hl]; simp [left_transpose_amount, h3]
    · rw [hl]; subst hja
      interval_cases alpha <;>
        simp [left_transpose_amount, Finset.sum_range_succ, Finset.sum_Ico_eq_sum_range] <;> ring
    · rw [hl]; subst hjg
      interval_cases g <;>
        simp [left_transpose_amount, Finset.sum_range_succ, Finset.sum_Ico_eq_sum_range] <;> ring

/-- Witness for C1 at the free corner, (alpha, beta) = (0, 1), zero residual vector. -/
theorem curvature_constraint_equation_witness :
    LocalEqnsAssigned freeCorner ∧ freeCorner.lagrange.is_pinned (5 + 0 + 1) = false ∧
    fill_in_generic_residual_contribution_constraint exampleSqrt freeCorner (fun _ => 0)
        (freeCorner.internal_local_eqn Index_of_lagrange_data (5 + 0 + 1))
      - (fun _ => (0 : ℚ)) (freeCorner.internal_local_eqn Index_of_lagrange_data (5 + 0 + 1))
      = freeCorner.right.value (5 + 0 + 1)
        - ∑ gamma in Finset.range 2, ∑ delta in Finset.range 2,
            freeCorner.left.value (5 + gamma + delta)
              * (get_jac_and_hess_of_coordinate_transform exampleSqrt freeCorner).1 gamma 0
              * (get_jac_and_hess_of_coordinate_transform exampleSqrt freeCorner).1 delta 1
        - ∑ gamma in Finset.range 2, freeCorner.left.value (3 + gamma)
            * (get_jac_and_hess_of_coordinate_transform exampleSqrt freeCorner).2 gamma 0 1 :=
  ⟨exampleElement_assigned _ _ _, rfl,
    curvature_constraint_equation exampleSqrt freeCorner (fun _ => 0)
      (exampleElement_assigned _ _ _) 0 1 (by norm_num) (by norm_num) rfl⟩

/-- Witness for C2 at the free corner, alpha = 1, zero residual vector. -/
theorem gradient_constraint_equation_witness :
    LocalEqnsAssigned freeCorner ∧ freeCorner.lagrange.is_pinned (3 + 1) = false ∧
    fill_in_generic_residual_contribution_constraint exampleSqrt freeCorner (fun _ => 0)
        (freeCorner.internal_local_eqn Index_of_lagrange_data (3 + 1))
      - (fun _ => (0 : ℚ)) (freeCorner.internal_local_eqn Index_of_lagrange_data (3 + 1))
      = freeCorner.right.value (3 + 1)
        - ∑ beta in Finset.range 2, freeCorner.left.value (3 + beta)
            * (get_jac_and_hess_of_coordinate_transform exampleSqrt freeCorner).1 beta 1 :=
  ⟨exampleElement_assigned _ _ _, rfl,
    gradient_constraint_equation exampleSqrt freeCorner (fun _ => 0)
      (exampleElement_assigned _ _ _) 1 (by norm_num) rfl⟩

/-- Witness for C3: multiplier 2 of the free corner receives `right[2] - left[2]`,
and the pinned multiplier 2 of the clamped corner receives nothing. -/
theorem value_constraint_equation_witness :
    (LocalEqnsAssigned freeCorner ∧ freeCorner.lagrange.is_pinned 2 = false ∧
      fill_in_generic_residual_contribution_constraint exampleSqrt freeCorner (fun _ => 0)
          (freeCorner.internal_local_eqn Index_of_lagrange_data 2)
        - (fun _ => (0 : ℚ)) (freeCorner.internal_local_eqn Index_of_lagrange_data 2)
        = freeCorner.right.value 2 - freeCorner.left.value 2)
    ∧ (LocalEqnsAssigned clampedCorner ∧ clampedCorner.lagrange.is_pinned 2 = true ∧
      ∀ st : AssemblyState, value_constraint_contribution clampedCorner st 2 = st) :=
  ⟨⟨exampleElement_assigned _ _ _, rfl,
      (value_constraint_equation exampleSqrt freeCorner (fun _ => 0)
        (exampleElement_assigned _ _ _) 2 (by norm_num)).1 rfl⟩,
    ⟨exampleElement_assigned _ _ _, rfl,
      (value_constraint_equation exampleSqrt clampedCorner (fun _ => 0)
        (exampleElement_assigned _ _ _) 2 (by norm_num)).2 rfl⟩⟩

/-- Witness for C4 at the free corner: the right dof 6 receives `lambda_6`
and the left dof 4 = 3 + 1 receives the transposed gradient and Hessian terms. -/
theorem node_equations_transpose_witness :
    LocalEqnsAssigned freeCorner ∧ freeCorner.right.is_pinned 6 = false
      ∧ freeCorner.left.is_pinned 4 = false
      ∧ fill_in_generic_residual_contribution_constraint exampleSqrt freeCorner (fun _ => 0)
            (freeCorner.external_local_eqn Index_of_right_data 6)
          - (fun _ => (0 : ℚ)) (freeCorner.external_local_eqn Index_of_right_data 6)
          = freeCorner.lagrange.value 6
      ∧ fill_in_generic_residual_contribution_constraint exampleSqrt freeCorner (fun _ => 0)
            (freeCorner.external_local_eqn Index_of_left_data 4)
          - (fun _ => (0 : ℚ)) (freeCorner.external_local_eqn Index_of_left_data 4)
          = - ∑ beta in Finset.range 2, freeCorner.lagrange.value (3 + beta)
                * (get_jac_and_hess_of_coordinate_transform exampleSqrt freeCorner).1 1 beta
            - ∑ beta in Finset.range 2, ∑ gamma in Finset.Ico beta 2,
                freeCorner.lagrange.value (5 + beta + gamma)
                  * (get_jac_and_hess_of_coordinate_transform exampleSqrt freeCorner).2 1 beta gamma
      ∧ ((1 : ℚ) ≠ 0
        ∧ fill_in_generic_residual_contribution_constraint exampleSqrt freeCorner (fun _ => 0)
              (freeCorner.external_local_eqn Index_of_left_data 4)
            - (fun _ => (0 : ℚ)) (freeCorner.external_local_eqn Index_of_left_data 4)
            = ∑ k in Finset.range 8, freeCorner.lagrange.value k
                * d_constraint_d_left
                    (get_jac_and_hess_of_coordinate_transform exampleSqrt freeCorner).1
                    (get_jac_and_hess_of_coordinate_transform exampleSqrt freeCorner).2
                    (fun _ => 0) (fun _ => 0) 1 k 4) :=
  ⟨exampleElement_assigned _ _ _, rfl, rfl,
    ((node_equations_transpose exampleSqrt freeCorner (fun _ => 0)
      (exampleElement_assigned _ _ _) 6 (by norm_num)).1 rfl).1,
    ((node_equations_transpose exampleSqrt freeCorner (fun _ => 0)
      (exampleElement_assigned _ _ _) 4 (by norm_num)).2 rfl).2.2.1 1 (by norm_num) rfl,
    one_ne_zero,
    ((node_equations_transpose exampleSqrt freeCorner (fun _ => 0)
      (exampleElement_assigned _ _ _) 4 (by norm_num)).2 rfl).1 (fun _ => 0) (fun _ => 0) 1
      one_ne_zero⟩

/-! ## The validation run -/

theorem forLoopThrowing_zero_three {σ : Type} (body : σ → Nat → Outcome σ) (init : σ) :
    forLoopThrowing 0 3 body init =
      ((body init 0).andThen (fun s => body s 1)).andThen (fun s => body s 2) := rfl

theorem forLoopThrowing_zero_two {σ : Type} (body : σ → Nat → Outcome σ) (init : σ) :
    forLoopThrowing 0 2 body init = (body init 0).andThen (fun s => body s 1) := rfl

theorem forLoopThrowing_one_two {σ : Type} (body : σ → Nat → Outcome σ) (init : σ) :
    forLoopThrowing 1 2 body init = body init 1 := rfl

theorem Constraint_tolerance_pos : 0 < Constraint_tolerance := by
  unfold Constraint_tolerance; norm_num

theorem Outcome.Sat.andThen {σ : Type} {o : Outcome σ} {f : σ → Outcome σ}
    {P Q : σ → Prop} {E : OomphLibError → σ → Prop}
    (h : o.Sat P E) (hf : ∀ s, P s → (f s).Sat Q E) : (o.andThen f).Sat Q E := by
  cases o with
  | returned s => exact hf s h
  | threw e s => exact h

theorem ValidationInv.left_eq {el : DuplicateNodeConstraintElement} {n : Nat}
    {st : ValidationState} (h : ValidationInv el n st) : st.element.left = el.left := by
  rw [h.element_eq]

theorem ValidationInv.right_eq {el : DuplicateNodeConstraintElement} {n : Nat}
    {st : ValidationState} (h : ValidationInv el n st) : st.element.right = el.right := by
  rw [h.element_eq]

theorem ValidationInv.boundary_eq {el : DuplicateNodeConstraintElement} {n : Nat}
    {st : ValidationState} (h : ValidationInv el n st) :
    st.element.Left_boundary_pt.position st.element.Left_node_coord
      = el.Left_boundary_pt.position el.Left_node_coord := by
  rw [h.element_eq]

theorem ValidationInv.pin_element_eq {el : DuplicateNodeConstraintElement} {n : Nat}
    {st : ValidationState} (h : ValidationInv el n st) (i : Nat) :
    (st.pin_multiplier i).element
      = { el with lagrange := (st.pin_multiplier i).element.lagrange } := by
  have hel := h.element_eq
  simp only [ValidationState.pin_multiplier]; rw [hel]

/-- The invariant moves from `n` to `n + 1` constraints across a state change
that touches only the flags of constraint `n` and the left vector of booleans. -/
theorem ValidationInv.advance {el : DuplicateNodeConstraintElement} {n : Nat}
    {st st2 : ValidationState} (h : ValidationInv el n st)
    (hel : st2.element = { el with lagrange := st2.element.lagrange })
    (hval : st2.element.lagrange.value = el.lagrange.value)
    (hp : ∀ j, j ≠ n → st2.element.lagrange.pinned j = st.element.lagrange.pinned j)
    (hr : ∀ j, j ≠ n → st2.right_data_used j = st.right_data_used j)
    (hl : ∀ j, j < 3 → j ≠ n → st2.left_data_used j = st.left_data_used j)
    (hl2 : n < 3 → ∀ j, 3 ≤ j → st2.left_data_used j = st.left_data_used j)
    (new_value : n < 3 →
      st2.element.lagrange.pinned n = (el.right.pinned n && el.left.pinned n))
    (new_3 : n = 3 →
      st2.element.lagrange.pinned 3 = (el.right.pinned 3 && el.left.pinned 3 && el.left.pinned 4)
      ∧ st2.left_data_used 3 = (el.right.pinned 3 && !el.left.pinned 3)
      ∧ st2.left_data_used 4 = (el.right.pinned 3 && el.left.pinned 3 && !el.left.pinned 4))
    (new_4 : n = 4 →
      st2.element.lagrange.pinned 4 =
        (el.right.pinned 4
          && !(!el.left.pinned 3 && !(el.right.pinned 3 && !el.left.pinned 3))
          && !(!el.left.pinned 4
                && !(el.right.pinned 3 && el.left.pinned 3 && !el.left.pinned 4)))) :
    ValidationInv el (n + 1) st2 := by
  constructor
  · exact hel
  · exact hval
  · intro j hj; rw [hp j (by omega)]; exact h.pinned_ge j (by omega)
  · intro j hj; rw [hr j (by omega)]; exact h.right_used_ge j (by omega)
  · intro j hj hj3; rw [hl j hj3 (by omega)]; exact h.left_used_ge j (by omega) hj3
  · intro hn j hj; rw [hl2 (by omega) j hj]; exact h.left_used_grad (by omega) j hj
  · intro j hj3 hj
    by_cases hjn : j = n
    · subst hjn; exact new_value hj3
    · rw [hp j hjn]; exact h.pinned_value j hj3 (by omega)
  · intro hn
    by_cases h3 : n = 3
    · exact (new_3 h3).1
    · rw [hp 3 (fun h => h3 h.symm)]; exact h.pinned_3 (by omega)
  · intro hn; exact (new_3 (by omega)).2.1
  · intro hn; exact (new_3 (by omega)).2.2
  · intro hn
    by_cases h4 : n = 4
    · exact new_4 h4
    · rw [hp 4 (fun h => h4 h.symm)]; exact h.pinned_4 (by omega)

theorem validate_value_constraint_inv (el : DuplicateNodeConstraintElement)
    (J : Nat → Nat → ℚ) (i : Nat) (hi : i < 3) (st : ValidationState)
    (h : ValidationInv el i st) :
    (validate_value_constraint st i).Sat (ValidationInv el (i + 1)) (ValidationThrow el J) := by
  have hru := h.right_used_ge i le_rfl
  have hlu := h.left_used_ge i le_rfl hi
  have hpi := h.pinned_ge i le_rfl
  have hel := h.element_eq
  unfold validate_value_constraint check_and_pin
  simp only [Data.is_pinned, h.left_eq, h.right_eq, hru, hlu]
  by_cases hR : el.right.pinned i = false
  · simp only [hR, Outcome.Sat]
    refine h.advance hel h.value_eq (fun j _ => rfl) (fun j hj => ?_) (fun j _ _ => rfl)
      (fun _ j _ => rfl) (fun _ => ?_) (fun hn => by omega) (fun hn => by omega)
    · simp [ValidationState.use_right, Function.update_apply, hj]
    · simp [ValidationState.use_right, hpi, hR]
  · have hR2 : el.right.pinned i = true := by simpa using hR
    by_cases hL : el.left.pinned i = false
    · simp only [hR2, hL, Outcome.Sat]
      refine h.advance hel h.value_eq (fun j _ => rfl) (fun j _ => rfl) (fun j _ hj => ?_)
        (fun _ j hj => ?_) (fun _ => ?_) (fun hn => by omega) (fun hn => by omega)
      · simp [ValidationState.use_left, Function.update_apply, hj]
      · simp only [ValidationState.use_left, Function.update_apply]
        rw [if_neg (by omega)]
      · simp [ValidationState.use_left, hpi, hR2, hL]
    · have hL2 : el.left.pinned i = true := by simpa using hL
      by_cases hres : el.right.value i - el.left.value i > Constraint_tolerance
      · simp only [hR2, hL2, Outcome.Sat, hres]
        simp only [Bool.not_true, Bool.false_and, Bool.false_eq_true, if_false, if_true]
        exact
          { index_lt := by simp [throw_unsatisfiable_constraint_error]; omega
            inv := h
            x_eq := h.boundary_eq
            res_gt := hres
            value_case := fun _ => ⟨hR2, hL2, rfl⟩
            gradient_case := fun alpha _ ha => by
              simp [throw_unsatisfiable_constraint_error] at ha; omega }
      · simp only [hR2, hL2, Outcome.Sat, hres]
        simp only [Bool.not_true, Bool.false_and, Bool.false_eq_true, if_false, if_true]
        refine h.advance (h.pin_element_eq i) h.value_eq (fun j hj => ?_) (fun j _ => rfl)
          (fun j _ _ => rfl) (fun _ j _ => rfl) (fun _ => ?_) (fun hn => by omega)
          (fun hn => by omega)
        · simp [ValidationState.pin_multiplier, Data.pin, Function.update_apply, hj]
        · simp [ValidationState.pin_multiplier, Data.pin, hR2, hL2]


theorem check_and_pin_sat (st : ValidationState) (i : Nat) (r : ℚ)
    {Q : ValidationState → Prop} {E : OomphLibError → ValidationState → Prop}
    (hthrow : r > Constraint_tolerance →
      E (throw_unsatisfiable_constraint_error st.element i r) st)
    (hpin : ¬ r > Constraint_tolerance → Q (st.pin_multiplier i)) :
    (check_and_pin st i r).Sat Q E := by
  unfold check_and_pin
  by_cases hr : r > Constraint_tolerance
  · simpa [hr, Outcome.Sat] using hthrow hr
  · simpa [hr, Outcome.Sat] using hpin hr

theorem validate_gradient_constraint_inv_zero (el : DuplicateNodeConstraintElement)
    (J : Nat → Nat → ℚ) (st : ValidationState) (h : ValidationInv el 3 st) :
    (validate_gradient_constraint J st 0).Sat (ValidationInv el 4) (ValidationThrow el J) := by
  have hru := h.right_used_ge 3 le_rfl
  have hl3 := h.left_used_grad le_rfl 3 le_rfl
  have hl4 := h.left_used_grad le_rfl 4 (by norm_num)
  have hpi := h.pinned_ge 3 le_rfl
  have hel := h.element_eq
  unfold validate_gradient_constraint
  simp only [Data.is_pinned, h.left_eq, h.right_eq, hru, hl3, hl4, Nat.add_zero]
  by_cases hR : el.right.pinned 3 = false
  · simp only [hR, Outcome.Sat]
    refine h.advance hel h.value_eq (fun j _ => rfl) (fun j hj => ?_) (fun j _ _ => rfl)
      (fun hn => by omega) (fun hn => by omega) (fun _ => ?_) (fun hn => by omega)
    · simp [ValidationState.use_right, Function.update_apply, hj]
    · simp [ValidationState.use_right, hpi, hR, hl3, hl4]
  · have hR2 : el.right.pinned 3 = true := by simpa using hR
    by_cases hL3 : el.left.pinned 3 = false
    · simp only [hR2, hL3, Outcome.Sat]
      refine h.advance hel h.value_eq (fun j _ => rfl) (fun j _ => rfl) (fun j hj3 _ => ?_)
        (fun hn => by omega) (fun hn => by omega) (fun _ => ?_) (fun hn => by omega)
      · simp only [ValidationState.use_left, Function.update_apply]
        rw [if_neg (by omega)]
      · simp [ValidationState.use_left, hpi, hR2, hL3, hl4]
    · have hL32 : el.left.pinned 3 = true := by simpa using hL3
      by_cases hL4 : el.left.pinned 4 = false
      · simp only [hR2, hL32, hL4, Outcome.Sat]
        refine h.advance hel h.value_eq (fun j _ => rfl) (fun j _ => rfl) (fun j hj3 _ => ?_)
          (fun hn => by omega) (fun hn => by omega) (fun _ => ?_) (fun hn => by omega)
        · simp only [ValidationState.use_left, Function.update_apply]
          rw [if_neg (by omega)]
        · simp [ValidationState.use_left, hpi, hR2, hL32, hL4, hl3]
      · have hL42 : el.left.pinned 4 = true := by simpa using hL4
        simp only [hR2, hL32, hL42, forLoop_zero_two, Bool.not_true,
          Bool.false_and, Bool.false_eq_true, if_false]
        refine check_and_pin_sat _ _ _ (fun hres => ?_) (fun _ => ?_)
        · exact
            { index_lt := by simp [throw_unsatisfiable_constraint_error]
              inv := h
              x_eq := h.boundary_eq
              res_gt := hres
              value_case := fun h3 => by simp [throw_unsatisfiable_constraint_error] at h3
              gradient_case := fun alpha _ ha => by
                have ha0 : alpha = 0 := by
                  simp [throw_unsatisfiable_constraint_error] at ha; omega
                subst ha0
                refine ⟨hR2, Or.inl hL32, Or.inl hL42, ?_⟩
                simp [throw_unsatisfiable_constraint_error, Finset.sum_range_succ]
                ring }
        · refine h.advance (h.pin_element_eq 3) h.value_eq (fun j hj => ?_) (fun j _ => rfl)
            (fun j _ _ => rfl) (fun hn => by omega) (fun hn => by omega) (fun _ => ?_)
            (fun hn => by omega)
          · simp [ValidationState.pin_multiplier, Data.pin, Function.update_apply, hj]
          · simp [ValidationState.pin_multiplier, Data.pin, hR2, hL32, hL42, hl3, hl4]


theorem validate_gradient_constraint_inv_one (el : DuplicateNodeConstraintElement)
    (J : Nat → Nat → ℚ) (st : ValidationState) (h : ValidationInv el 4 st) :
    (validate_gradient_constraint J st 1).Sat (ValidationInv el 5) (ValidationThrow el J) := by
  have hru := h.right_used_ge 4 le_rfl
  have hl3 := h.left_used_3 rfl
  have hl4 := h.left_used_4 rfl
  have hpi := h.pinned_ge 4 le_rfl
  have hel := h.element_eq
  have new4 : ∀ b : Bool,
      b = (el.right.pinned 4 && !(!el.left.pinned 3 && !st.left_data_used 3)
            && !(!el.left.pinned 4 && !st.left_data_used 4)) →
      b = (el.right.pinned 4
            && !(!el.left.pinned 3 && !(el.right.pinned 3 && !el.left.pinned 3))
            && !(!el.left.pinned 4
                  && !(el.right.pinned 3 && el.left.pinned 3 && !el.left.pinned 4))) := by
    intro b hb; rw [hb, hl3, hl4]
  unfold validate_gradient_constraint
  simp only [Data.is_pinned, h.left_eq, h.right_eq, hru]
  by_cases hR : el.right.pinned 4 = false
  · simp only [hR]
    refine h.advance hel h.value_eq (fun j _ => rfl) (fun j hj => ?_) (fun j _ _ => rfl)
      (fun hn => by omega) (fun hn => by omega) (fun hn => by omega) (fun _ => ?_)
    · simp [ValidationState.use_right, Function.update_apply, hj]
    · exact new4 _ (by simp [ValidationState.use_right, hpi, hR])
  · have hR2 : el.right.pinned 4 = true := by simpa using hR
    by_cases hc3 : (!el.left.pinned 3 && !st.left_data_used 3) = true
    · simp only [hR2, hc3]
      refine h.advance hel h.value_eq (fun j _ => rfl) (fun j _ => rfl) (fun j hj3 _ => ?_)
        (fun hn => by omega) (fun hn => by omega) (fun hn => by omega) (fun _ => ?_)
      · simp only [ValidationState.use_left, Function.update_apply]
        rw [if_neg (by omega)]
      · exact new4 _ (by simp [ValidationState.use_left, hpi, hR2, hc3])
    · by_cases hc4 : (!el.left.pinned 4 && !st.left_data_used 4) = true
      · simp only [hR2, hc3, hc4]
        refine h.advance hel h.value_eq (fun j _ => rfl) (fun j _ => rfl) (fun j hj3 _ => ?_)
          (fun hn => by omega) (fun hn => by omega) (fun hn => by omega) (fun _ => ?_)
        · simp only [ValidationState.use_left, Function.update_apply]
          rw [if_neg (by omega)]
        · exact new4 _ (by simp [ValidationState.use_left, hpi, hR2, hc4])
      · simp only [hR2, hc3, hc4, forLoop_zero_two, Bool.not_true,
          Bool.false_and, Bool.false_eq_true, if_false]
        refine check_and_pin_sat _ _ _ (fun hres => ?_) (fun _ => ?_)
        · exact
            { index_lt := by simp [throw_unsatisfiable_constraint_error]
              inv := h
              x_eq := h.boundary_eq
              res_gt := hres
              value_case := fun h3 => by simp [throw_unsatisfiable_constraint_error] at h3
              gradient_case := fun alpha _ ha => by
                have ha0 : alpha = 1 := by
                  simp [throw_unsatisfiable_constraint_error] at ha; omega
                subst ha0
                refine ⟨hR2, ?_, ?_, ?_⟩
                · cases h3 : el.left.pinned 3 <;> cases h3u : st.left_data_used 3 <;>
                    simp [h3, h3u] at hc3 ⊢
                · cases h4 : el.left.pinned 4 <;> cases h4u : st.left_data_used 4 <;>
                    simp [h4, h4u] at hc4 ⊢
                · simp [throw_unsatisfiable_constraint_error, Finset.sum_range_succ]
                  ring }
        · refine h.advance (h.pin_element_eq 4) h.value_eq (fun j hj => ?_) (fun j _ => rfl)
            (fun j _ _ => rfl) (fun hn => by omega) (fun hn => by omega) (fun hn => by omega)
            (fun _ => ?_)
          · simp [ValidationState.pin_multiplier, Data.pin, Function.update_apply, hj]
          · refine new4 _ ?_
            have e3 : (!el.left.pinned 3 && !st.left_data_used 3) = false := by
              simpa using hc3
            have e4 : (!el.left.pinned 4 && !st.left_data_used 4) = false := by
              simpa using hc4
            simp [ValidationState.pin_multiplier, Data.pin, hR2, e3, e4]

theorem ValidationInv.use_right {el : DuplicateNodeConstraintElement} {n : Nat}
    {st : ValidationState} (h : ValidationInv el n st) (hn : 5 ≤ n) :
    ValidationInv el (n + 1) (st.use_right n) := by
  refine h.advance h.element_eq h.value_eq (fun j _ => rfl) (fun j hj => ?_) (fun j _ _ => rfl)
    (fun hn => by omega) (fun hn => by omega) (fun hn => by omega) (fun hn => by omega)
  simp [ValidationState.use_right, Function.update_apply, hj]

theorem ValidationInv.use_left {el : DuplicateNodeConstraintElement} {n : Nat}
    {st : ValidationState} (h : ValidationInv el n st) (hn : 5 ≤ n) (j0 : Nat) (hj0 : 3 ≤ j0) :
    ValidationInv el (n + 1) (st.use_left j0) := by
  refine h.advance h.element_eq h.value_eq (fun j _ => rfl) (fun j _ => rfl) (fun j hj3 _ => ?_)
    (fun hn => by omega) (fun hn => by omega) (fun hn => by omega) (fun hn => by omega)
  simp only [ValidationState.use_left, Function.update_apply]
  rw [if_neg (by omega)]

theorem ValidationInv.pin {el : DuplicateNodeConstraintElement} {n : Nat}
    {st : ValidationState} (h : ValidationInv el n st) (hn : 5 ≤ n) :
    ValidationInv el (n + 1) (st.pin_multiplier n) := by
  refine h.advance (h.pin_element_eq n) h.value_eq (fun j hj => ?_) (fun j _ => rfl)
    (fun j _ _ => rfl) (fun hn => by omega) (fun hn => by omega) (fun hn => by omega)
    (fun hn => by omega)
  simp [ValidationState.pin_multiplier, Data.pin, Function.update_apply, hj]

theorem validate_curvature_constraint_inv (el : DuplicateNodeConstraintElement)
    (J : Nat → Nat → ℚ) (H : Nat → Nat → Nat → ℚ) (alpha beta : Nat)
    (hab : 5 + alpha + beta < 8) (st : ValidationState)
    (h : ValidationInv el (5 + alpha + beta) st) :
    (validate_curvature_constraint J H alpha st beta).Sat
      (ValidationInv el (5 + alpha + beta + 1)) (ValidationThrow el J) := by
  unfold validate_curvature_constraint
  simp only []
  split_ifs
  · exact h.use_right (by omega)
  · exact h.use_left (by omega) 3 (by norm_num)
  · exact h.use_left (by omega) 4 (by norm_num)
  · exact h.use_left (by omega) 5 (by norm_num)
  · exact h.use_left (by omega) 6 (by norm_num)
  · exact h.use_left (by omega) 7 (by norm_num)
  · refine check_and_pin_sat _ _ _ (fun hres => ?_) (fun _ => h.pin (by omega))
    exact
      { index_lt := by simp [throw_unsatisfiable_constraint_error]; omega
        inv := h
        x_eq := h.boundary_eq
        res_gt := hres
        value_case := fun h3 => by simp [throw_unsatisfiable_constraint_error] at h3; omega
        gradient_case := fun a ha hi => by
          simp [throw_unsatisfiable_constraint_error] at hi; omega }

theorem validation_entry_inv (el : DuplicateNodeConstraintElement) :
    ValidationInv el 0 (validation_entry el) := by
  constructor <;> intros <;> first | rfl | omega

/-- Every run of the validation ends in a state described by the invariant:
after all eight constraints if it returns, at the offending constraint if it
throws. -/
theorem validate_run_sat (sqrt : ℚ → ℚ) (el : DuplicateNodeConstraintElement) :
    (validate_run sqrt el).Sat (ValidationInv el 8)
      (ValidationThrow el (get_jac_and_hess_of_coordinate_transform sqrt el).1) := by
  unfold validate_run
  simp only [forLoopThrowing_zero_three, forLoopThrowing_zero_two, forLoopThrowing_one_two]
  have hJ : get_jac_and_hess_of_coordinate_transform sqrt (validation_entry el).element
      = get_jac_and_hess_of_coordinate_transform sqrt el := rfl
  rw [hJ]
  refine Outcome.Sat.andThen (P := ValidationInv el 5) ?_ (fun s5 h5 => ?_)
  · refine Outcome.Sat.andThen (P := ValidationInv el 3) ?_ (fun s3 h3 => ?_)
    · refine Outcome.Sat.andThen (P := ValidationInv el 2) ?_ (fun s2 h2 => ?_)
      · refine Outcome.Sat.andThen (P := ValidationInv el 1) ?_ (fun s1 h1 => ?_)
        · exact validate_value_constraint_inv el _ 0 (by norm_num) _ (validation_entry_inv el)
        · exact validate_value_constraint_inv el _ 1 (by norm_num) _ h1
      · exact validate_value_constraint_inv el _ 2 (by norm_num) _ h2
    · refine Outcome.Sat.andThen (P := ValidationInv el 4) ?_ (fun s4 h4 => ?_)
      · exact validate_gradient_constraint_inv_zero el _ _ h3
      · exact validate_gradient_constraint_inv_one el _ _ h4
  · simp only [forLoopThrowing_zero_two, forLoopThrowing_one_two]
    refine Outcome.Sat.andThen (P := ValidationInv el 7) ?_ (fun s7 h7 => ?_)
    · refine Outcome.Sat.andThen (P := ValidationInv el 6) ?_ (fun s6 h6 => ?_)
      · exact validate_curvature_constraint_inv el _ _ 0 0 (by norm_num) _ h5
      · exact validate_curvature_constraint_inv el _ _ 0 1 (by norm_num) _ h6
    · exact validate_curvature_constraint_inv el _ _ 1 1 (by norm_num) _ h7


/-- The run invariant for `validate_and_pin_redundant_constraints` itself. -/
theorem validate_sat (sqrt : ℚ → ℚ) (el : DuplicateNodeConstraintElement) :
    ∃ o : Outcome ValidationState,
      o.Sat (ValidationInv el 8)
        (ValidationThrow el (get_jac_and_hess_of_coordinate_transform sqrt el).1)
      ∧ (validate_and_pin_redundant_constraints sqrt el).state = o.state.element
      ∧ (validate_and_pin_redundant_constraints sqrt el).error = o.error
      ∧ (validate_and_pin_redundant_constraints sqrt el).isReturned = o.isReturned := by
  refine ⟨validate_run sqrt el, validate_run_sat sqrt el, ?_, ?_, ?_⟩ <;>
    unfold validate_and_pin_redundant_constraints <;>
    cases validate_run sqrt el <;> rfl

/-- C10: a direct-equality constraint i < 3 with a free dof on either side
is never checked (the run does not throw at i) and its multiplier is left
unpinned; with both sides pinned and `right[i] - left[i]` within tolerance
the run does not throw at i and pins multiplier i; so after a normal return
multiplier i is unpinned iff at least one of `left[i]`, `right[i]` is. -/
theorem value_constraints_validated (sqrt : ℚ → ℚ) (el : DuplicateNodeConstraintElement)
    (i : Nat) (hi : i < 3) :
    ((el.right.is_pinned i = false ∨ el.left.is_pinned i = false) →
      (validate_and_pin_redundant_constraints sqrt el).error.map OomphLibError.i ≠ some i
      ∧ (validate_and_pin_redundant_constraints sqrt el).state.lagrange.is_pinned i = false)
    ∧ (el.right.is_pinned i = true → el.left.is_pinned i = true →
        |el.right.value i - el.left.value i| ≤ Constraint_tolerance →
      (validate_and_pin_redundant_constraints sqrt el).error.map OomphLibError.i ≠ some i
      ∧ ((validate_and_pin_redundant_constraints sqrt el).isReturned = true →
          (validate_and_pin_redundant_constraints sqrt el).state.lagrange.is_pinned i = true))
    ∧ ((validate_and_pin_redundant_constraints sqrt el).isReturned = true →
      ((validate_and_pin_redundant_constraints sqrt el).state.lagrange.is_pinned i = false
        ↔ (el.left.is_pinned i = false ∨ el.right.is_pinned i = false))) := by
  obtain ⟨o, hsat, hstate, herr, hret⟩ := validate_sat sqrt el
  rw [hstate, herr, hret]
  simp only [Data.is_pinned]
  cases o with
  | returned st =>
    have hp := hsat.pinned_value i hi (by omega)
    simp only [Outcome.state, Outcome.error, Outcome.isReturned, Option.map_none, hp]
    refine ⟨fun hfree => ⟨by simp, ?_⟩, fun hR hL _ => ⟨by simp, fun _ => by simp [hR, hL]⟩,
      fun _ => ?_⟩
    · rcases hfree with h | h <;> simp [h]
    · cases el.right.pinned i <;> cases el.left.pinned i <;> simp
  | threw e st =>
    have hthrow : ValidationThrow el _ e st := hsat
    simp only [Outcome.state, Outcome.error, Outcome.isReturned, Option.map_some]
    have hstate_i : e.i ≠ i → st.element.lagrange.pinned i
        = (if i < e.i then (el.right.pinned i && el.left.pinned i) else false) := by
      intro hne
      by_cases hlt : i < e.i
      · rw [if_pos hlt]; exact hthrow.inv.pinned_value i hi hlt
      · rw [if_neg hlt]; exact hthrow.inv.pinned_ge i (by omega)
    refine ⟨fun hfree => ?_, fun hR hL htol => ⟨?_, fun hc => by simp at hc⟩,
      fun hc => by simp at hc⟩
    · have hne : e.i ≠ i := by
        intro heq
        have hv := hthrow.value_case (by omega)
        rw [heq] at hv
        rcases hfree with h | h
        · rw [hv.1] at h; exact Bool.noConfusion h
        · rw [hv.2.1] at h; exact Bool.noConfusion h
      refine ⟨by simpa using hne, ?_⟩
      rw [hstate_i hne]
      rcases hfree with h | h <;> simp [h]
    · intro heq
      have heq2 : e.i = i := by simpa using heq
      have hv := hthrow.value_case (by omega)
      have hgt := hthrow.res_gt
      rw [hv.2.2, heq2] at hgt
      have := le_abs_self (el.right.value i - el.left.value i)
      linarith


theorem gradient_residual_eq (J : Nat → Nat → ℚ) (st : ValidationState) (alpha : Nat) :
    forLoop 0 2 (fun constraint_residual beta =>
        constraint_residual + - st.element.left.value (3 + beta) * J beta alpha)
      (st.element.right.value (3 + alpha))
    = st.element.right.value (3 + alpha)
        - ∑ beta in Finset.range 2, st.element.left.value (3 + beta) * J beta alpha := by
  simp [forLoop_zero_two, Finset.sum_range_succ]; ring

/-- C9: each gradient constraint k = 3 + alpha claims the first dof that is
unpinned and not yet claimed in the order right dof k, left dof 3, left dof 4,
and otherwise checks `right[k] - sum_beta left[3+beta]*J[beta,alpha]` and pins
the multiplier. After a normal return multiplier 3 is unpinned iff one of
right[3], left[3], left[4] is unpinned, and multiplier 4 is unpinned iff
right[4] is unpinned or a left dof 3 or 4 is unpinned and was not claimed by
constraint 3; a throw at k reports that residual, which exceeds the tolerance. -/
theorem gradient_constraints_validated (sqrt : ℚ → ℚ) (el : DuplicateNodeConstraintElement) :
    (∀ (J : Nat → Nat → ℚ) (st : ValidationState) (alpha : Nat),
      validate_gradient_constraint J st alpha
        = claim_first_free st [NodeDof.right (3 + alpha), NodeDof.left 3, NodeDof.left 4]
            (3 + alpha)
            (st.element.right.value (3 + alpha)
              - ∑ beta in Finset.range 2, st.element.left.value (3 + beta) * J beta alpha))
    ∧ ((validate_and_pin_redundant_constraints sqrt el).isReturned = true →
      ((validate_and_pin_redundant_constraints sqrt el).state.lagrange.is_pinned 3 = false
        ↔ (el.right.is_pinned 3 = false ∨ el.left.is_pinned 3 = false
            ∨ el.left.is_pinned 4 = false))
      ∧ ((validate_and_pin_redundant_constraints sqrt el).state.lagrange.is_pinned 4 = false
        ↔ (el.right.is_pinned 4 = false
            ∨ (el.left.is_pinned 3 = false
                ∧ ¬ (el.right.is_pinned 3 = true ∧ el.left.is_pinned 3 = false))
            ∨ (el.left.is_pinned 4 = false
                ∧ ¬ (el.right.is_pinned 3 = true ∧ el.left.is_pinned 3 = true
                      ∧ el.left.is_pinned 4 = false)))))
    ∧ (∀ (e : OomphLibError) (alpha : Nat),
        (validate_and_pin_redundant_constraints sqrt el).error = some e →
        alpha < 2 → e.i = 3 + alpha →
        el.right.is_pinned (3 + alpha) = true
        ∧ e.res = el.right.value (3 + alpha)
            - ∑ beta in Finset.range 2, el.left.value (3 + beta)
                * (get_jac_and_hess_of_coordinate_transform sqrt el).1 beta alpha
        ∧ e.res > Constraint_tolerance) := by
  refine ⟨fun J st alpha => ?_, ?_, ?_⟩
  · unfold validate_gradient_constraint claim_first_free
    simp only []
    rw [gradient_residual_eq]
    simp only [List.find?, NodeDof.available, NodeDof.claim]
    cases (!st.element.right.is_pinned (3 + alpha) && !st.right_data_used (3 + alpha)) <;>
      cases (!st.element.left.is_pinned 3 && !st.left_data_used 3) <;>
      cases (!st.element.left.is_pinned 4 && !st.left_data_used 4) <;> simp
  · obtain ⟨o, hsat, hstate, herr, hret⟩ := validate_sat sqrt el
    rw [hstate, hret]
    intro hr
    cases o with
    | returned st =>
      have h3 := hsat.pinned_3 (by norm_num)
      have h4 := hsat.pinned_4 (by norm_num)
      simp only [Outcome.state, Data.is_pinned, h3, h4]
      constructor
      · cases el.right.pinned 3 <;> cases el.left.pinned 3 <;> cases el.left.pinned 4 <;> simp
      · cases el.right.pinned 3 <;> cases el.left.pinned 3 <;> cases el.left.pinned 4 <;>
          cases el.right.pinned 4 <;> simp
    | threw e st => simp [Outcome.isReturned] at hr
  · obtain ⟨o, hsat, hstate, herr, hret⟩ := validate_sat sqrt el
    rw [herr]
    intro e alpha he ha hi
    cases o with
    | returned st => simp [Outcome.error] at he
    | threw e2 st =>
      have hthrow : ValidationThrow el _ e2 st := hsat
      have hee : e2 = e := by simpa [Outcome.error] using he
      subst hee
      have hg := hthrow.gradient_case alpha ha hi
      exact ⟨hg.1, hg.2.2.2, hthrow.res_gt⟩


/-- Witness for C10: multiplier 0 of the free corner stays unpinned without a
check; multiplier 0 of the clamped corner is pinned. -/
theorem value_constraints_validated_witness :
    ((freeCorner.right.is_pinned 0 = false ∨ freeCorner.left.is_pinned 0 = false)
      ∧ (validate_and_pin_redundant_constraints exampleSqrt freeCorner).error.map OomphLibError.i
          ≠ some 0
      ∧ (validate_and_pin_redundant_constraints exampleSqrt freeCorner).state.lagrange.is_pinned 0
          = false)
    ∧ (clampedCorner.right.is_pinned 0 = true ∧ clampedCorner.left.is_pinned 0 = true
      ∧ |clampedCorner.right.value 0 - clampedCorner.left.value 0| ≤ Constraint_tolerance
      ∧ (validate_and_pin_redundant_constraints exampleSqrt clampedCorner).isReturned = true
      ∧ (validate_and_pin_redundant_constraints exampleSqrt clampedCorner).state.lagrange.is_pinned 0
          = true
      ∧ ((validate_and_pin_redundant_constraints exampleSqrt clampedCorner).state.lagrange.is_pinned 0
            = false
          ↔ (clampedCorner.left.is_pinned 0 = false ∨ clampedCorner.right.is_pinned 0 = false))) :=
  have hret : (validate_and_pin_redundant_constraints exampleSqrt clampedCorner).isReturned
      = true := by
    simp [validate_and_pin_redundant_constraints, validate_run, forLoopThrowing_zero_three,
      forLoopThrowing_zero_two, forLoopThrowing_one_two, validate_value_constraint,
      validate_gradient_constraint, validate_curvature_constraint, check_and_pin,
      clampedCorner, exampleElement, pinnedData, Data.is_pinned,
      Data.pin, ValidationState.pin_multiplier, validation_entry, Data.unpin_all,
      ValidationState.use_right, ValidationState.use_left,
      Outcome.andThen, Outcome.isReturned, forLoop_zero_two,
      not_lt.mpr (le_of_lt Constraint_tolerance_pos)]
  have htol : |clampedCorner.right.value 0 - clampedCorner.left.value 0|
      ≤ Constraint_tolerance := by
    simp [clampedCorner, exampleElement, pinnedData, le_of_lt Constraint_tolerance_pos]
  ⟨⟨Or.inl rfl,
      (value_constraints_validated exampleSqrt freeCorner 0 (by norm_num)).1 (Or.inl rfl)⟩,
    rfl, rfl, htol, hret,
    ((value_constraints_validated exampleSqrt clampedCorner 0 (by norm_num)).2.1
      rfl rfl htol).2 hret,
    (value_constraints_validated exampleSqrt clampedCorner 0 (by norm_num)).2.2 hret⟩

/-- Witness for C9: at the clamped corner both gradient multipliers are
pinned; at the corner with the torn gradient the run throws at constraint 3
with residual `right[3] - sum_beta left[3+beta]*J[beta,0]`. -/
theorem gradient_constraints_validated_witness :
    ((validate_and_pin_redundant_constraints exampleSqrt clampedCorner).isReturned = true
      ∧ ((validate_and_pin_redundant_constraints exampleSqrt clampedCorner).state.lagrange.is_pinned 3
            = false
          ↔ (clampedCorner.right.is_pinned 3 = false ∨ clampedCorner.left.is_pinned 3 = false
              ∨ clampedCorner.left.is_pinned 4 = false)))
    ∧ ((validate_and_pin_redundant_constraints exampleSqrt gradientTornCorner).error
          = some { i := 3, x := (straightBoundary 3 4).position 0, res := 1 }
      ∧ (1 : ℚ) = gradientTornCorner.right.value (3 + 0)
            - ∑ beta in Finset.range 2, gradientTornCorner.left.value (3 + beta)
                * (get_jac_and_hess_of_coordinate_transform exampleSqrt gradientTornCorner).1 beta 0
      ∧ (1 : ℚ) > Constraint_tolerance) :=
  have hret : (validate_and_pin_redundant_constraints exampleSqrt clampedCorner).isReturned
      = true := by
    simp [validate_and_pin_redundant_constraints, validate_run, forLoopThrowing_zero_three,
      forLoopThrowing_zero_two, forLoopThrowing_one_two, validate_value_constraint,
      validate_gradient_constraint, validate_curvature_constraint, check_and_pin,
      clampedCorner, exampleElement, pinnedData, Data.is_pinned,
      Data.pin, ValidationState.pin_multiplier, validation_entry, Data.unpin_all,
      ValidationState.use_right, ValidationState.use_left,
      Outcome.andThen, Outcome.isReturned, forLoop_zero_two,
      not_lt.mpr (le_of_lt Constraint_tolerance_pos)]
  have herr : (validate_and_pin_redundant_constraints exampleSqrt gradientTornCorner).error
      = some { i := 3, x := (straightBoundary 3 4).position 0, res := 1 } := by
    have h1 : Constraint_tolerance < 1 := by unfold Constraint_tolerance; norm_num
    simp [validate_and_pin_redundant_constraints, validate_run, forLoopThrowing_zero_three,
      forLoopThrowing_zero_two, forLoopThrowing_one_two, validate_value_constraint,
      validate_gradient_constraint, validate_curvature_constraint, check_and_pin,
      gradientTornCorner, exampleElement, pinnedData, Data.is_pinned,
      Data.pin, ValidationState.pin_multiplier, validation_entry, Data.unpin_all,
      ValidationState.use_right, ValidationState.use_left,
      Outcome.andThen, Outcome.error, forLoop_zero_two, throw_unsatisfiable_constraint_error,
      not_lt.mpr (le_of_lt Constraint_tolerance_pos), h1]
  ⟨⟨hret, ((gradient_constraints_validated exampleSqrt clampedCorner).2.1 hret).1⟩,
    herr,
    ((gradient_constraints_validated exampleSqrt gradientTornCorner).2.2
      { i := 3, x := (straightBoundary 3 4).position 0, res := 1 } 0 herr (by norm_num) rfl).2⟩


/-- C5 (evaluation at the failing input): at the torn corner constraint 0 has
both sides pinned and residual `0 - 1 = -1`, of magnitude above the tolerance,
yet the validation returns normally and pins multiplier 0. -/
theorem negative_residual_not_detected (sqrt : ℚ → ℚ) :
    tornCorner.right.is_pinned 0 = true ∧ tornCorner.left.is_pinned 0 = true
    ∧ |tornCorner.right.value 0 - tornCorner.left.value 0| > Constraint_tolerance
    ∧ (validate_and_pin_redundant_constraints sqrt tornCorner).isReturned = true
    ∧ (validate_and_pin_redundant_constraints sqrt tornCorner).state.lagrange.is_pinned 0
        = true := by
  have h1 : Constraint_tolerance < 1 := by unfold Constraint_tolerance; norm_num
  have hneg : ¬ Constraint_tolerance < -1 := by unfold Constraint_tolerance; norm_num
  refine ⟨rfl, rfl, ?_, ?_, ?_⟩
  · simp [tornCorner, exampleElement, pinnedData, h1]
  all_goals
    simp [validate_and_pin_redundant_constraints, validate_run, forLoopThrowing_zero_three,
      forLoopThrowing_zero_two, forLoopThrowing_one_two, validate_value_constraint,
      validate_gradient_constraint, validate_curvature_constraint, check_and_pin,
      tornCorner, exampleElement, pinnedData, freeData, Data.is_pinned,
      Data.pin, ValidationState.pin_multiplier, validation_entry, Data.unpin_all,
      ValidationState.use_right, ValidationState.use_left,
      Outcome.andThen, Outcome.isReturned, Outcome.state, forLoop_zero_two,
      not_lt.mpr (le_of_lt Constraint_tolerance_pos), hneg, Function.update_apply]

/-- C6 (evaluation at the failing input): with only the left node's dof 6
unpinned, that dof is never claimed and multiplier 5 is pinned all the same,
because the scan reads the right node's pin flag for dof 6. -/
theorem left_dof_6_overlooked (sqrt : ℚ → ℚ) :
    leftDof6FreeCorner.left.is_pinned 6 = false
    ∧ (validate_run sqrt leftDof6FreeCorner).state.left_data_used 6 = false
    ∧ (validate_and_pin_redundant_constraints sqrt leftDof6FreeCorner).isReturned = true
    ∧ (validate_and_pin_redundant_constraints sqrt leftDof6FreeCorner).state.lagrange.is_pinned 5
        = true := by
  refine ⟨rfl, ?_, ?_, ?_⟩
  all_goals
    simp [validate_and_pin_redundant_constraints, validate_run, forLoopThrowing_zero_three,
      forLoopThrowing_zero_two, forLoopThrowing_one_two, validate_value_constraint,
      validate_gradient_constraint, validate_curvature_constraint, check_and_pin,
      leftDof6FreeCorner, exampleElement, pinnedData, pinnedExcept, freeData, Data.is_pinned,
      Data.pin, ValidationState.pin_multiplier, validation_entry, Data.unpin_all,
      ValidationState.use_right, ValidationState.use_left,
      Outcome.andThen, Outcome.isReturned, Outcome.state, forLoop_zero_two,
      not_lt.mpr (le_of_lt Constraint_tolerance_pos), Function.update_apply]

/-- C7 (evaluation at the failing input): with only the right node's dof 4
unpinned, the validation returns normally with multiplier 5 unpinned although
right dof 5 and the left dofs 3 to 7 are all pinned. -/
theorem active_multiplier_without_free_dof (sqrt : ℚ → ℚ) :
    rightDof4FreeCorner.right.is_pinned 5 = true
    ∧ (∀ j, 3 ≤ j → j ≤ 7 → rightDof4FreeCorner.left.is_pinned j = true)
    ∧ (validate_and_pin_redundant_constraints sqrt rightDof4FreeCorner).isReturned = true
    ∧ (validate_and_pin_redundant_constraints sqrt rightDof4FreeCorner).state.lagrange.is_pinned 5
        = false := by
  refine ⟨rfl, fun _ _ _ => rfl, ?_, ?_⟩
  all_goals
    simp [validate_and_pin_redundant_constraints, validate_run, forLoopThrowing_zero_three,
      forLoopThrowing_zero_two, forLoopThrowing_one_two, validate_value_constraint,
      validate_gradient_constraint, validate_curvature_constraint, check_and_pin,
      rightDof4FreeCorner, exampleElement, pinnedData, pinnedExcept, freeData, Data.is_pinned,
      Data.pin, ValidationState.pin_multiplier, validation_entry, Data.unpin_all,
      ValidationState.use_right, ValidationState.use_left,
      Outcome.andThen, Outcome.isReturned, Outcome.state, forLoop_zero_two,
      not_lt.mpr (le_of_lt Constraint_tolerance_pos), Function.update_apply]

theorem staleCorner_validated :
    (validate_and_pin_redundant_constraints exampleSqrt staleCorner).isReturned = true
    ∧ (validate_and_pin_redundant_constraints exampleSqrt staleCorner).state.lagrange.is_pinned 0
        = true
    ∧ (validate_and_pin_redundant_constraints exampleSqrt staleCorner).state.lagrange.value 0
        = 1 := by
  refine ⟨?_, ?_, ?_⟩
  all_goals
    simp [validate_and_pin_redundant_constraints, validate_run, forLoopThrowing_zero_three,
      forLoopThrowing_zero_two, forLoopThrowing_one_two, validate_value_constraint,
      validate_gradient_constraint, validate_curvature_constraint, check_and_pin,
      staleCorner, exampleElement, pinnedData, freeData, Data.is_pinned,
      Data.pin, ValidationState.pin_multiplier, validation_entry, Data.unpin_all,
      ValidationState.use_right, ValidationState.use_left,
      Outcome.andThen, Outcome.isReturned, Outcome.state, forLoop_zero_two,
      not_lt.mpr (le_of_lt Constraint_tolerance_pos), Function.update_apply]

/-- At the stale corner the validation returns normally and multiplier 0 is
redundant (pinned), but its stored value is still 1: the validation pins and
never zeroes. -/
theorem redundant_multiplier_not_zeroed :
    ¬ ((validate_and_pin_redundant_constraints exampleSqrt staleCorner).isReturned = true →
        ∀ k, k < 8 →
          (validate_and_pin_redundant_constraints exampleSqrt staleCorner).state.lagrange.is_pinned k
            = true →
          (validate_and_pin_redundant_constraints exampleSqrt staleCorner).state.lagrange.value k
            = 0) := by
  intro h
  have h0 := h staleCorner_validated.1 0 (by norm_num) staleCorner_validated.2.1
  rw [staleCorner_validated.2.2] at h0
  exact one_ne_zero h0

/-- The validation never writes a multiplier value. In every run each
multiplier, in particular each one classified as redundant and pinned, holds
afterwards the value it held before the call. -/
theorem multiplier_values_kept (sqrt : ℚ → ℚ) (el : DuplicateNodeConstraintElement)
    (k : Nat) :
    (validate_and_pin_redundant_constraints sqrt el).state.lagrange.value k = el.lagrange.value k
    ∧ ((validate_and_pin_redundant_constraints sqrt el).state.lagrange.value k = 0
        ↔ el.lagrange.value k = 0) := by
  obtain ⟨o, hsat, hstate, herr, hret2⟩ := validate_sat sqrt el
  have hv : (validate_and_pin_redundant_constraints sqrt el).state.lagrange.value
      = el.lagrange.value := by
    rw [hstate]
    cases o with
    | returned st => exact hsat.value_eq
    | threw e st => exact (show ValidationThrow el _ e st from hsat).inv.value_eq
  rw [hv]
  exact ⟨rfl, Iff.rfl⟩


/-! ## Whole-run properties of the validation -/

theorem validate_run_congr (sqrt : ℚ → ℚ) (el el2 : DuplicateNodeConstraintElement)
    (h : validation_entry el2 = validation_entry el) :
    validate_run sqrt el2 = validate_run sqrt el := by
  unfold validate_run
  rw [h]

theorem validate_congr (sqrt : ℚ → ℚ) (el el2 : DuplicateNodeConstraintElement)
    (h : validation_entry el2 = validation_entry el) :
    validate_and_pin_redundant_constraints sqrt el2
      = validate_and_pin_redundant_constraints sqrt el := by
  unfold validate_and_pin_redundant_constraints
  rw [validate_run_congr sqrt el el2 h]

theorem validation_entry_of_lagrange (el : DuplicateNodeConstraintElement) (lagrange : Data)
    (hv : lagrange.value = el.lagrange.value) :
    validation_entry { el with lagrange := lagrange } = validation_entry el := by
  unfold validation_entry Data.unpin_all
  simp [hv]

/-- C13: the validation is idempotent and does not depend on the pin flags
the multipliers had before the call: a second run on the element the first
run left behind has the same outcome (normal return or throw) and the same
pinned multipliers, and so has a run started from any other pin state of the
multipliers. -/
theorem validation_idempotent (sqrt : ℚ → ℚ) (el : DuplicateNodeConstraintElement) :
    validate_and_pin_redundant_constraints sqrt
        (validate_and_pin_redundant_constraints sqrt el).state
      = validate_and_pin_redundant_constraints sqrt el
    ∧ ((validate_and_pin_redundant_constraints sqrt
          (validate_and_pin_redundant_constraints sqrt el).state).isReturned
        = (validate_and_pin_redundant_constraints sqrt el).isReturned
      ∧ ∀ k, (validate_and_pin_redundant_constraints sqrt
            (validate_and_pin_redundant_constraints sqrt el).state).state.lagrange.is_pinned k
          = (validate_and_pin_redundant_constraints sqrt el).state.lagrange.is_pinned k)
    ∧ ∀ pinned : Nat → Bool,
        validate_and_pin_redundant_constraints sqrt
            { el with lagrange := { el.lagrange with pinned := pinned } }
          = validate_and_pin_redundant_constraints sqrt el := by
  have hsecond : validate_and_pin_redundant_constraints sqrt
        (validate_and_pin_redundant_constraints sqrt el).state
      = validate_and_pin_redundant_constraints sqrt el := by
    obtain ⟨o, hsat, hstate, _, _⟩ := validate_sat sqrt el
    have hinv : ∃ n, ValidationInv el n o.state := by
      cases o with
      | returned st => exact ⟨8, hsat⟩
      | threw e st => exact ⟨e.i, (show ValidationThrow el _ e st from hsat).inv⟩
    obtain ⟨n, hn⟩ := hinv
    apply validate_congr
    rw [hstate, hn.element_eq]
    exact validation_entry_of_lagrange el _ hn.value_eq
  refine ⟨hsecond, ?_, fun pinned => ?_⟩
  · rw [hsecond]; exact ⟨rfl, fun _ => rfl⟩
  · exact validate_congr sqrt el _ (validation_entry_of_lagrange el _ rfl)


theorem clamped_validation (sqrt : ℚ → ℚ) (el : DuplicateNodeConstraintElement)
    (hLp : ∀ k, k < 8 → el.left.pinned k = true)
    (hRp : ∀ k, k < 8 → el.right.pinned k = true)
    (hLv : ∀ k, k < 8 → el.left.value k = 0)
    (hRv : ∀ k, k < 8 → el.right.value k = 0) :
    (validate_and_pin_redundant_constraints sqrt el).isReturned = true
    ∧ ∀ k, k < 8 →
        (validate_and_pin_redundant_constraints sqrt el).state.lagrange.pinned k = true := by
  have htol := not_lt.mpr (le_of_lt Constraint_tolerance_pos)
  constructor
  · simp [validate_and_pin_redundant_constraints, validate_run, forLoopThrowing_zero_three,
      forLoopThrowing_zero_two, forLoopThrowing_one_two, validate_value_constraint,
      validate_gradient_constraint, validate_curvature_constraint, check_and_pin,
      Data.is_pinned, Data.pin, ValidationState.pin_multiplier, validation_entry,
      Data.unpin_all, ValidationState.use_right, ValidationState.use_left,
      Outcome.andThen, Outcome.isReturned, Outcome.state, forLoop_zero_two,
      htol, Function.update_apply, hLp, hRp, hLv, hRv]
  · intro k hk
    interval_cases k <;>
    simp [validate_and_pin_redundant_constraints, validate_run, forLoopThrowing_zero_three,
      forLoopThrowing_zero_two, forLoopThrowing_one_two, validate_value_constraint,
      validate_gradient_constraint, validate_curvature_constraint, check_and_pin,
      Data.is_pinned, Data.pin, ValidationState.pin_multiplier, validation_entry,
      Data.unpin_all, ValidationState.use_right, ValidationState.use_left,
      Outcome.andThen, Outcome.isReturned, Outcome.state, forLoop_zero_two,
      htol, Function.update_apply, hLp, hRp, hLv, hRv]


theorem validate_state_nodes (sqrt : ℚ → ℚ) (el : DuplicateNodeConstraintElement) :
    (validate_and_pin_redundant_constraints sqrt el).state
      = { el with lagrange := (validate_and_pin_redundant_constraints sqrt el).state.lagrange } := by
  obtain ⟨o, hsat, hstate, _, _⟩ := validate_sat sqrt el
  have hinv : ∃ n, ValidationInv el n o.state := by
    cases o with
    | returned st => exact ⟨8, hsat⟩
    | threw e st => exact ⟨e.i, (show ValidationThrow el _ e st from hsat).inv⟩
  obtain ⟨n, hn⟩ := hinv
  rw [hstate]
  exact hn.element_eq

theorem fill_in_of_all_pinned (sqrt : ℚ → ℚ) (el : DuplicateNodeConstraintElement)
    (h : LocalEqnsAssigned el)
    (hMp : ∀ k, k < 8 → el.lagrange.is_pinned k = true)
    (hLp : ∀ k, k < 8 → el.left.is_pinned k = true)
    (hRp : ∀ k, k < 8 → el.right.is_pinned k = true) (residuals : Int → ℚ) :
    fill_in_generic_residual_contribution_constraint sqrt el residuals = residuals := by
  have hI : ∀ k, k < 8 → el.internal_local_eqn 0 k < 0 :=
    fun k hk => (h.internal_pinned k hk).mp (hMp k hk)
  have hL : ∀ k, k < 8 → el.external_local_eqn 0 k < 0 :=
    fun k hk => (h.left_pinned k hk).mp (hLp k hk)
  have hR : ∀ k, k < 8 → el.external_local_eqn 1 k < 0 :=
    fun k hk => (h.right_pinned k hk).mp (hRp k hk)
  funext e
  rw [fill_in_apply sqrt el residuals e _ _ rfl rfl]
  simp [hit_of_neg _ _ _ (hI _ (by norm_num : (0:ℕ) < 8)),
    hit_of_neg _ _ _ (hI _ (by norm_num : (1:ℕ) < 8)),
    hit_of_neg _ _ _ (hI _ (by norm_num : (2:ℕ) < 8)),
    hit_of_neg _ _ _ (hI _ (by norm_num : (3:ℕ) < 8)),
    hit_of_neg _ _ _ (hI _ (by norm_num : (4:ℕ) < 8)),
    hit_of_neg _ _ _ (hI _ (by norm_num : (5:ℕ) < 8)),
    hit_of_neg _ _ _ (hI _ (by norm_num : (6:ℕ) < 8)),
    hit_of_neg _ _ _ (hI _ (by norm_num : (7:ℕ) < 8)),
    hit_of_neg _ _ _ (hL _ (by norm_num : (0:ℕ) < 8)),
    hit_of_neg _ _ _ (hL _ (by norm_num : (1:ℕ) < 8)),
    hit_of_neg _ _ _ (hL _ (by norm_num : (2:ℕ) < 8)),
    hit_of_neg _ _ _ (hL _ (by norm_num : (3:ℕ) < 8)),
    hit_of_neg _ _ _ (hL _ (by norm_num : (4:ℕ) < 8)),
    hit_of_neg _ _ _ (hL _ (by norm_num : (5:ℕ) < 8)),
    hit_of_neg _ _ _ (hL _ (by norm_num : (6:ℕ) < 8)),
    hit_of_neg _ _ _ (hL _ (by norm_num : (7:ℕ) < 8)),
    hit_of_neg _ _ _ (hR _ (by norm_num : (0:ℕ) < 8)),
    hit_of_neg _ _ _ (hR _ (by norm_num : (1:ℕ) < 8)),
    hit_of_neg _ _ _ (hR _ (by norm_num : (2:ℕ) < 8)),
    hit_of_neg _ _ _ (hR _ (by norm_num : (3:ℕ) < 8)),
    hit_of_neg _ _ _ (hR _ (by norm_num : (4:ℕ) < 8)),
    hit_of_neg _ _ _ (hR _ (by norm_num : (5:ℕ) < 8)),
    hit_of_neg _ _ _ (hR _ (by norm_num : (6:ℕ) < 8)),
    hit_of_neg _ _ _ (hR _ (by norm_num : (7:ℕ) < 8))]

/-- C11: if all eight dofs of both nodes are pinned and all sixteen values are
zero, then for every pair of boundary curves the validation returns normally
with all eight multipliers pinned, and the assembly that follows (with the
local equation numbers reassigned) leaves the residual vector unchanged. -/
theorem clamped_corner_contributes_nothing (sqrt : ℚ → ℚ)
    (el : DuplicateNodeConstraintElement)
    (hLp : ∀ k, k < 8 → el.left.is_pinned k = true)
    (hRp : ∀ k, k < 8 → el.right.is_pinned k = true)
    (hLv : ∀ k, k < 8 → el.left.value k = 0)
    (hRv : ∀ k, k < 8 → el.right.value k = 0) :
    (validate_and_pin_redundant_constraints sqrt el).isReturned = true
    ∧ (∀ k, k < 8 →
        (validate_and_pin_redundant_constraints sqrt el).state.lagrange.is_pinned k = true)
    ∧ ∀ (internal_local_eqn external_local_eqn : Nat → Nat → Int) (residuals : Int → ℚ),
        LocalEqnsAssigned
          (renumbered (validate_and_pin_redundant_constraints sqrt el).state
            internal_local_eqn external_local_eqn) →
        fill_in_generic_residual_contribution_constraint sqrt
          (renumbered (validate_and_pin_redundant_constraints sqrt el).state
            internal_local_eqn external_local_eqn) residuals = residuals := by
  have hv := clamped_validation sqrt el hLp hRp hLv hRv
  refine ⟨hv.1, hv.2, fun ie ee residuals hassigned => ?_⟩
  have hnodes := validate_state_nodes sqrt el
  refine fill_in_of_all_pinned sqrt _ hassigned hv.2 (fun k hk => ?_) (fun k hk => ?_) residuals
  · show (validate_and_pin_redundant_constraints sqrt el).state.left.is_pinned k = true
    rw [hnodes]; exact hLp k hk
  · show (validate_and_pin_redundant_constraints sqrt el).state.right.is_pinned k = true
    rw [hnodes]; exact hRp k hk

theorem all_pinned_assigned (el : DuplicateNodeConstraintElement)
    (hMp : ∀ k, k < 8 → el.lagrange.is_pinned k = true)
    (hLp : ∀ k, k < 8 → el.left.is_pinned k = true)
    (hRp : ∀ k, k < 8 → el.right.is_pinned k = true) :
    LocalEqnsAssigned (renumbered el (fun _ _ => -1) (fun _ _ => -1)) :=
  { internal_pinned := fun k hk => ⟨fun _ => by simp [renumbered], fun _ => hMp k hk⟩
    left_pinned := fun k hk => ⟨fun _ => by simp [renumbered], fun _ => hLp k hk⟩
    right_pinned := fun k hk => ⟨fun _ => by simp [renumbered], fun _ => hRp k hk⟩
    internal_inj := fun i _ j _ h0 => by simp [renumbered] at h0
    internal_ne_external := fun i _ d _ j _ h0 => by simp [renumbered] at h0
    external_inj := fun d _ i _ e _ j _ h0 => by simp [renumbered] at h0 }

/-- Witness for C11 at the clamped corner, with every local equation number
equal to -1 after the validation. -/
theorem clamped_corner_contributes_nothing_witness :
    (∀ k, k < 8 → clampedCorner.left.is_pinned k = true)
    ∧ (∀ k, k < 8 → clampedCorner.right.is_pinned k = true)
    ∧ (∀ k, k < 8 → clampedCorner.left.value k = 0)
    ∧ (∀ k, k < 8 → clampedCorner.right.value k = 0)
    ∧ (validate_and_pin_redundant_constraints exampleSqrt clampedCorner).isReturned = true
    ∧ (∀ k, k < 8 →
        (validate_and_pin_redundant_constraints exampleSqrt clampedCorner).state.lagrange.is_pinned k
          = true)
    ∧ LocalEqnsAssigned
        (renumbered (validate_and_pin_redundant_constraints exampleSqrt clampedCorner).state
          (fun _ _ => -1) (fun _ _ => -1))
    ∧ fill_in_generic_residual_contribution_constraint exampleSqrt
        (renumbered (validate_and_pin_redundant_constraints exampleSqrt clampedCorner).state
          (fun _ _ => -1) (fun _ _ => -1)) (fun _ => 7) = fun _ => 7 :=
  have hLp : ∀ k, k < 8 → clampedCorner.left.is_pinned k = true := fun _ _ => rfl
  have hRp : ∀ k, k < 8 → clampedCorner.right.is_pinned k = true := fun _ _ => rfl
  have hLv : ∀ k, k < 8 → clampedCorner.left.value k = 0 := fun _ _ => rfl
  have hRv : ∀ k, k < 8 → clampedCorner.right.value k = 0 := fun _ _ => rfl
  have hpinned :=
    (clamped_corner_contributes_nothing exampleSqrt clampedCorner hLp hRp hLv hRv).2.1
  have hassigned : LocalEqnsAssigned
      (renumbered (validate_and_pin_redundant_constraints exampleSqrt clampedCorner).state
        (fun _ _ => -1) (fun _ _ => -1)) :=
    all_pinned_assigned _ hpinned
      (fun k hk => by rw [validate_state_nodes exampleSqrt clampedCorner]; exact hLp k hk)
      (fun k hk => by rw [validate_state_nodes exampleSqrt clampedCorner]; exact hRp k hk)
  ⟨hLp, hRp, hLv, hRv,
    (clamped_corner_contributes_nothing exampleSqrt clampedCorner hLp hRp hLv hRv).1,
    hpinned, hassigned,
    (clamped_corner_contributes_nothing exampleSqrt clampedCorner hLp hRp hLv hRv).2.2
      (fun _ _ => -1) (fun _ _ => -1) (fun _ => 7) hassigned⟩

/-- C12 (evaluation at the failing input): with the left node free and the
right node pinned, constraint 6 claims the left dof 7 instead of 6 (the scan
reads the right node's pin flag for dof 6), constraint 7 finds nothing left to
claim, and the validation returns with multiplier 7 pinned. -/
theorem left_free_corner_loses_multiplier (sqrt : ℚ → ℚ) :
    (∀ k, k < 8 → leftFreeCorner.left.is_pinned k = false)
    ∧ (∀ k, k < 8 → leftFreeCorner.right.is_pinned k = true)
    ∧ (validate_run sqrt leftFreeCorner).state.left_data_used 6 = false
    ∧ (validate_run sqrt leftFreeCorner).state.left_data_used 7 = true
    ∧ (validate_and_pin_redundant_constraints sqrt leftFreeCorner).isReturned = true
    ∧ (validate_and_pin_redundant_constraints sqrt leftFreeCorner).state.lagrange.is_pinned 6
        = false
    ∧ (validate_and_pin_redundant_constraints sqrt leftFreeCorner).state.lagrange.is_pinned 7
        = true := by
  refine ⟨fun _ _ => rfl, fun _ _ => rfl, ?_, ?_, ?_, ?_, ?_⟩
  all_goals
    simp [validate_and_pin_redundant_constraints, validate_run, forLoopThrowing_zero_three,
      forLoopThrowing_zero_two, forLoopThrowing_one_two, validate_value_constraint,
      validate_gradient_constraint, validate_curvature_constraint, check_and_pin,
      leftFreeCorner, exampleElement, pinnedData, freeData, Data.is_pinned,
      Data.pin, ValidationState.pin_multiplier, validation_entry, Data.unpin_all,
      ValidationState.use_right, ValidationState.use_left,
      Outcome.andThen, Outcome.isReturned, Outcome.state, forLoop_zero_two,
      not_lt.mpr (le_of_lt Constraint_tolerance_pos), Function.update_apply]


/-! ## The loop over the boundary elements -/

theorem forLoopRun_zero {ε σ : Type} (body : σ → Nat → Run ε σ) (init : σ) :
    forLoopRun 0 0 body init = Run.returned init := rfl

theorem forLoopRun_succ {ε σ : Type} (body : σ → Nat → Run ε σ) (init : σ) (n : Nat) :
    forLoopRun 0 (n + 1) body init
      = (forLoopRun 0 n body init).andThen (fun s => body s n) := by
  unfold forLoopRun
  simp [List.range'_concat, List.foldl_append]

theorem upgrade_loop_inv (parametric_curve_pt : CurvilineGeomObject)
    (bound boundary_order ibound : Nat) (mesh : Mesh) (n : Nat) :
    UpgradeRunInv (upgrade_boundary_element parametric_curve_pt bound boundary_order)
      ibound mesh n
      (forLoopRun 0 n (upgrade_step parametric_curve_pt bound boundary_order ibound) mesh) := by
  induction n with
  | zero =>
    rw [forLoopRun_zero]
    exact ⟨rfl, fun i hi => absurd hi (Nat.not_lt_zero i), fun _ _ => rfl, fun _ _ _ => rfl⟩
  | succ n ih =>
    rw [forLoopRun_succ]
    cases ho : forLoopRun 0 n (upgrade_step parametric_curve_pt bound boundary_order ibound)
        mesh with
    | returned m =>
      rw [ho] at ih
      have hm : UpgradedUpTo _ ibound mesh n m := ih
      simp only [Run.andThen, upgrade_step]
      rw [hm.above n le_rfl]
      cases hv : upgrade_boundary_element parametric_curve_pt bound boundary_order
          (mesh.boundary_element_pt ibound n) with
      | error err =>
        exact ⟨n, Nat.lt_succ_self n, hm, hv⟩
      | ok bulk_el =>
        refine ⟨hm.nboundary_element_eq, fun i hi => ?_, fun i hi => ?_, fun b i hb => ?_⟩
        · by_cases hin : i = n
          · subst hin
            simp [Mesh.with_boundary_element, hv]
          · have := hm.below i (by omega)
            simp [Mesh.with_boundary_element, hin, this]
        · have hin : i ≠ n := by omega
          simp only [Mesh.with_boundary_element, hin, and_false, if_false]
          exact hm.above i (by omega)
        · simp only [Mesh.with_boundary_element, hb, false_and, if_false]
          exact hm.other b i hb
    | threw err m =>
      rw [ho] at ih
      obtain ⟨e0, he0, hm, hv⟩ := ih
      exact ⟨e0, by omega, hm, hv⟩


theorem record_boundary_nodes_eq (bound : Nat) (bulk_el : BulkElement) :
    record_boundary_nodes bound bulk_el
      = (if (bulk_el.node_pt 2).is_on_boundary bound = false then 2
          else if (bulk_el.node_pt 1).is_on_boundary bound = false then 1
          else if (bulk_el.node_pt 0).is_on_boundary bound = false then 0 else 3,
         (if (bulk_el.node_pt 0).is_on_boundary bound = false then 1 else 0)
          + (if (bulk_el.node_pt 1).is_on_boundary bound = false then 1 else 0)
          + (if (bulk_el.node_pt 2).is_on_boundary bound = false then 1 else 0)) := by
  unfold record_boundary_nodes
  rw [forLoop_zero_three]
  cases (bulk_el.node_pt 0).is_on_boundary bound <;>
    cases (bulk_el.node_pt 1).is_on_boundary bound <;>
    cases (bulk_el.node_pt 2).is_on_boundary bound <;> simp

theorem record_boundary_nodes_of_one (bound : Nat) (bulk_el : BulkElement) (i : Nat)
    (h : ExactlyOneOffBoundary bound bulk_el i) :
    record_boundary_nodes bound bulk_el = (i, 1) := by
  obtain ⟨hi, hoff, hon⟩ := h
  rw [record_boundary_nodes_eq]
  interval_cases i
  · simp [hoff, hon 1 (by norm_num) (by norm_num), hon 2 (by norm_num) (by norm_num)]
  · simp [hoff, hon 0 (by norm_num) (by norm_num), hon 2 (by norm_num) (by norm_num)]
  · simp [hoff, hon 0 (by norm_num) (by norm_num), hon 1 (by norm_num) (by norm_num)]

theorem exactly_one_of_count (bound : Nat) (bulk_el : BulkElement)
    (h0 : ¬ (record_boundary_nodes bound bulk_el).2 = 0)
    (h1 : ¬ (record_boundary_nodes bound bulk_el).2 > 1) :
    ExactlyOneOffBoundary bound bulk_el (record_boundary_nodes bound bulk_el).1 := by
  rw [record_boundary_nodes_eq] at h0 h1 ⊢
  unfold ExactlyOneOffBoundary
  cases hb0 : (bulk_el.node_pt 0).is_on_boundary bound <;>
    cases hb1 : (bulk_el.node_pt 1).is_on_boundary bound <;>
    cases hb2 : (bulk_el.node_pt 2).is_on_boundary bound <;>
    simp [hb0, hb1, hb2] at h0 h1 ⊢
  · intro j hj hj2
    interval_cases j <;> simp_all
  · intro j hj hj1
    interval_cases j <;> simp_all
  · intro j hj hj0
    interval_cases j <;> simp_all

/-- The body rejects an element none of whose nodes is off the boundary. -/
theorem upgrade_boundary_element_of_none (parametric_curve_pt : CurvilineGeomObject)
    (bound boundary_order : Nat) (bulk_el : BulkElement)
    (h : ∀ j, j < 3 → (bulk_el.node_pt j).is_on_boundary bound = true) :
    upgrade_boundary_element parametric_curve_pt bound boundary_order bulk_el
      = Except.error UpgradeError.no_interior_nodes := by
  unfold upgrade_boundary_element
  rw [record_boundary_nodes_eq]
  simp [h 0 (by norm_num), h 1 (by norm_num), h 2 (by norm_num)]

/-- The body rejects an element with two or more nodes off the boundary. -/
theorem upgrade_boundary_element_of_multiple (parametric_curve_pt : CurvilineGeomObject)
    (bound boundary_order : Nat) (bulk_el : BulkElement) (j1 j2 : Nat)
    (hj1 : j1 < 3) (hj2 : j2 < 3) (hne : j1 ≠ j2)
    (h1 : (bulk_el.node_pt j1).is_on_boundary bound = false)
    (h2 : (bulk_el.node_pt j2).is_on_boundary bound = false) :
    upgrade_boundary_element parametric_curve_pt bound boundary_order bulk_el
      = Except.error UpgradeError.multiple_interior_nodes := by
  unfold upgrade_boundary_element
  rw [record_boundary_nodes_eq]
  interval_cases j1 <;> interval_cases j2 <;> simp_all <;>
    cases (bulk_el.node_pt 0).is_on_boundary bound <;>
    cases (bulk_el.node_pt 1).is_on_boundary bound <;>
    cases (bulk_el.node_pt 2).is_on_boundary bound <;> simp_all

/-- The body applied to an element with exactly one node off the boundary. -/
theorem upgrade_boundary_element_of_one (parametric_curve_pt : CurvilineGeomObject)
    (bound boundary_order : Nat) (bulk_el : BulkElement) (i : Nat)
    (h : ExactlyOneOffBoundary bound bulk_el i) :
    upgrade_boundary_element parametric_curve_pt bound boundary_order bulk_el
      = if parametric_curve_pt.get_zeta (bulk_el.node_pt ((i + 1) % 3)).x
            > parametric_curve_pt.get_zeta (bulk_el.node_pt ((i + 2) % 3)).x
        then Except.error UpgradeError.decreasing_parametric_coordinate
        else Except.ok (bulk_el.upgrade_element_to_curved i
          (parametric_curve_pt.get_zeta (bulk_el.node_pt ((i + 1) % 3)).x)
          (parametric_curve_pt.get_zeta (bulk_el.node_pt ((i + 2) % 3)).x)
          parametric_curve_pt boundary_order) := by
  unfold upgrade_boundary_element
  rw [record_boundary_nodes_of_one bound bulk_el i h]
  simp

/-- An element the body upgrades has exactly one node off the boundary and
receives the parameters of its two other nodes, which do not decrease. -/
theorem upgrade_boundary_element_ok (parametric_curve_pt : CurvilineGeomObject)
    (bound boundary_order : Nat) (bulk_el upgraded : BulkElement)
    (h : upgrade_boundary_element parametric_curve_pt bound boundary_order bulk_el
      = Except.ok upgraded) :
    ∃ i, ExactlyOneOffBoundary bound bulk_el i
      ∧ parametric_curve_pt.get_zeta (bulk_el.node_pt ((i + 1) % 3)).x
          ≤ parametric_curve_pt.get_zeta (bulk_el.node_pt ((i + 2) % 3)).x
      ∧ upgraded = bulk_el.upgrade_element_to_curved i
          (parametric_curve_pt.get_zeta (bulk_el.node_pt ((i + 1) % 3)).x)
          (parametric_curve_pt.get_zeta (bulk_el.node_pt ((i + 2) % 3)).x)
          parametric_curve_pt boundary_order := by
  by_cases h0 : (record_boundary_nodes bound bulk_el).2 = 0
  · simp [upgrade_boundary_element, h0] at h
  · by_cases h1 : (record_boundary_nodes bound bulk_el).2 > 1
    · simp [upgrade_boundary_element, h0, h1] at h
    · have hone := exactly_one_of_count bound bulk_el h0 h1
      refine ⟨_, hone, ?_⟩
      rw [upgrade_boundary_element_of_one _ _ _ _ _ hone] at h
      split at h
      · cases h
      · rename_i hle
        refine ⟨not_lt.mp hle, ?_⟩
        injection h with h
        exact h.symm


theorem star_trek_upgrade_eq_loop
    (Upper_parametric_elliptical_curve Lower_parametric_elliptical_curve : CurvilineGeomObject)
    (ibound : Nat) (mesh : Mesh) (hb : ibound < 2) :
    StarTrek.upgrade_edge_elements_to_curve Upper_parametric_elliptical_curve
        Lower_parametric_elliptical_curve ibound mesh
      = forLoopRun 0 (mesh.nboundary_element ibound)
          (upgrade_step
            (if ibound = 0 then Upper_parametric_elliptical_curve
              else Lower_parametric_elliptical_curve) ibound 5 ibound) mesh := by
  unfold StarTrek.upgrade_edge_elements_to_curve
  interval_cases ibound <;> rfl

theorem star_trek_upgrade_unexpected
    (Upper_parametric_elliptical_curve Lower_parametric_elliptical_curve : CurvilineGeomObject)
    (ibound : Nat) (mesh : Mesh) (hb : 2 ≤ ibound) :
    StarTrek.upgrade_edge_elements_to_curve Upper_parametric_elliptical_curve
        Lower_parametric_elliptical_curve ibound mesh
      = Run.threw UpgradeError.unexpected_boundary_number mesh := by
  unfold StarTrek.upgrade_edge_elements_to_curve
  match ibound, hb with
  | n + 2, _ => rfl

theorem circular_sector_upgrade_eq_loop (parametric_arc : CurvilineGeomObject) (mesh : Mesh) :
    CircularSector.upgrade_edge_elements_to_curve parametric_arc Circular_arc_bnum mesh
      = forLoopRun 0 (mesh.nboundary_element Circular_arc_bnum)
          (upgrade_step parametric_arc Circular_arc_bnum 3 Circular_arc_bnum) mesh := by
  unfold CircularSector.upgrade_edge_elements_to_curve
  simp

theorem circular_sector_upgrade_unexpected (parametric_arc : CurvilineGeomObject)
    (ibound : Nat) (mesh : Mesh) (hb : ibound ≠ Circular_arc_bnum) :
    CircularSector.upgrade_edge_elements_to_curve parametric_arc ibound mesh
      = Run.threw UpgradeError.unexpected_boundary_number mesh := by
  unfold CircularSector.upgrade_edge_elements_to_curve
  simp [hb]

theorem forLoopRun_threw_of_le {ε σ : Type} (body : σ → Nat → Run ε σ) (init : σ)
    (k n : Nat) (hkn : k ≤ n) (err : ε) (s : σ)
    (h : forLoopRun 0 k body init = Run.threw err s) :
    forLoopRun 0 n body init = Run.threw err s := by
  induction n with
  | zero =>
    have : k = 0 := by omega
    subst this; exact h
  | succ n ih =>
    by_cases hk : k = n + 1
    · subst hk; exact h
    · rw [forLoopRun_succ, ih (by omega)]; rfl

/-- When the loop reaches element `e` and the body rejects it, the whole loop
throws that error and leaves behind the state it reached. -/
theorem upgrade_loop_throws_at (parametric_curve_pt : CurvilineGeomObject)
    (bound boundary_order ibound : Nat) (mesh m : Mesh) (n e : Nat) (he : e < n)
    (err : UpgradeError)
    (hreach : forLoopRun 0 e (upgrade_step parametric_curve_pt bound boundary_order ibound) mesh
      = Run.returned m)
    (hv : upgrade_boundary_element parametric_curve_pt bound boundary_order
      (mesh.boundary_element_pt ibound e) = Except.error err) :
    forLoopRun 0 n (upgrade_step parametric_curve_pt bound boundary_order ibound) mesh
        = Run.threw err m
      ∧ m.boundary_element_pt ibound e = mesh.boundary_element_pt ibound e := by
  have hinv := upgrade_loop_inv parametric_curve_pt bound boundary_order ibound mesh e
  rw [hreach] at hinv
  have hm : UpgradedUpTo _ ibound mesh e m := hinv
  have hsame := hm.above e le_rfl
  refine ⟨?_, hsame⟩
  apply forLoopRun_threw_of_le _ _ (e + 1) n (by omega)
  rw [forLoopRun_succ, hreach]
  simp only [Run.andThen, upgrade_step]
  rw [hsame, hv]

/-- If the body rejects element `e`, the loop throws, at `e` or before, and
leaves `e` and every later element as it was. -/
theorem upgrade_loop_stops_before (parametric_curve_pt : CurvilineGeomObject)
    (bound boundary_order ibound : Nat) (mesh : Mesh) (n e : Nat) (he : e < n)
    (err0 : UpgradeError)
    (hv : upgrade_boundary_element parametric_curve_pt bound boundary_order
      (mesh.boundary_element_pt ibound e) = Except.error err0) :
    ∃ err m,
      forLoopRun 0 n (upgrade_step parametric_curve_pt bound boundary_order ibound) mesh
        = Run.threw err m
      ∧ ∀ j, e ≤ j → m.boundary_element_pt ibound j = mesh.boundary_element_pt ibound j := by
  have hinv := upgrade_loop_inv parametric_curve_pt bound boundary_order ibound mesh n
  cases ho : forLoopRun 0 n (upgrade_step parametric_curve_pt bound boundary_order ibound)
      mesh with
  | returned m =>
    rw [ho] at hinv
    have hm : UpgradedUpTo _ ibound mesh n m := hinv
    have := hm.below e he
    rw [hv] at this
    cases this
  | threw err m =>
    rw [ho] at hinv
    obtain ⟨e0, _, hm, _⟩ := hinv
    refine ⟨err, m, rfl, fun j hj => hm.above j ?_⟩
    by_contra hlt
    have := hm.below e (by omega)
    rw [hv] at this
    cases this

/-- Whatever the loop does, an element it changed had exactly one node off
the boundary. -/
theorem upgrade_loop_changes_only_one_off (parametric_curve_pt : CurvilineGeomObject)
    (bound boundary_order ibound : Nat) (mesh : Mesh) (n e : Nat)
    (hne : (forLoopRun 0 n (upgrade_step parametric_curve_pt bound boundary_order ibound)
        mesh).state.boundary_element_pt ibound e ≠ mesh.boundary_element_pt ibound e) :
    ∃ i, ExactlyOneOffBoundary bound (mesh.boundary_element_pt ibound e) i := by
  have hinv := upgrade_loop_inv parametric_curve_pt bound boundary_order ibound mesh n
  have hkey : ∀ k m, UpgradedUpTo
      (upgrade_boundary_element parametric_curve_pt bound boundary_order) ibound mesh k m →
      m.boundary_element_pt ibound e ≠ mesh.boundary_element_pt ibound e →
      ∃ i, ExactlyOneOffBoundary bound (mesh.boundary_element_pt ibound e) i := by
    intro k m hm hdiff
    by_cases hek : e < k
    · obtain ⟨i, hi, _, _⟩ := upgrade_boundary_element_ok _ _ _ _ _ (hm.below e hek)
      exact ⟨i, hi⟩
    · exact absurd (hm.above e (by omega)) hdiff
  cases ho : forLoopRun 0 n (upgrade_step parametric_curve_pt bound boundary_order ibound)
      mesh with
  | returned m =>
    rw [ho] at hinv hne
    exact hkey n m hinv hne
  | threw err m =>
    rw [ho] at hinv hne
    obtain ⟨e0, _, hm, _⟩ := hinv
    exact hkey e0 m hm hne


/-! ## What the upgrade loop does at an element it rejects -/

theorem upgrade_boundary_element_of_passes (parametric_curve_pt : CurvilineGeomObject)
    (bound boundary_order : Nat) (bulk_el : BulkElement)
    (h : PassesChecks parametric_curve_pt bound bulk_el) :
    ∃ upgraded, upgrade_boundary_element parametric_curve_pt bound boundary_order bulk_el
      = Except.ok upgraded := by
  obtain ⟨i, hi, hle⟩ := h
  rw [upgrade_boundary_element_of_one _ _ _ _ i hi, if_neg (not_lt.mpr hle)]
  exact ⟨_, rfl⟩

/-- The loop reaches element `e` when every earlier element passes the
checks. -/
theorem upgrade_loop_reaches (parametric_curve_pt : CurvilineGeomObject)
    (bound boundary_order ibound : Nat) (mesh : Mesh) (e : Nat)
    (h : ∀ j, j < e → PassesChecks parametric_curve_pt bound (mesh.boundary_element_pt ibound j)) :
    ∃ m, forLoopRun 0 e (upgrade_step parametric_curve_pt bound boundary_order ibound) mesh
      = Run.returned m := by
  have hinv := upgrade_loop_inv parametric_curve_pt bound boundary_order ibound mesh e
  cases ho : forLoopRun 0 e (upgrade_step parametric_curve_pt bound boundary_order ibound)
      mesh with
  | returned m => exact ⟨m, rfl⟩
  | threw err m =>
    rw [ho] at hinv
    obtain ⟨e0, he0, _, hv⟩ := hinv
    obtain ⟨u, hu⟩ := upgrade_boundary_element_of_passes parametric_curve_pt bound
      boundary_order _ (h e0 he0)
    rw [hu] at hv
    cases hv

/-- An element the body rejects stops the loop: the loop throws and leaves
that element and the later ones as they were; the error is the one of that
element when every earlier element passes the checks. -/
theorem upgrade_loop_of_rejected (parametric_curve_pt : CurvilineGeomObject)
    (bound boundary_order ibound : Nat) (mesh : Mesh) (n e : Nat) (he : e < n)
    (err0 : UpgradeError)
    (hv : upgrade_boundary_element parametric_curve_pt bound boundary_order
      (mesh.boundary_element_pt ibound e) = Except.error err0) :
    (∃ err m,
      forLoopRun 0 n (upgrade_step parametric_curve_pt bound boundary_order ibound) mesh
        = Run.threw err m
      ∧ ∀ j, e ≤ j → m.boundary_element_pt ibound j = mesh.boundary_element_pt ibound j)
    ∧ ((∀ j, j < e →
          PassesChecks parametric_curve_pt bound (mesh.boundary_element_pt ibound j)) →
        ∃ m,
          forLoopRun 0 n (upgrade_step parametric_curve_pt bound boundary_order ibound) mesh
            = Run.threw err0 m
          ∧ ∀ j, e ≤ j →
              m.boundary_element_pt ibound j = mesh.boundary_element_pt ibound j) := by
  have hstop := upgrade_loop_stops_before parametric_curve_pt bound boundary_order ibound mesh
    n e he err0 hv
  refine ⟨hstop, fun hpass => ?_⟩
  obtain ⟨m, hm⟩ := upgrade_loop_reaches parametric_curve_pt bound boundary_order ibound mesh
    e hpass
  obtain ⟨hthrow, _⟩ := upgrade_loop_throws_at parametric_curve_pt bound boundary_order ibound
    mesh m n e he err0 hm hv
  obtain ⟨err, m1, h1, hrest⟩ := hstop
  rw [hthrow] at h1
  cases h1
  exact ⟨m, hthrow, hrest⟩

theorem goodElement_one_off (bound : Nat) : ExactlyOneOffBoundary bound goodElement 0 := by
  refine ⟨by norm_num, rfl, fun j hj hj0 => ?_⟩
  interval_cases j <;> first | rfl | exact absurd rfl hj0

theorem invertedElement_one_off (bound : Nat) :
    ExactlyOneOffBoundary bound invertedElement 0 := by
  refine ⟨by norm_num, rfl, fun j hj hj0 => ?_⟩
  interval_cases j <;> first | rfl | exact absurd rfl hj0

theorem goodElement_passes (bound : Nat) : PassesChecks xAxis bound goodElement := by
  refine ⟨0, goodElement_one_off bound, ?_⟩
  simp [xAxis, straightBoundary, goodElement, triangle, exampleNode]

theorem invertedElement_decreasing :
    xAxis.get_zeta (invertedElement.node_pt ((0 + 1) % 3)).x
      > xAxis.get_zeta (invertedElement.node_pt ((0 + 2) % 3)).x := by
  simp [xAxis, straightBoundary, invertedElement, triangle, exampleNode]

theorem passes_before_one (parametric_curve_pt : CurvilineGeomObject) (bound ibound : Nat)
    (first : BulkElement) (rest : List BulkElement)
    (h : PassesChecks parametric_curve_pt bound first) :
    ∀ j, j < 1 → PassesChecks parametric_curve_pt bound
      ((meshOf (first :: rest)).boundary_element_pt ibound j) := by
  intro j hj
  have : j = 0 := by omega
  subst this
  exact h


/-! ## Claims on the upgrade of boundary elements -/

/-- C14 (evaluation at the failing input): an element whose two boundary
nodes have the same curve parameter passes the check `s_ubar > s_obar` and is
upgraded with `s_ubar = s_obar = 1`, in both drivers. -/
theorem degenerate_edge_upgraded :
    ExactlyOneOffBoundary 0 degenerateElement 0
    ∧ (StarTrek.upgrade_edge_elements_to_curve xAxis xAxis 0 (meshOf [degenerateElement])).error
        = none
    ∧ ((StarTrek.upgrade_edge_elements_to_curve xAxis xAxis 0
          (meshOf [degenerateElement])).state.boundary_element_pt 0 0).curved.map
        (fun c => (c.s_ubar, c.s_obar)) = some (1, 1)
    ∧ (CircularSector.upgrade_edge_elements_to_curve xAxis Circular_arc_bnum
          (meshOf [degenerateElement])).error = none
    ∧ ((CircularSector.upgrade_edge_elements_to_curve xAxis Circular_arc_bnum
          (meshOf [degenerateElement])).state.boundary_element_pt Circular_arc_bnum 0).curved.map
        (fun c => (c.s_ubar, c.s_obar)) = some (1, 1) := by
  refine ⟨⟨by norm_num, rfl, fun j hj hj0 => ?_⟩, ?_, ?_, ?_, ?_⟩
  · interval_cases j <;> first | rfl | exact absurd rfl hj0
  all_goals
    simp [StarTrek.upgrade_edge_elements_to_curve, CircularSector.upgrade_edge_elements_to_curve,
      Circular_arc_bnum, forLoopRun_succ, forLoopRun_zero, Run.andThen, Run.error, Run.state,
      upgrade_step, upgrade_boundary_element, record_boundary_nodes_eq, meshOf,
      degenerateElement, triangle, exampleNode, xAxis, straightBoundary,
      Mesh.with_boundary_element, BulkElement.upgrade_element_to_curved]


/-- C16: an unexpected boundary number is rejected with the mesh untouched;
when the loop reaches an element (every earlier one passes the checks) none
of whose nodes is off the boundary, or two of whose nodes are, the function
throws "No interior nodes" / "Multiple interior nodes" and leaves the element
as it was; and an element the function changed had exactly one node off the
boundary. Stated for the drivers of star_trek.cc and circular_sector.cc. -/
theorem interior_node_count_checked :
    (∀ (Upper_parametric_elliptical_curve Lower_parametric_elliptical_curve :
          CurvilineGeomObject) (ibound : Nat) (mesh : Mesh),
      (2 ≤ ibound →
        StarTrek.upgrade_edge_elements_to_curve Upper_parametric_elliptical_curve
            Lower_parametric_elliptical_curve ibound mesh
          = Run.threw UpgradeError.unexpected_boundary_number mesh)
      ∧ (ibound < 2 → ∀ e, e < mesh.nboundary_element ibound →
          (∀ j, j < e → PassesChecks
            (if ibound = 0 then Upper_parametric_elliptical_curve
              else Lower_parametric_elliptical_curve) ibound
            (mesh.boundary_element_pt ibound j)) →
          ((∀ j, j < 3 →
              ((mesh.boundary_element_pt ibound e).node_pt j).is_on_boundary ibound = true) →
            ∃ m, StarTrek.upgrade_edge_elements_to_curve Upper_parametric_elliptical_curve
                  Lower_parametric_elliptical_curve ibound mesh
                = Run.threw UpgradeError.no_interior_nodes m
              ∧ m.boundary_element_pt ibound e = mesh.boundary_element_pt ibound e)
          ∧ (∀ j1 j2, j1 < 3 → j2 < 3 → j1 ≠ j2 →
              ((mesh.boundary_element_pt ibound e).node_pt j1).is_on_boundary ibound = false →
              ((mesh.boundary_element_pt ibound e).node_pt j2).is_on_boundary ibound = false →
            ∃ m, StarTrek.upgrade_edge_elements_to_curve Upper_parametric_elliptical_curve
                  Lower_parametric_elliptical_curve ibound mesh
                = Run.threw UpgradeError.multiple_interior_nodes m
              ∧ m.boundary_element_pt ibound e = mesh.boundary_element_pt ibound e))
      ∧ (∀ e, (StarTrek.upgrade_edge_elements_to_curve Upper_parametric_elliptical_curve
              Lower_parametric_elliptical_curve ibound mesh).state.boundary_element_pt ibound e
            ≠ mesh.boundary_element_pt ibound e →
          ∃ i, ExactlyOneOffBoundary ibound (mesh.boundary_element_pt ibound e) i))
    ∧ (∀ (parametric_arc : CurvilineGeomObject) (ibound : Nat) (mesh : Mesh),
      (ibound ≠ Circular_arc_bnum →
        CircularSector.upgrade_edge_elements_to_curve parametric_arc ibound mesh
          = Run.threw UpgradeError.unexpected_boundary_number mesh)
      ∧ (ibound = Circular_arc_bnum → ∀ e, e < mesh.nboundary_element ibound →
          (∀ j, j < e → PassesChecks parametric_arc Circular_arc_bnum
            (mesh.boundary_element_pt ibound j)) →
          ((∀ j, j < 3 →
              ((mesh.boundary_element_pt ibound e).node_pt j).is_on_boundary
                Circular_arc_bnum = true) →
            ∃ m, CircularSector.upgrade_edge_elements_to_curve parametric_arc ibound mesh
                = Run.threw UpgradeError.no_interior_nodes m
              ∧ m.boundary_element_pt ibound e = mesh.boundary_element_pt ibound e)
          ∧ (∀ j1 j2, j1 < 3 → j2 < 3 → j1 ≠ j2 →
              ((mesh.boundary_element_pt ibound e).node_pt j1).is_on_boundary
                Circular_arc_bnum = false →
              ((mesh.boundary_element_pt ibound e).node_pt j2).is_on_boundary
                Circular_arc_bnum = false →
            ∃ m, CircularSector.upgrade_edge_elements_to_curve parametric_arc ibound mesh
                = Run.threw UpgradeError.multiple_interior_nodes m
              ∧ m.boundary_element_pt ibound e = mesh.boundary_element_pt ibound e))
      ∧ (∀ e, (CircularSector.upgrade_edge_elements_to_curve parametric_arc ibound
              mesh).state.boundary_element_pt ibound e
            ≠ mesh.boundary_element_pt ibound e →
          ∃ i, ExactlyOneOffBoundary Circular_arc_bnum
            (mesh.boundary_element_pt ibound e) i)) := by
  refine ⟨fun Upper Lower ibound mesh => ⟨fun hb => star_trek_upgrade_unexpected _ _ _ _ hb,
      fun hb e he hpass => ⟨fun hnone => ?_, fun j1 j2 hj1 hj2 hne h1 h2 => ?_⟩,
      fun e hne => ?_⟩,
    fun parametric_arc ibound mesh => ⟨fun hb => circular_sector_upgrade_unexpected _ _ _ hb,
      fun hb e he hpass => ⟨fun hnone => ?_, fun j1 j2 hj1 hj2 hne h1 h2 => ?_⟩,
      fun e hne => ?_⟩⟩
  · rw [star_trek_upgrade_eq_loop _ _ _ _ hb]
    obtain ⟨m, hm, hrest⟩ := (upgrade_loop_of_rejected _ ibound 5 ibound mesh _ e he _
      (upgrade_boundary_element_of_none _ ibound 5 _ hnone)).2 hpass
    exact ⟨m, hm, hrest e le_rfl⟩
  · rw [star_trek_upgrade_eq_loop _ _ _ _ hb]
    obtain ⟨m, hm, hrest⟩ := (upgrade_loop_of_rejected _ ibound 5 ibound mesh _ e he _
      (upgrade_boundary_element_of_multiple _ ibound 5 _ j1 j2 hj1 hj2 hne h1 h2)).2 hpass
    exact ⟨m, hm, hrest e le_rfl⟩
  · by_cases hb : ibound < 2
    · rw [star_trek_upgrade_eq_loop _ _ _ _ hb] at hne
      exact upgrade_loop_changes_only_one_off _ ibound 5 ibound mesh _ e hne
    · rw [star_trek_upgrade_unexpected _ _ _ _ (by omega)] at hne
      exact absurd rfl hne
  · subst hb
    rw [circular_sector_upgrade_eq_loop]
    obtain ⟨m, hm, hrest⟩ := (upgrade_loop_of_rejected _ Circular_arc_bnum 3 Circular_arc_bnum
      mesh _ e he _ (upgrade_boundary_element_of_none _ Circular_arc_bnum 3 _ hnone)).2 hpass
    exact ⟨m, hm, hrest e le_rfl⟩
  · subst hb
    rw [circular_sector_upgrade_eq_loop]
    obtain ⟨m, hm, hrest⟩ := (upgrade_loop_of_rejected _ Circular_arc_bnum 3 Circular_arc_bnum
      mesh _ e he _ (upgrade_boundary_element_of_multiple _ Circular_arc_bnum 3 _ j1 j2 hj1 hj2
        hne h1 h2)).2 hpass
    exact ⟨m, hm, hrest e le_rfl⟩
  · by_cases hb : ibound = Circular_arc_bnum
    · subst hb
      rw [circular_sector_upgrade_eq_loop] at hne
      exact upgrade_loop_changes_only_one_off _ Circular_arc_bnum 3 Circular_arc_bnum mesh _ e
        hne
    · rw [circular_sector_upgrade_unexpected _ _ _ hb] at hne
      exact absurd rfl hne

/-- The run on the single element `goodElement` changes it. -/
theorem goodElement_changed :
    (StarTrek.upgrade_edge_elements_to_curve xAxis xAxis 0
        (meshOf [goodElement])).state.boundary_element_pt 0 0
      ≠ (meshOf [goodElement]).boundary_element_pt 0 0
    ∧ (CircularSector.upgrade_edge_elements_to_curve xAxis Circular_arc_bnum
        (meshOf [goodElement])).state.boundary_element_pt Circular_arc_bnum 0
      ≠ (meshOf [goodElement]).boundary_element_pt Circular_arc_bnum 0 := by
  constructor <;> intro h <;> have h2 := congrArg BulkElement.curved h <;>
    simp [StarTrek.upgrade_edge_elements_to_curve, CircularSector.upgrade_edge_elements_to_curve,
      Circular_arc_bnum, forLoopRun_succ, forLoopRun_zero, Run.andThen, Run.error, Run.state,
      upgrade_step, upgrade_boundary_element, record_boundary_nodes_eq, meshOf,
      goodElement, triangle, exampleNode, xAxis, straightBoundary,
      Mesh.with_boundary_element, BulkElement.upgrade_element_to_curved] at h2

/-- C16 at concrete meshes on the x axis: boundary 2 is rejected by the
star_trek.cc driver and boundary 0 by the circular_sector.cc driver; after an
accepted element, an element with all nodes on the boundary and one with no
node on it are rejected with the respective error and left alone; and the
element that a run changed has exactly one node off the boundary. -/
theorem interior_node_count_checked_witness :
    StarTrek.upgrade_edge_elements_to_curve xAxis xAxis 2 (meshOf [goodElement])
        = Run.threw UpgradeError.unexpected_boundary_number (meshOf [goodElement])
    ∧ (∃ m, StarTrek.upgrade_edge_elements_to_curve xAxis xAxis 0
            (meshOf [goodElement, boundaryOnlyElement])
          = Run.threw UpgradeError.no_interior_nodes m
        ∧ m.boundary_element_pt 0 1 = boundaryOnlyElement)
    ∧ (∃ m, StarTrek.upgrade_edge_elements_to_curve xAxis xAxis 0
            (meshOf [goodElement, floatingElement])
          = Run.threw UpgradeError.multiple_interior_nodes m
        ∧ m.boundary_element_pt 0 1 = floatingElement)
    ∧ (∃ i, ExactlyOneOffBoundary 0 goodElement i)
    ∧ CircularSector.upgrade_edge_elements_to_curve xAxis 0 (meshOf [goodElement])
        = Run.threw UpgradeError.unexpected_boundary_number (meshOf [goodElement])
    ∧ (∃ m, CircularSector.upgrade_edge_elements_to_curve xAxis Circular_arc_bnum
            (meshOf [goodElement, boundaryOnlyElement])
          = Run.threw UpgradeError.no_interior_nodes m
        ∧ m.boundary_element_pt Circular_arc_bnum 1 = boundaryOnlyElement)
    ∧ (∃ m, CircularSector.upgrade_edge_elements_to_curve xAxis Circular_arc_bnum
            (meshOf [goodElement, floatingElement])
          = Run.threw UpgradeError.multiple_interior_nodes m
        ∧ m.boundary_element_pt Circular_arc_bnum 1 = floatingElement)
    ∧ (∃ i, ExactlyOneOffBoundary Circular_arc_bnum goodElement i) :=
  ⟨(interior_node_count_checked.1 xAxis xAxis 2 (meshOf [goodElement])).1 (le_refl 2),
   ((interior_node_count_checked.1 xAxis xAxis 0
      (meshOf [goodElement, boundaryOnlyElement])).2.1 (by norm_num) 1 (by simp [meshOf])
      (passes_before_one _ 0 0 _ _ (goodElement_passes 0))).1
      (fun j hj => by interval_cases j <;> rfl),
   ((interior_node_count_checked.1 xAxis xAxis 0
      (meshOf [goodElement, floatingElement])).2.1 (by norm_num) 1 (by simp [meshOf])
      (passes_before_one _ 0 0 _ _ (goodElement_passes 0))).2
      0 1 (by norm_num) (by norm_num) (by norm_num) rfl rfl,
   (interior_node_count_checked.1 xAxis xAxis 0 (meshOf [goodElement])).2.2 0
      goodElement_changed.1,
   (interior_node_count_checked.2 xAxis 0 (meshOf [goodElement])).1 (by decide),
   ((interior_node_count_checked.2 xAxis Circular_arc_bnum
      (meshOf [goodElement, boundaryOnlyElement])).2.1 rfl 1 (by simp [meshOf])
      (passes_before_one _ Circular_arc_bnum Circular_arc_bnum _ _
        (goodElement_passes Circular_arc_bnum))).1
      (fun j hj => by interval_cases j <;> rfl),
   ((interior_node_count_checked.2 xAxis Circular_arc_bnum
      (meshOf [goodElement, floatingElement])).2.1 rfl 1 (by simp [meshOf])
      (passes_before_one _ Circular_arc_bnum Circular_arc_bnum _ _
        (goodElement_passes Circular_arc_bnum))).2
      0 1 (by norm_num) (by norm_num) (by norm_num) rfl rfl,
   (interior_node_count_checked.2 xAxis Circular_arc_bnum (meshOf [goodElement])).2.2 0
      goodElement_changed.2⟩

/-- C15 (counterexample): the second boundary element has exactly one node off
the boundary and a decreasing parameter, yet the run throws "No interior
nodes", raised by the first element, and not the orientation error. -/
theorem orientation_error_preempted :
    1 < (meshOf [boundaryOnlyElement, invertedElement]).nboundary_element 0
    ∧ ExactlyOneOffBoundary 0
        ((meshOf [boundaryOnlyElement, invertedElement]).boundary_element_pt 0 1) 0
    ∧ xAxis.get_zeta
          (((meshOf [boundaryOnlyElement, invertedElement]).boundary_element_pt 0 1).node_pt
            ((0 + 1) % 3)).x
        > xAxis.get_zeta
          (((meshOf [boundaryOnlyElement, invertedElement]).boundary_element_pt 0 1).node_pt
            ((0 + 2) % 3)).x
    ∧ (StarTrek.upgrade_edge_elements_to_curve xAxis xAxis 0
          (meshOf [boundaryOnlyElement, invertedElement])).error
        = some UpgradeError.no_interior_nodes
    ∧ (StarTrek.upgrade_edge_elements_to_curve xAxis xAxis 0
          (meshOf [boundaryOnlyElement, invertedElement])).error
        ≠ some UpgradeError.decreasing_parametric_coordinate := by
  have herr : (StarTrek.upgrade_edge_elements_to_curve xAxis xAxis 0
      (meshOf [boundaryOnlyElement, invertedElement])).error
        = some UpgradeError.no_interior_nodes := by
    simp [StarTrek.upgrade_edge_elements_to_curve, forLoopRun_succ, forLoopRun_zero,
      Run.andThen, Run.error, upgrade_step, upgrade_boundary_element,
      record_boundary_nodes_eq, meshOf, boundaryOnlyElement, triangle, exampleNode]
  refine ⟨by simp [meshOf], invertedElement_one_off 0, invertedElement_decreasing, herr, ?_⟩
  rw [herr]
  decide

/-- C15 (amended): an element with exactly one node off the boundary and a
decreasing parameter makes the function throw and leave that element and
every later one as they were; the error thrown is the orientation error when
every earlier element passes the checks. Stated for both drivers, on a
boundary number they accept. -/
theorem inverted_element_stops_upgrade :
    (∀ (Upper_parametric_elliptical_curve Lower_parametric_elliptical_curve :
          CurvilineGeomObject) (ibound : Nat) (mesh : Mesh) (e i : Nat),
      ibound < 2 → e < mesh.nboundary_element ibound →
      ExactlyOneOffBoundary ibound (mesh.boundary_element_pt ibound e) i →
      (if ibound = 0 then Upper_parametric_elliptical_curve
          else Lower_parametric_elliptical_curve).get_zeta
          ((mesh.boundary_element_pt ibound e).node_pt ((i + 1) % 3)).x
        > (if ibound = 0 then Upper_parametric_elliptical_curve
          else Lower_parametric_elliptical_curve).get_zeta
          ((mesh.boundary_element_pt ibound e).node_pt ((i + 2) % 3)).x →
      (∃ err m, StarTrek.upgrade_edge_elements_to_curve Upper_parametric_elliptical_curve
            Lower_parametric_elliptical_curve ibound mesh = Run.threw err m
          ∧ ∀ j, e ≤ j → m.boundary_element_pt ibound j = mesh.boundary_element_pt ibound j)
      ∧ ((∀ j, j < e → PassesChecks
            (if ibound = 0 then Upper_parametric_elliptical_curve
              else Lower_parametric_elliptical_curve) ibound
            (mesh.boundary_element_pt ibound j)) →
          ∃ m, StarTrek.upgrade_edge_elements_to_curve Upper_parametric_elliptical_curve
              Lower_parametric_elliptical_curve ibound mesh
              = Run.threw UpgradeError.decreasing_parametric_coordinate m
            ∧ ∀ j, e ≤ j →
                m.boundary_element_pt ibound j = mesh.boundary_element_pt ibound j))
    ∧ (∀ (parametric_arc : CurvilineGeomObject) (mesh : Mesh) (e i : Nat),
      e < mesh.nboundary_element Circular_arc_bnum →
      ExactlyOneOffBoundary Circular_arc_bnum
        (mesh.boundary_element_pt Circular_arc_bnum e) i →
      parametric_arc.get_zeta
          ((mesh.boundary_element_pt Circular_arc_bnum e).node_pt ((i + 1) % 3)).x
        > parametric_arc.get_zeta
          ((mesh.boundary_element_pt Circular_arc_bnum e).node_pt ((i + 2) % 3)).x →
      (∃ err m, CircularSector.upgrade_edge_elements_to_curve parametric_arc
            Circular_arc_bnum mesh = Run.threw err m
          ∧ ∀ j, e ≤ j → m.boundary_element_pt Circular_arc_bnum j
              = mesh.boundary_element_pt Circular_arc_bnum j)
      ∧ ((∀ j, j < e → PassesChecks parametric_arc Circular_arc_bnum
            (mesh.boundary_element_pt Circular_arc_bnum j)) →
          ∃ m, CircularSector.upgrade_edge_elements_to_curve parametric_arc
              Circular_arc_bnum mesh
              = Run.threw UpgradeError.decreasing_parametric_coordinate m
            ∧ ∀ j, e ≤ j → m.boundary_element_pt Circular_arc_bnum j
                = mesh.boundary_element_pt Circular_arc_bnum j)) := by
  refine ⟨fun Upper Lower ibound mesh e i hb he hone hdec => ?_,
    fun parametric_arc mesh e i he hone hdec => ?_⟩
  · rw [star_trek_upgrade_eq_loop _ _ _ _ hb]
    refine upgrade_loop_of_rejected _ ibound 5 ibound mesh _ e he
      UpgradeError.decreasing_parametric_coordinate ?_
    rw [upgrade_boundary_element_of_one _ _ _ _ i hone, if_pos hdec]
  · rw [circular_sector_upgrade_eq_loop]
    refine upgrade_loop_of_rejected _ Circular_arc_bnum 3 Circular_arc_bnum mesh _ e he
      UpgradeError.decreasing_parametric_coordinate ?_
    rw [upgrade_boundary_element_of_one _ _ _ _ i hone, if_pos hdec]

/-- C15 (amended) at the mesh whose second element is wound the wrong way
after an accepted first one: both drivers throw the orientation error and
leave the second element as it was. -/
theorem inverted_element_stops_upgrade_witness :
    (∃ m, StarTrek.upgrade_edge_elements_to_curve xAxis xAxis 0
          (meshOf [goodElement, invertedElement])
        = Run.threw UpgradeError.decreasing_parametric_coordinate m
      ∧ ∀ j, 1 ≤ j → m.boundary_element_pt 0 j
          = (meshOf [goodElement, invertedElement]).boundary_element_pt 0 j)
    ∧ (∃ m, CircularSector.upgrade_edge_elements_to_curve xAxis Circular_arc_bnum
          (meshOf [goodElement, invertedElement])
        = Run.threw UpgradeError.decreasing_parametric_coordinate m
      ∧ ∀ j, 1 ≤ j → m.boundary_element_pt Circular_arc_bnum j
          = (meshOf [goodElement, invertedElement]).boundary_element_pt Circular_arc_bnum j) :=
  ⟨(inverted_element_stops_upgrade.1 xAxis xAxis 0 (meshOf [goodElement, invertedElement]) 1 0
      (by norm_num) (by simp [meshOf]) (invertedElement_one_off 0)
      invertedElement_decreasing).2 (passes_before_one _ 0 0 _ _ (goodElement_passes 0)),
   (inverted_element_stops_upgrade.2 xAxis (meshOf [goodElement, invertedElement]) 1 0
      (by simp [meshOf]) (invertedElement_one_off Circular_arc_bnum)
      invertedElement_decreasing).2
      (passes_before_one _ Circular_arc_bnum Circular_arc_bnum _ _
        (goodElement_passes Circular_arc_bnum))⟩


/-! ## Properties of the boundary frames -/

theorem rpow_neg_three_halves (z : ℝ) (hz : 0 < z) :
    z ^ (-1.5 : ℝ) = (Real.sqrt z ^ 3)⁻¹ := by
  rw [Real.sqrt_eq_rpow, ← Real.rpow_natCast, ← Real.rpow_mul hz.le, ← Real.rpow_neg hz.le]
  norm_num

theorem hasDerivAt_self_div_norm (a b : ℝ) (h : 0 < a * a + b * b) :
    HasDerivAt (fun s => s / Real.sqrt (s * s + b * b))
      (b * b * (a * a + b * b) ^ (-1.5 : ℝ)) a := by
  have h1 : HasDerivAt (fun s : ℝ => s * s + b * b) (1 * a + a * 1) a :=
    ((hasDerivAt_id a).mul (hasDerivAt_id a)).add_const (b * b)
  have h2 := h1.sqrt h.ne'
  have hR : Real.sqrt (a * a + b * b) ≠ 0 := (Real.sqrt_pos.mpr h).ne'
  have h3 := (hasDerivAt_id a).div h2 hR
  have hsq : Real.sqrt (a * a + b * b) ^ 2 = a * a + b * b := Real.sq_sqrt h.le
  convert h3 using 1
  rw [rpow_neg_three_halves _ h]
  simp only [id]
  have hb : b * b = Real.sqrt (a * a + b * b) ^ 2 - a * a := by linarith
  generalize Real.sqrt (a * a + b * b) = R at hR hb ⊢
  rw [hb]
  field_simp
  ring

theorem hasDerivAt_const_div_norm (a b c : ℝ) (h : 0 < a * a + b * b) :
    HasDerivAt (fun s => c / Real.sqrt (s * s + b * b))
      (-(c * a) * (a * a + b * b) ^ (-1.5 : ℝ)) a := by
  have h1 : HasDerivAt (fun s : ℝ => s * s + b * b) (1 * a + a * 1) a :=
    ((hasDerivAt_id a).mul (hasDerivAt_id a)).add_const (b * b)
  have h2 := h1.sqrt h.ne'
  have hR : Real.sqrt (a * a + b * b) ≠ 0 := (Real.sqrt_pos.mpr h).ne'
  have h3 := (hasDerivAt_const a c).div h2 hR
  convert h3 using 1
  rw [rpow_neg_three_halves _ h]
  generalize Real.sqrt (a * a + b * b) = R at hR ⊢
  field_simp
  ring

theorem hasDerivAt_self_div_norm_right (a b : ℝ) (h : 0 < b * b + a * a) :
    HasDerivAt (fun s => s / Real.sqrt (b * b + s * s))
      (b * b * (b * b + a * a) ^ (-1.5 : ℝ)) a := by
  have e : (fun s => s / Real.sqrt (b * b + s * s))
      = (fun s => s / Real.sqrt (s * s + b * b)) := by
    funext s; rw [add_comm]
  rw [e, add_comm (b * b)]
  exact hasDerivAt_self_div_norm a b (by linarith)

theorem hasDerivAt_const_div_norm_right (a b c : ℝ) (h : 0 < b * b + a * a) :
    HasDerivAt (fun s => c / Real.sqrt (b * b + s * s))
      (-(c * a) * (b * b + a * a) ^ (-1.5 : ℝ)) a := by
  have e : (fun s => c / Real.sqrt (b * b + s * s))
      = (fun s => c / Real.sqrt (s * s + b * b)) := by
    funext s; rw [add_comm]
  rw [e, add_comm (b * b)]
  exact hasDerivAt_const_div_norm a b c (by linarith)

theorem norm_sq_pos (x : Nat → ℝ) (hx : x 0 ≠ 0 ∨ x 1 ≠ 0) : 0 < x 0 * x 0 + x 1 * x 1 := by
  rcases hx with h | h
  · exact add_pos_of_pos_of_nonneg (mul_self_pos.mpr h) (mul_self_nonneg _)
  · exact add_pos_of_nonneg_of_pos (mul_self_nonneg _) (mul_self_pos.mpr h)

/-- C18: away from the origin, with `R = sqrt (x^2 + y^2)` and the real
`sqrt` and `pow`, `get_normal_and_tangent_circular_arc` returns
`n = (x, y) / R` and `t = (-y, x) / R`; `dn i j = (delta i j - n i * n j) / R`
and it is the partial derivative of `n i` in `x j`; the derivative of `n`
along `t` is `t / R` and along `n` is zero; and `dt i j` is the partial
derivative of `t i` in `x j`. -/
theorem circular_arc_frame_exact (x : Nat → ℝ) (hx : x 0 ≠ 0 ∨ x 1 ≠ 0) :
    ((Parameters.get_normal_and_tangent_circular_arc Real.sqrt Real.rpow x).n 0
        = x 0 / Real.sqrt (x 0 * x 0 + x 1 * x 1)
      ∧ (Parameters.get_normal_and_tangent_circular_arc Real.sqrt Real.rpow x).n 1
        = x 1 / Real.sqrt (x 0 * x 0 + x 1 * x 1))
    ∧ ((Parameters.get_normal_and_tangent_circular_arc Real.sqrt Real.rpow x).t 0
        = -x 1 / Real.sqrt (x 0 * x 0 + x 1 * x 1)
      ∧ (Parameters.get_normal_and_tangent_circular_arc Real.sqrt Real.rpow x).t 1
        = x 0 / Real.sqrt (x 0 * x 0 + x 1 * x 1))
    ∧ (∀ i j, i < 2 → j < 2 →
        (Parameters.get_normal_and_tangent_circular_arc Real.sqrt Real.rpow x).dn i j
          = ((if i = j then 1 else 0)
              - (Parameters.get_normal_and_tangent_circular_arc Real.sqrt Real.rpow x).n i
                * (Parameters.get_normal_and_tangent_circular_arc Real.sqrt Real.rpow x).n j)
            / Real.sqrt (x 0 * x 0 + x 1 * x 1))
    ∧ (∀ i j, i < 2 → j < 2 →
        HasDerivAt
          (fun s => (Parameters.get_normal_and_tangent_circular_arc Real.sqrt Real.rpow
            (Function.update x j s)).n i)
          ((Parameters.get_normal_and_tangent_circular_arc Real.sqrt Real.rpow x).dn i j) (x j))
    ∧ (∀ i, i < 2 →
        (Parameters.get_normal_and_tangent_circular_arc Real.sqrt Real.rpow x).dn i 0
            * (Parameters.get_normal_and_tangent_circular_arc Real.sqrt Real.rpow x).t 0
          + (Parameters.get_normal_and_tangent_circular_arc Real.sqrt Real.rpow x).dn i 1
            * (Parameters.get_normal_and_tangent_circular_arc Real.sqrt Real.rpow x).t 1
          = (Parameters.get_normal_and_tangent_circular_arc Real.sqrt Real.rpow x).t i
            / Real.sqrt (x 0 * x 0 + x 1 * x 1))
    ∧ (∀ i, i < 2 →
        (Parameters.get_normal_and_tangent_circular_arc Real.sqrt Real.rpow x).dn i 0
            * (Parameters.get_normal_and_tangent_circular_arc Real.sqrt Real.rpow x).n 0
          + (Parameters.get_normal_and_tangent_circular_arc Real.sqrt Real.rpow x).dn i 1
            * (Parameters.get_normal_and_tangent_circular_arc Real.sqrt Real.rpow x).n 1
          = 0)
    ∧ (∀ i j, i < 2 → j < 2 →
        HasDerivAt
          (fun s => (Parameters.get_normal_and_tangent_circular_arc Real.sqrt Real.rpow
            (Function.update x j s)).t i)
          ((Parameters.get_normal_and_tangent_circular_arc Real.sqrt Real.rpow x).dt i j) (x j)) := by
  let R : ℝ := Real.sqrt (x 0 * x 0 + x 1 * x 1)
  let frame : (Nat → ℝ) → NormalAndTangent ℝ := fun y =>
    Parameters.get_normal_and_tangent_circular_arc Real.sqrt Real.rpow y
  have hpos := norm_sq_pos x hx
  have hderiv :
      (∀ i j, i < 2 → j < 2 →
        HasDerivAt (fun s => (frame (Function.update x j s)).n i) ((frame x).dn i j) (x j))
      ∧ (∀ i j, i < 2 → j < 2 →
        HasDerivAt (fun s => (frame (Function.update x j s)).t i) ((frame x).dt i j)
          (x j)) := by
    constructor <;> intro i j hi hj <;> interval_cases i <;> interval_cases j
    · exact hasDerivAt_self_div_norm (x 0) (x 1) hpos
    · show HasDerivAt (fun s => x 0 / Real.sqrt (x 0 * x 0 + s * s))
        (-x 0 * x 1 * (x 0 * x 0 + x 1 * x 1) ^ (-1.5 : ℝ)) (x 1)
      convert hasDerivAt_const_div_norm_right (x 1) (x 0) (x 0) hpos using 1
      ring
    · show HasDerivAt (fun s => x 1 / Real.sqrt (s * s + x 1 * x 1))
        (-x 1 * x 0 * (x 0 * x 0 + x 1 * x 1) ^ (-1.5 : ℝ)) (x 0)
      convert hasDerivAt_const_div_norm (x 0) (x 1) (x 1) hpos using 1
      ring
    · exact hasDerivAt_self_div_norm_right (x 1) (x 0) hpos
    · show HasDerivAt (fun s => -x 1 / Real.sqrt (s * s + x 1 * x 1))
        (-(-x 1 * x 0 * (x 0 * x 0 + x 1 * x 1) ^ (-1.5 : ℝ))) (x 0)
      convert hasDerivAt_const_div_norm (x 0) (x 1) (-x 1) hpos using 1
      ring
    · show HasDerivAt (fun s => -s / Real.sqrt (x 0 * x 0 + s * s))
        (-(x 0 * x 0 * (x 0 * x 0 + x 1 * x 1) ^ (-1.5 : ℝ))) (x 1)
      convert (hasDerivAt_self_div_norm_right (x 1) (x 0) hpos).neg using 1
      funext s
      simp [neg_div]
    · exact hasDerivAt_self_div_norm (x 0) (x 1) hpos
    · show HasDerivAt (fun s => x 0 / Real.sqrt (x 0 * x 0 + s * s))
        (-x 0 * x 1 * (x 0 * x 0 + x 1 * x 1) ^ (-1.5 : ℝ)) (x 1)
      convert hasDerivAt_const_div_norm_right (x 1) (x 0) (x 0) hpos using 1
      ring
  have hR : R ≠ 0 := (Real.sqrt_pos.mpr hpos).ne'
  have hsq : R ^ 2 = x 0 * x 0 + x 1 * x 1 := Real.sq_sqrt hpos.le
  have hpow : (x 0 * x 0 + x 1 * x 1) ^ (-1.5 : ℝ) = (R ^ 3)⁻¹ := rpow_neg_three_halves _ hpos
  have hn0 : (frame x).n 0 = x 0 / R := rfl
  have hn1 : (frame x).n 1 = x 1 / R := rfl
  have ht0 : (frame x).t 0 = -x 1 / R := rfl
  have ht1 : (frame x).t 1 = x 0 / R := rfl
  have hdn00 : (frame x).dn 0 0 = x 1 * x 1 * (R ^ 3)⁻¹ := by
    rw [← hpow]; rfl
  have hdn10 : (frame x).dn 1 0 = -x 1 * x 0 * (R ^ 3)⁻¹ := by
    rw [← hpow]; rfl
  have hdn01 : (frame x).dn 0 1 = -x 0 * x 1 * (R ^ 3)⁻¹ := by
    rw [← hpow]; rfl
  have hdn11 : (frame x).dn 1 1 = x 0 * x 0 * (R ^ 3)⁻¹ := by
    rw [← hpow]; rfl
  have hx0 : x 0 * x 0 = R ^ 2 - x 1 * x 1 := by linarith
  have hx1 : x 1 * x 1 = R ^ 2 - x 0 * x 0 := by linarith
  refine ⟨⟨hn0, hn1⟩, ⟨ht0, ht1⟩, ?_, hderiv.1, ?_, ?_, hderiv.2⟩
  · show ∀ i j, i < 2 → j < 2 →
      (frame x).dn i j = ((if i = j then 1 else 0) - (frame x).n i * (frame x).n j) / R
    intro i j hi hj
    interval_cases i <;> interval_cases j
    · rw [hdn00, hn0, if_pos rfl, hx1]
      field_simp
      ring
    · rw [hdn01, hn0, hn1, if_neg (by norm_num)]
      ring
    · rw [hdn10, hn0, hn1, if_neg (by norm_num)]
      ring
    · rw [hdn11, hn1, if_pos rfl, hx0]
      field_simp
      ring
  · show ∀ i, i < 2 →
      (frame x).dn i 0 * (frame x).t 0 + (frame x).dn i 1 * (frame x).t 1 = (frame x).t i / R
    intro i hi
    interval_cases i
    · rw [hdn00, hdn01, ht0, ht1, hx1]
      field_simp
      ring
    · rw [hdn10, hdn11, ht0, ht1, hx0]
      field_simp
      ring
  · show ∀ i, i < 2 →
      (frame x).dn i 0 * (frame x).n 0 + (frame x).dn i 1 * (frame x).n 1 = 0
    intro i hi
    interval_cases i
    · rw [hdn00, hdn01, hn0, hn1]
      ring
    · rw [hdn10, hdn11, hn0, hn1]
      ring

theorem sqrt_examplePoint :
    Real.sqrt ((examplePoint : Nat → ℝ) 0 * examplePoint 0 + examplePoint 1 * examplePoint 1)
      = 5 := by
  have h : (examplePoint : Nat → ℝ) 0 * examplePoint 0 + examplePoint 1 * examplePoint 1
      = 5 ^ 2 := by
    norm_num [examplePoint]
  rw [h]
  exact Real.sqrt_sq (by norm_num)

/-- C18 at the point `(3, 4)`, where `R = 5`: the normal is `(3/5, 4/5)`, the
derivative of `n` along `t` is `t / 5`, and `dn 0 0` is the derivative of
`n 0` in `x 0`. -/
theorem circular_arc_frame_exact_witness :
    ((examplePoint : Nat → ℝ) 0 ≠ 0 ∨ (examplePoint : Nat → ℝ) 1 ≠ 0)
    ∧ (Parameters.get_normal_and_tangent_circular_arc Real.sqrt Real.rpow
        examplePoint).n 0 = 3 / 5
    ∧ (Parameters.get_normal_and_tangent_circular_arc Real.sqrt Real.rpow
        examplePoint).n 1 = 4 / 5
    ∧ (∀ i, i < 2 →
        (Parameters.get_normal_and_tangent_circular_arc Real.sqrt Real.rpow
            examplePoint).dn i 0
          * (Parameters.get_normal_and_tangent_circular_arc Real.sqrt Real.rpow
            examplePoint).t 0
        + (Parameters.get_normal_and_tangent_circular_arc Real.sqrt Real.rpow
            examplePoint).dn i 1
          * (Parameters.get_normal_and_tangent_circular_arc Real.sqrt Real.rpow
            examplePoint).t 1
        = (Parameters.get_normal_and_tangent_circular_arc Real.sqrt Real.rpow
            examplePoint).t i / 5)
    ∧ HasDerivAt
        (fun s => (Parameters.get_normal_and_tangent_circular_arc Real.sqrt
          Real.rpow (Function.update examplePoint 0 s)).n 0)
        ((Parameters.get_normal_and_tangent_circular_arc Real.sqrt Real.rpow
          examplePoint).dn 0 0) 3 := by
  have hx : (examplePoint : Nat → ℝ) 0 ≠ 0 ∨ (examplePoint : Nat → ℝ) 1 ≠ 0 :=
    Or.inl (by norm_num [examplePoint])
  have h := circular_arc_frame_exact examplePoint hx
  simp only [sqrt_examplePoint] at h
  obtain ⟨⟨hn0, hn1⟩, _, _, hd, hdt, _, _⟩ := h
  refine ⟨hx, ?_, ?_, hdt, ?_⟩
  · rw [hn0]; norm_num [examplePoint]
  · rw [hn1]; norm_num [examplePoint]
  · have := hd 0 0 (by norm_num) (by norm_num)
    simpa [examplePoint] using this

/-- C19: with the real `sqrt`, `cos` and `sin`, for every point `x` and every
opening angle `Alpha`, both straight-boundary functions return `dn = dt = 0`,
the same `n` and `t` at every point, `n` and `t` orthonormal, and `t` the
unit vector from the start point to the end point: `(1, 0)` for boundary 0
and `(-cos Alpha, -sin Alpha)` for boundary 1. -/
theorem straight_boundary_frames (Alpha : ℝ) (x : Nat → ℝ) :
    ((∀ i j, (Parameters.get_normal_and_tangent_straight_boundary_0 Real.sqrt x).dn i j = 0
          ∧ (Parameters.get_normal_and_tangent_straight_boundary_0 Real.sqrt x).dt i j = 0)
      ∧ (∀ y, Parameters.get_normal_and_tangent_straight_boundary_0 Real.sqrt y
          = Parameters.get_normal_and_tangent_straight_boundary_0 Real.sqrt x)
      ∧ ((Parameters.get_normal_and_tangent_straight_boundary_0 Real.sqrt x).t 0 = 1
        ∧ (Parameters.get_normal_and_tangent_straight_boundary_0 Real.sqrt x).t 1 = 0)
      ∧ (Parameters.get_normal_and_tangent_straight_boundary_0 Real.sqrt x).n 0
            * (Parameters.get_normal_and_tangent_straight_boundary_0 Real.sqrt x).n 0
          + (Parameters.get_normal_and_tangent_straight_boundary_0 Real.sqrt x).n 1
            * (Parameters.get_normal_and_tangent_straight_boundary_0 Real.sqrt x).n 1 = 1
      ∧ (Parameters.get_normal_and_tangent_straight_boundary_0 Real.sqrt x).t 0
            * (Parameters.get_normal_and_tangent_straight_boundary_0 Real.sqrt x).t 0
          + (Parameters.get_normal_and_tangent_straight_boundary_0 Real.sqrt x).t 1
            * (Parameters.get_normal_and_tangent_straight_boundary_0 Real.sqrt x).t 1 = 1
      ∧ (Parameters.get_normal_and_tangent_straight_boundary_0 Real.sqrt x).n 0
            * (Parameters.get_normal_and_tangent_straight_boundary_0 Real.sqrt x).t 0
          + (Parameters.get_normal_and_tangent_straight_boundary_0 Real.sqrt x).n 1
            * (Parameters.get_normal_and_tangent_straight_boundary_0 Real.sqrt x).t 1 = 0)
    ∧ ((∀ i j, (Parameters.get_normal_and_tangent_straight_boundary_1 Real.sqrt Real.cos Real.sin Alpha x).dn i j = 0
          ∧ (Parameters.get_normal_and_tangent_straight_boundary_1 Real.sqrt Real.cos Real.sin Alpha x).dt i j = 0)
      ∧ (∀ y, Parameters.get_normal_and_tangent_straight_boundary_1 Real.sqrt Real.cos Real.sin Alpha y
          = Parameters.get_normal_and_tangent_straight_boundary_1 Real.sqrt Real.cos Real.sin Alpha x)
      ∧ ((Parameters.get_normal_and_tangent_straight_boundary_1 Real.sqrt Real.cos Real.sin Alpha x).t 0 = -Real.cos Alpha
        ∧ (Parameters.get_normal_and_tangent_straight_boundary_1 Real.sqrt Real.cos Real.sin Alpha x).t 1 = -Real.sin Alpha)
      ∧ (Parameters.get_normal_and_tangent_straight_boundary_1 Real.sqrt Real.cos Real.sin Alpha x).n 0
            * (Parameters.get_normal_and_tangent_straight_boundary_1 Real.sqrt Real.cos Real.sin Alpha x).n 0
          + (Parameters.get_normal_and_tangent_straight_boundary_1 Real.sqrt Real.cos Real.sin Alpha x).n 1
            * (Parameters.get_normal_and_tangent_straight_boundary_1 Real.sqrt Real.cos Real.sin Alpha x).n 1 = 1
      ∧ (Parameters.get_normal_and_tangent_straight_boundary_1 Real.sqrt Real.cos Real.sin Alpha x).t 0
            * (Parameters.get_normal_and_tangent_straight_boundary_1 Real.sqrt Real.cos Real.sin Alpha x).t 0
          + (Parameters.get_normal_and_tangent_straight_boundary_1 Real.sqrt Real.cos Real.sin Alpha x).t 1
            * (Parameters.get_normal_and_tangent_straight_boundary_1 Real.sqrt Real.cos Real.sin Alpha x).t 1 = 1
      ∧ (Parameters.get_normal_and_tangent_straight_boundary_1 Real.sqrt Real.cos Real.sin Alpha x).n 0
            * (Parameters.get_normal_and_tangent_straight_boundary_1 Real.sqrt Real.cos Real.sin Alpha x).t 0
          + (Parameters.get_normal_and_tangent_straight_boundary_1 Real.sqrt Real.cos Real.sin Alpha x).n 1
            * (Parameters.get_normal_and_tangent_straight_boundary_1 Real.sqrt Real.cos Real.sin Alpha x).t 1 = 0) := by
  have h1 : Real.cos Alpha * Real.cos Alpha + Real.sin Alpha * Real.sin Alpha = 1 := by
    have := Real.cos_sq_add_sin_sq Alpha
    linear_combination this
  have hmag2 : Real.sqrt (Real.cos Alpha * Real.cos Alpha + Real.sin Alpha * Real.sin Alpha)
      = 1 := by
    rw [h1, Real.sqrt_one]
  refine ⟨⟨fun i j => ⟨rfl, rfl⟩, fun y => rfl, ?_, ?_, ?_, ?_⟩,
    ⟨fun i j => ⟨rfl, rfl⟩, fun y => rfl, ?_, ?_, ?_, ?_⟩⟩
  · simp [Parameters.get_normal_and_tangent_straight_boundary_0]
  · simp [Parameters.get_normal_and_tangent_straight_boundary_0]
  · simp [Parameters.get_normal_and_tangent_straight_boundary_0]
  · simp [Parameters.get_normal_and_tangent_straight_boundary_0]
  · simp only [Parameters.get_normal_and_tangent_straight_boundary_1]
    simp [hmag2]
  · simp only [Parameters.get_normal_and_tangent_straight_boundary_1]
    simp [hmag2]
    linarith
  · simp only [Parameters.get_normal_and_tangent_straight_boundary_1]
    simp [hmag2]
    linarith
  · simp only [Parameters.get_normal_and_tangent_straight_boundary_1]
    simp [hmag2]
    ring

/-- C17 (counterexample): at the corner of the sector, with the real `sqrt`,
`get_normal_and_tangent_straight_boundary_0` returns `n = (0, 1)` and
`t = (1, 0)`, so `n` is not `(t_y, -t_x) = (0, -1)`. -/
theorem straight_boundary_normal_not_rotated :
    (Parameters.get_normal_and_tangent_straight_boundary_0 Real.sqrt cornerPoint).n 1 = 1
    ∧ (Parameters.get_normal_and_tangent_straight_boundary_0 Real.sqrt cornerPoint).t 0 = 1
    ∧ ¬ ((Parameters.get_normal_and_tangent_straight_boundary_0 Real.sqrt cornerPoint).n 0
          = (Parameters.get_normal_and_tangent_straight_boundary_0 Real.sqrt cornerPoint).t 1
        ∧ (Parameters.get_normal_and_tangent_straight_boundary_0 Real.sqrt cornerPoint).n 1
          = -(Parameters.get_normal_and_tangent_straight_boundary_0 Real.sqrt
              cornerPoint).t 0) := by
  have hn : (Parameters.get_normal_and_tangent_straight_boundary_0 Real.sqrt
      (cornerPoint : Nat → ℝ)).n 1 = 1 := by
    simp [Parameters.get_normal_and_tangent_straight_boundary_0]
  have ht : (Parameters.get_normal_and_tangent_straight_boundary_0 Real.sqrt
      (cornerPoint : Nat → ℝ)).t 0 = 1 := by
    simp [Parameters.get_normal_and_tangent_straight_boundary_0]
  refine ⟨hn, ht, fun h => ?_⟩
  rw [hn, ht] at h
  norm_num at h

/-- C17 (amended): the left and right normals of
`get_jac_and_hess_of_coordinate_transform` and the normal of
`get_normal_and_tangent_circular_arc` are `(t_y, -t_x)`, whereas the normals
of the two straight-boundary functions are the opposite rotation
`(-t_y, t_x)`; this for every input and whatever `sqrt`, `pow`, `cos` and
`sin` compute. -/
theorem normal_rotation_conventions :
    (∀ (sqrt : ℚ → ℚ) (el : DuplicateNodeConstraintElement),
      (get_jac_and_hess_locals sqrt el).left_ni 0 = (get_jac_and_hess_locals sqrt el).left_ti 1
      ∧ (get_jac_and_hess_locals sqrt el).left_ni 1
          = -(get_jac_and_hess_locals sqrt el).left_ti 0
      ∧ (get_jac_and_hess_locals sqrt el).right_ni 0
          = (get_jac_and_hess_locals sqrt el).right_ti 1
      ∧ (get_jac_and_hess_locals sqrt el).right_ni 1
          = -(get_jac_and_hess_locals sqrt el).right_ti 0)
    ∧ (∀ (K : Type) [Field K] (sqrt : K → K) (pow : K → K → K) (x : Nat → K),
      (Parameters.get_normal_and_tangent_circular_arc sqrt pow x).n 0
          = (Parameters.get_normal_and_tangent_circular_arc sqrt pow x).t 1
      ∧ (Parameters.get_normal_and_tangent_circular_arc sqrt pow x).n 1
          = -(Parameters.get_normal_and_tangent_circular_arc sqrt pow x).t 0)
    ∧ (∀ (K : Type) [Field K] (sqrt : K → K) (x : Nat → K),
      (Parameters.get_normal_and_tangent_straight_boundary_0 sqrt x).n 0
          = -(Parameters.get_normal_and_tangent_straight_boundary_0 sqrt x).t 1
      ∧ (Parameters.get_normal_and_tangent_straight_boundary_0 sqrt x).n 1
          = (Parameters.get_normal_and_tangent_straight_boundary_0 sqrt x).t 0)
    ∧ (∀ (K : Type) [Field K] (sqrt cos sin : K → K) (Alpha : K) (x : Nat → K),
      (Parameters.get_normal_and_tangent_straight_boundary_1 sqrt cos sin Alpha x).n 0
          = -(Parameters.get_normal_and_tangent_straight_boundary_1 sqrt cos sin Alpha x).t 1
      ∧ (Parameters.get_normal_and_tangent_straight_boundary_1 sqrt cos sin Alpha x).n 1
          = (Parameters.get_normal_and_tangent_straight_boundary_1 sqrt cos sin Alpha x).t 0) := by
  refine ⟨fun sqrt el => ?_, fun K _ sqrt pow x => ?_, fun K _ sqrt x => ?_,
    fun K _ sqrt cos sin Alpha x => ?_⟩
  · simp [get_jac_and_hess_locals]
  · simp [Parameters.get_normal_and_tangent_circular_arc, neg_div]
  · simp [Parameters.get_normal_and_tangent_straight_boundary_0, neg_div]
  · simp [Parameters.get_normal_and_tangent_straight_boundary_1, neg_div]


/-! ## Straight boundaries on both sides of the corner -/

theorem sum2_eq (f : Nat → ℚ) : sum2 f = 0 + f 0 + f 1 := rfl

theorem left_dtids_of_straight (sqrt : ℚ → ℚ) (el : DuplicateNodeConstraintElement)
    (hl : ∀ i, i < 2 → el.Left_boundary_pt.d2position el.Left_node_coord i = 0)
    (i : Nat) (hi : i < 2) : (get_jac_and_hess_locals sqrt el).left_dtids i = 0 := by
  show el.Left_boundary_pt.d2position el.Left_node_coord i / _ ^ 2
      - (_ * el.Left_boundary_pt.d2position el.Left_node_coord 0
        + _ * el.Left_boundary_pt.d2position el.Left_node_coord 1) * _ / _ ^ 4 = 0
  rw [hl i hi, hl 0 (by norm_num), hl 1 (by norm_num)]
  simp

theorem right_dtids_of_straight (sqrt : ℚ → ℚ) (el : DuplicateNodeConstraintElement)
    (hr : ∀ i, i < 2 → el.Right_boundary_pt.d2position el.Right_node_coord i = 0)
    (i : Nat) (hi : i < 2) : (get_jac_and_hess_locals sqrt el).right_dtids i = 0 := by
  show el.Right_boundary_pt.d2position el.Right_node_coord i / _ ^ 2
      - (_ * el.Right_boundary_pt.d2position el.Right_node_coord 0
        + _ * el.Right_boundary_pt.d2position el.Right_node_coord 1) * _ / _ ^ 4 = 0
  rw [hr i hi, hr 0 (by norm_num), hr 1 (by norm_num)]
  simp

theorem left_hess_of_straight (sqrt : ℚ → ℚ) (el : DuplicateNodeConstraintElement)
    (hl : ∀ i, i < 2 → el.Left_boundary_pt.d2position el.Left_node_coord i = 0)
    (a b c : Nat) (ha : a < 2) : (get_jac_and_hess_locals sqrt el).left_hess a b c = 0 := by
  have hdn : (get_jac_and_hess_locals sqrt el).left_dnids a = 0 := by
    show (-1) ^ a * (get_jac_and_hess_locals sqrt el).left_dtids ((a + 1) % 2) = 0
    rw [left_dtids_of_straight sqrt el hl _ (Nat.mod_lt _ (by norm_num)), mul_zero]
  have hdt := left_dtids_of_straight sqrt el hl a ha
  show ((match b, c with
    | 0, 1 => (get_jac_and_hess_locals sqrt el).left_dnids a
    | 1, 0 => (get_jac_and_hess_locals sqrt el).left_dnids a
    | 1, 1 => (get_jac_and_hess_locals sqrt el).left_dtids a
    | _, _ => 0) : ℚ) = 0
  split <;> first | exact hdn | exact hdt | rfl

theorem right_hess_of_straight (sqrt : ℚ → ℚ) (el : DuplicateNodeConstraintElement)
    (hr : ∀ i, i < 2 → el.Right_boundary_pt.d2position el.Right_node_coord i = 0)
    (a b c : Nat) (ha : a < 2) : (get_jac_and_hess_locals sqrt el).right_hess a b c = 0 := by
  have hdn : (get_jac_and_hess_locals sqrt el).right_dnids a = 0 := by
    show (-1) ^ a * (get_jac_and_hess_locals sqrt el).right_dtids ((a + 1) % 2) = 0
    rw [right_dtids_of_straight sqrt el hr _ (Nat.mod_lt _ (by norm_num)), mul_zero]
  have hdt := right_dtids_of_straight sqrt el hr a ha
  show ((match b, c with
    | 0, 1 => (get_jac_and_hess_locals sqrt el).right_dnids a
    | 1, 0 => (get_jac_and_hess_locals sqrt el).right_dnids a
    | 1, 1 => (get_jac_and_hess_locals sqrt el).right_dtids a
    | _, _ => 0) : ℚ) = 0
  split <;> first | exact hdn | exact hdt | rfl

theorem left_hess_inv_of_straight (sqrt : ℚ → ℚ) (el : DuplicateNodeConstraintElement)
    (hl : ∀ i, i < 2 → el.Left_boundary_pt.d2position el.Left_node_coord i = 0)
    (a b c : Nat) : (get_jac_and_hess_locals sqrt el).left_hess_inv a b c = 0 := by
  show 0 - sum2 (fun alpha2 => sum2 (fun beta2 => sum2 (fun gamma2 =>
      (get_jac_and_hess_locals sqrt el).left_jac_inv a alpha2
        * (get_jac_and_hess_locals sqrt el).left_hess alpha2 beta2 gamma2
        * (get_jac_and_hess_locals sqrt el).left_jac_inv beta2 b
        * (get_jac_and_hess_locals sqrt el).left_jac_inv gamma2 c))) = 0
  simp only [sum2_eq, left_hess_of_straight sqrt el hl 0 _ _ (by norm_num),
    left_hess_of_straight sqrt el hl 1 _ _ (by norm_num)]
  ring

/-- With vanishing second derivatives on both sides every entry of
`hess_of_transform` vanishes. -/
theorem hess_of_transform_of_straight (sqrt : ℚ → ℚ) (el : DuplicateNodeConstraintElement)
    (hl : ∀ i, i < 2 → el.Left_boundary_pt.d2position el.Left_node_coord i = 0)
    (hr : ∀ i, i < 2 → el.Right_boundary_pt.d2position el.Right_node_coord i = 0)
    (alpha beta gamma : Nat) :
    (get_jac_and_hess_of_coordinate_transform sqrt el).2 alpha beta gamma = 0 := by
  show sum2 (fun mu =>
      (get_jac_and_hess_locals sqrt el).left_jac_inv alpha mu
          * (get_jac_and_hess_locals sqrt el).right_hess mu beta gamma
        + sum2 (fun nu => (get_jac_and_hess_locals sqrt el).left_hess_inv alpha mu nu
          * (get_jac_and_hess_locals sqrt el).right_jac mu beta
          * (get_jac_and_hess_locals sqrt el).right_jac nu gamma)) = 0
  simp only [sum2_eq, right_hess_of_straight sqrt el hr 0 _ _ (by norm_num),
    right_hess_of_straight sqrt el hr 1 _ _ (by norm_num),
    left_hess_inv_of_straight sqrt el hl]
  ring

/-- C20: when the second derivative of both boundary curves vanishes at the
corner, every entry of `hess_of_transform` is zero, whatever the two first
derivatives (so for any angle between the tangents), and the amount the
assembly adds to the equation of an unpinned curvature multiplier
`5+alpha+beta` is
`right[5+alpha+beta] - sum_{gamma,delta} left[5+gamma+delta] J[gamma,alpha] J[delta,beta]`.
The speeds need not be assumed non-zero here: a division by zero yields zero
in this embedding. -/
theorem straight_boundaries_drop_hessian (sqrt : ℚ → ℚ) (el : DuplicateNodeConstraintElement)
    (hl : ∀ i, i < 2 → el.Left_boundary_pt.d2position el.Left_node_coord i = 0)
    (hr : ∀ i, i < 2 → el.Right_boundary_pt.d2position el.Right_node_coord i = 0) :
    (∀ alpha beta gamma,
      (get_jac_and_hess_of_coordinate_transform sqrt el).2 alpha beta gamma = 0)
    ∧ (∀ (residuals : Int → ℚ), LocalEqnsAssigned el →
      ∀ alpha beta, alpha ≤ beta → beta ≤ 1 →
      el.lagrange.is_pinned (5 + alpha + beta) = false →
      fill_in_generic_residual_contribution_constraint sqrt el residuals
          (el.internal_local_eqn Index_of_lagrange_data (5 + alpha + beta))
        - residuals (el.internal_local_eqn Index_of_lagrange_data (5 + alpha + beta))
        = el.right.value (5 + alpha + beta)
          - ∑ gamma in Finset.range 2, ∑ delta in Finset.range 2,
              el.left.value (5 + gamma + delta)
                * (get_jac_and_hess_of_coordinate_transform sqrt el).1 gamma alpha
                * (get_jac_and_hess_of_coordinate_transform sqrt el).1 delta beta) := by
  have hH := hess_of_transform_of_straight sqrt el hl hr
  refine ⟨hH, fun residuals h alpha beta hab hb hu => ?_⟩
  have hn := internal_nonneg_of_unpinned h (5 + alpha + beta) (by omega) hu
  rw [fill_in_apply sqrt el residuals _ _ _ rfl rfl]
  have hcases : (alpha = 0 ∧ beta = 0) ∨ (alpha = 0 ∧ beta = 1) ∨ (alpha = 1 ∧ beta = 1) := by
    omega
  rcases hcases with ⟨rfl, rfl⟩ | ⟨rfl, rfl⟩ | ⟨rfl, rfl⟩ <;>
    simp [Index_of_lagrange_data, hit_self _ _ hn, hit_external_at_internal h _ (by norm_num) hn,
      hit_internal_at_internal h _ (by norm_num) hn, Finset.sum_range_succ,
      hH] <;> ring

/-- C20 at the free corner between the straight boundaries with velocities
`(3,4)` and `(-4,3)`: an entry of the Hessian, and the equation of the
multiplier of the mixed curvature, `(alpha, beta) = (0, 1)`. -/
theorem straight_boundaries_drop_hessian_witness :
    (∀ i, i < 2 → freeCorner.Left_boundary_pt.d2position freeCorner.Left_node_coord i = 0)
    ∧ (∀ i, i < 2 → freeCorner.Right_boundary_pt.d2position freeCorner.Right_node_coord i = 0)
    ∧ (get_jac_and_hess_of_coordinate_transform exampleSqrt freeCorner).2 1 0 1 = 0
    ∧ fill_in_generic_residual_contribution_constraint exampleSqrt freeCorner (fun _ => 0)
          (freeCorner.internal_local_eqn Index_of_lagrange_data (5 + 0 + 1))
        - (fun _ => (0 : ℚ)) (freeCorner.internal_local_eqn Index_of_lagrange_data (5 + 0 + 1))
        = freeCorner.right.value (5 + 0 + 1)
          - ∑ gamma in Finset.range 2, ∑ delta in Finset.range 2,
              freeCorner.left.value (5 + gamma + delta)
                * (get_jac_and_hess_of_coordinate_transform exampleSqrt freeCorner).1 gamma 0
                * (get_jac_and_hess_of_coordinate_transform exampleSqrt freeCorner).1 delta 1 :=
  ⟨fun _ _ => rfl, fun _ _ => rfl,
    (straight_boundaries_drop_hessian exampleSqrt freeCorner (fun _ _ => rfl)
      (fun _ _ => rfl)).1 1 0 1,
    (straight_boundaries_drop_hessian exampleSqrt freeCorner (fun _ _ => rfl)
      (fun _ _ => rfl)).2 (fun _ => 0) (exampleElement_assigned _ _ _) 0 1 (by norm_num)
      (by norm_num) rfl⟩


/-! ## Algebra of the coordinate transform -/

theorem jac_of_transform_eq (sqrt : ℚ → ℚ) (el : DuplicateNodeConstraintElement)
    (alpha beta : Nat) :
    (get_jac_and_hess_of_coordinate_transform sqrt el).1 alpha beta
      = 0 + (get_jac_and_hess_locals sqrt el).left_jac_inv alpha 0
            * (get_jac_and_hess_locals sqrt el).right_jac 0 beta
          + (get_jac_and_hess_locals sqrt el).left_jac_inv alpha 1
            * (get_jac_and_hess_locals sqrt el).right_jac 1 beta := rfl

theorem hess_of_transform_eq (sqrt : ℚ → ℚ) (el : DuplicateNodeConstraintElement)
    (alpha beta gamma : Nat) :
    (get_jac_and_hess_of_coordinate_transform sqrt el).2 alpha beta gamma
      = sum2 (fun mu =>
          (get_jac_and_hess_locals sqrt el).left_jac_inv alpha mu
              * (get_jac_and_hess_locals sqrt el).right_hess mu beta gamma
            + sum2 (fun nu => (get_jac_and_hess_locals sqrt el).left_hess_inv alpha mu nu
              * (get_jac_and_hess_locals sqrt el).right_jac mu beta
              * (get_jac_and_hess_locals sqrt el).right_jac nu gamma)) := rfl

theorem left_hess_inv_eq (sqrt : ℚ → ℚ) (el : DuplicateNodeConstraintElement)
    (a b c : Nat) :
    (get_jac_and_hess_locals sqrt el).left_hess_inv a b c
      = 0 - sum2 (fun alpha2 => sum2 (fun beta2 => sum2 (fun gamma2 =>
          (get_jac_and_hess_locals sqrt el).left_jac_inv a alpha2
            * (get_jac_and_hess_locals sqrt el).left_hess alpha2 beta2 gamma2
            * (get_jac_and_hess_locals sqrt el).left_jac_inv beta2 b
            * (get_jac_and_hess_locals sqrt el).left_jac_inv gamma2 c))) := rfl

theorem left_hess_symm (sqrt : ℚ → ℚ) (el : DuplicateNodeConstraintElement) (a b c : Nat) :
    (get_jac_and_hess_locals sqrt el).left_hess a b c
      = (get_jac_and_hess_locals sqrt el).left_hess a c b := by
  show ((match b, c with
    | 0, 1 => (get_jac_and_hess_locals sqrt el).left_dnids a
    | 1, 0 => (get_jac_and_hess_locals sqrt el).left_dnids a
    | 1, 1 => (get_jac_and_hess_locals sqrt el).left_dtids a
    | _, _ => 0) : ℚ)
    = ((match c, b with
    | 0, 1 => (get_jac_and_hess_locals sqrt el).left_dnids a
    | 1, 0 => (get_jac_and_hess_locals sqrt el).left_dnids a
    | 1, 1 => (get_jac_and_hess_locals sqrt el).left_dtids a
    | _, _ => 0) : ℚ)
  split <;> first | rfl | (split <;> simp_all)

theorem right_hess_symm (sqrt : ℚ → ℚ) (el : DuplicateNodeConstraintElement) (a b c : Nat) :
    (get_jac_and_hess_locals sqrt el).right_hess a b c
      = (get_jac_and_hess_locals sqrt el).right_hess a c b := by
  show ((match b, c with
    | 0, 1 => (get_jac_and_hess_locals sqrt el).right_dnids a
    | 1, 0 => (get_jac_and_hess_locals sqrt el).right_dnids a
    | 1, 1 => (get_jac_and_hess_locals sqrt el).right_dtids a
    | _, _ => 0) : ℚ)
    = ((match c, b with
    | 0, 1 => (get_jac_and_hess_locals sqrt el).right_dnids a
    | 1, 0 => (get_jac_and_hess_locals sqrt el).right_dnids a
    | 1, 1 => (get_jac_and_hess_locals sqrt el).right_dtids a
    | _, _ => 0) : ℚ)
  split <;> first | rfl | (split <;> simp_all)

theorem left_hess_inv_symm (sqrt : ℚ → ℚ) (el : DuplicateNodeConstraintElement)
    (a b c : Nat) :
    (get_jac_and_hess_locals sqrt el).left_hess_inv a b c
      = (get_jac_and_hess_locals sqrt el).left_hess_inv a c b := by
  rw [left_hess_inv_eq, left_hess_inv_eq]
  simp only [sum2_eq]
  rw [left_hess_symm sqrt el 0 1 0, left_hess_symm sqrt el 1 1 0]
  ring

theorem left_ni_zero (sqrt : ℚ → ℚ) (el : DuplicateNodeConstraintElement) :
    (get_jac_and_hess_locals sqrt el).left_ni 0 = (get_jac_and_hess_locals sqrt el).left_ti 1 := by
  show (-1) ^ 0 * (get_jac_and_hess_locals sqrt el).left_ti ((0 + 1) % 2) = _
  norm_num

theorem left_ni_one (sqrt : ℚ → ℚ) (el : DuplicateNodeConstraintElement) :
    (get_jac_and_hess_locals sqrt el).left_ni 1
      = -(get_jac_and_hess_locals sqrt el).left_ti 0 := by
  show (-1) ^ 1 * (get_jac_and_hess_locals sqrt el).left_ti ((1 + 1) % 2) = _
  norm_num

theorem right_ni_zero (sqrt : ℚ → ℚ) (el : DuplicateNodeConstraintElement) :
    (get_jac_and_hess_locals sqrt el).right_ni 0
      = (get_jac_and_hess_locals sqrt el).right_ti 1 := by
  show (-1) ^ 0 * (get_jac_and_hess_locals sqrt el).right_ti ((0 + 1) % 2) = _
  norm_num

theorem right_ni_one (sqrt : ℚ → ℚ) (el : DuplicateNodeConstraintElement) :
    (get_jac_and_hess_locals sqrt el).right_ni 1
      = -(get_jac_and_hess_locals sqrt el).right_ti 0 := by
  show (-1) ^ 1 * (get_jac_and_hess_locals sqrt el).right_ti ((1 + 1) % 2) = _
  norm_num

/-- A vector divided by an exact square root of its squared length has unit
length. -/
theorem unit_of_exact_sqrt (a b m : ℚ) (hm : m * m = a * a + b * b) (hab : a ≠ 0 ∨ b ≠ 0) :
    a / m * (a / m) + b / m * (b / m) = 1 := by
  have hpos : 0 < a * a + b * b := by
    rcases hab with h | h
    · exact add_pos_of_pos_of_nonneg (mul_self_pos.mpr h) (mul_self_nonneg _)
    · exact add_pos_of_nonneg_of_pos (mul_self_nonneg _) (mul_self_pos.mpr h)
  have hm0 : m ≠ 0 := by
    intro h0
    rw [h0, mul_zero] at hm
    exact hpos.ne hm
  field_simp
  linarith

theorem left_ti_unit (sqrt : ℚ → ℚ) (el : DuplicateNodeConstraintElement)
    (hl : ExactSqrtOfSpeed sqrt el.Left_boundary_pt el.Left_node_coord)
    (hdl : el.Left_boundary_pt.dposition el.Left_node_coord 0 ≠ 0
      ∨ el.Left_boundary_pt.dposition el.Left_node_coord 1 ≠ 0) :
    (get_jac_and_hess_locals sqrt el).left_ti 0 * (get_jac_and_hess_locals sqrt el).left_ti 0
      + (get_jac_and_hess_locals sqrt el).left_ti 1 * (get_jac_and_hess_locals sqrt el).left_ti 1
      = 1 :=
  unit_of_exact_sqrt _ _ _ hl hdl

theorem right_ti_unit (sqrt : ℚ → ℚ) (el : DuplicateNodeConstraintElement)
    (hr : ExactSqrtOfSpeed sqrt el.Right_boundary_pt el.Right_node_coord)
    (hdr : el.Right_boundary_pt.dposition el.Right_node_coord 0 ≠ 0
      ∨ el.Right_boundary_pt.dposition el.Right_node_coord 1 ≠ 0) :
    (get_jac_and_hess_locals sqrt el).right_ti 0 * (get_jac_and_hess_locals sqrt el).right_ti 0
      + (get_jac_and_hess_locals sqrt el).right_ti 1
        * (get_jac_and_hess_locals sqrt el).right_ti 1
      = 1 :=
  unit_of_exact_sqrt _ _ _ hr hdr

/-- The four entries of `jac_of_transform` in terms of the two tangents. -/
theorem jac_of_transform_entries (sqrt : ℚ → ℚ) (el : DuplicateNodeConstraintElement) :
    (get_jac_and_hess_of_coordinate_transform sqrt el).1 0 0
        = (get_jac_and_hess_locals sqrt el).left_ti 0 * (get_jac_and_hess_locals sqrt el).right_ti 0
          + (get_jac_and_hess_locals sqrt el).left_ti 1
            * (get_jac_and_hess_locals sqrt el).right_ti 1
    ∧ (get_jac_and_hess_of_coordinate_transform sqrt el).1 0 1
        = (get_jac_and_hess_locals sqrt el).left_ti 1 * (get_jac_and_hess_locals sqrt el).right_ti 0
          - (get_jac_and_hess_locals sqrt el).left_ti 0
            * (get_jac_and_hess_locals sqrt el).right_ti 1
    ∧ (get_jac_and_hess_of_coordinate_transform sqrt el).1 1 0
        = (get_jac_and_hess_locals sqrt el).left_ti 0 * (get_jac_and_hess_locals sqrt el).right_ti 1
          - (get_jac_and_hess_locals sqrt el).left_ti 1
            * (get_jac_and_hess_locals sqrt el).right_ti 0
    ∧ (get_jac_and_hess_of_coordinate_transform sqrt el).1 1 1
        = (get_jac_and_hess_locals sqrt el).left_ti 0 * (get_jac_and_hess_locals sqrt el).right_ti 0
          + (get_jac_and_hess_locals sqrt el).left_ti 1
            * (get_jac_and_hess_locals sqrt el).right_ti 1 := by
  have hl0 := left_ni_zero sqrt el
  have hl1 := left_ni_one sqrt el
  have hr0 := right_ni_zero sqrt el
  have hr1 := right_ni_one sqrt el
  refine ⟨?_, ?_, ?_, ?_⟩
  · show 0 + (get_jac_and_hess_locals sqrt el).left_ti 1
          * (get_jac_and_hess_locals sqrt el).right_ni 0
        + -(get_jac_and_hess_locals sqrt el).left_ti 0
          * (get_jac_and_hess_locals sqrt el).right_ni 1 = _
    rw [hr0, hr1]; ring
  · show 0 + (get_jac_and_hess_locals sqrt el).left_ti 1
          * (get_jac_and_hess_locals sqrt el).right_ti 0
        + -(get_jac_and_hess_locals sqrt el).left_ti 0
          * (get_jac_and_hess_locals sqrt el).right_ti 1 = _
    ring
  · show 0 + -(get_jac_and_hess_locals sqrt el).left_ni 1
          * (get_jac_and_hess_locals sqrt el).right_ni 0
        + (get_jac_and_hess_locals sqrt el).left_ni 0
          * (get_jac_and_hess_locals sqrt el).right_ni 1 = _
    rw [hl0, hl1, hr0, hr1]; ring
  · show 0 + -(get_jac_and_hess_locals sqrt el).left_ni 1
          * (get_jac_and_hess_locals sqrt el).right_ti 0
        + (get_jac_and_hess_locals sqrt el).left_ni 0
          * (get_jac_and_hess_locals sqrt el).right_ti 1 = _
    rw [hl0, hl1]; ring


theorem left_ti_eq (sqrt : ℚ → ℚ) (el : DuplicateNodeConstraintElement) (i : Nat) :
    (get_jac_and_hess_locals sqrt el).left_ti i
      = el.Left_boundary_pt.dposition el.Left_node_coord i
        / sqrt (el.Left_boundary_pt.dposition el.Left_node_coord 0 * el.Left_boundary_pt.dposition el.Left_node_coord 0
          + el.Left_boundary_pt.dposition el.Left_node_coord 1 * el.Left_boundary_pt.dposition el.Left_node_coord 1) := rfl

theorem left_dtids_eq (sqrt : ℚ → ℚ) (el : DuplicateNodeConstraintElement) (i : Nat) :
    (get_jac_and_hess_locals sqrt el).left_dtids i
      = el.Left_boundary_pt.d2position el.Left_node_coord i
          / sqrt (el.Left_boundary_pt.dposition el.Left_node_coord 0 * el.Left_boundary_pt.dposition el.Left_node_coord 0
          + el.Left_boundary_pt.dposition el.Left_node_coord 1 * el.Left_boundary_pt.dposition el.Left_node_coord 1) ^ 2
        - (el.Left_boundary_pt.dposition el.Left_node_coord 0 * el.Left_boundary_pt.d2position el.Left_node_coord 0
            + el.Left_boundary_pt.dposition el.Left_node_coord 1 * el.Left_boundary_pt.d2position el.Left_node_coord 1)
          * el.Left_boundary_pt.dposition el.Left_node_coord i
          / sqrt (el.Left_boundary_pt.dposition el.Left_node_coord 0 * el.Left_boundary_pt.dposition el.Left_node_coord 0
          + el.Left_boundary_pt.dposition el.Left_node_coord 1 * el.Left_boundary_pt.dposition el.Left_node_coord 1) ^ 4 := rfl

theorem right_ti_eq (sqrt : ℚ → ℚ) (el : DuplicateNodeConstraintElement) (i : Nat) :
    (get_jac_and_hess_locals sqrt el).right_ti i
      = el.Right_boundary_pt.dposition el.Right_node_coord i
        / sqrt (el.Right_boundary_pt.dposition el.Right_node_coord 0 * el.Right_boundary_pt.dposition el.Right_node_coord 0
          + el.Right_boundary_pt.dposition el.Right_node_coord 1 * el.Right_boundary_pt.dposition el.Right_node_coord 1) := rfl

theorem right_dtids_eq (sqrt : ℚ → ℚ) (el : DuplicateNodeConstraintElement) (i : Nat) :
    (get_jac_and_hess_locals sqrt el).right_dtids i
      = el.Right_boundary_pt.d2position el.Right_node_coord i
          / sqrt (el.Right_boundary_pt.dposition el.Right_node_coord 0 * el.Right_boundary_pt.dposition el.Right_node_coord 0
          + el.Right_boundary_pt.dposition el.Right_node_coord 1 * el.Right_boundary_pt.dposition el.Right_node_coord 1) ^ 2
        - (el.Right_boundary_pt.dposition el.Right_node_coord 0 * el.Right_boundary_pt.d2position el.Right_node_coord 0
            + el.Right_boundary_pt.dposition el.Right_node_coord 1 * el.Right_boundary_pt.d2position el.Right_node_coord 1)
          * el.Right_boundary_pt.dposition el.Right_node_coord i
          / sqrt (el.Right_boundary_pt.dposition el.Right_node_coord 0 * el.Right_boundary_pt.dposition el.Right_node_coord 0
          + el.Right_boundary_pt.dposition el.Right_node_coord 1 * el.Right_boundary_pt.dposition el.Right_node_coord 1) ^ 4 := rfl


theorem exampleSqrt_exact_left (lagrange left right : Data) :
    ExactSqrtOfSpeed exampleSqrt (exampleElement lagrange left right).Left_boundary_pt
      (exampleElement lagrange left right).Left_node_coord := by
  norm_num [ExactSqrtOfSpeed, exampleSqrt, exampleElement, straightBoundary]

theorem exampleSqrt_exact_right (lagrange left right : Data) :
    ExactSqrtOfSpeed exampleSqrt (exampleElement lagrange left right).Right_boundary_pt
      (exampleElement lagrange left right).Right_node_coord := by
  norm_num [ExactSqrtOfSpeed, exampleSqrt, exampleElement, straightBoundary]

/-! ## The same parametrisation on both sides -/

theorem right_ti_eq_left (sqrt : ℚ → ℚ) (el : DuplicateNodeConstraintElement)
    (hd : ∀ i, i < 2 → el.Left_boundary_pt.dposition el.Left_node_coord i
      = el.Right_boundary_pt.dposition el.Right_node_coord i)
    (i : Nat) (hi : i < 2) : (get_jac_and_hess_locals sqrt el).right_ti i = (get_jac_and_hess_locals sqrt el).left_ti i := by
  show el.Right_boundary_pt.dposition el.Right_node_coord i
      / sqrt (el.Right_boundary_pt.dposition el.Right_node_coord 0
          * el.Right_boundary_pt.dposition el.Right_node_coord 0
        + el.Right_boundary_pt.dposition el.Right_node_coord 1
          * el.Right_boundary_pt.dposition el.Right_node_coord 1)
    = el.Left_boundary_pt.dposition el.Left_node_coord i
      / sqrt (el.Left_boundary_pt.dposition el.Left_node_coord 0
          * el.Left_boundary_pt.dposition el.Left_node_coord 0
        + el.Left_boundary_pt.dposition el.Left_node_coord 1
          * el.Left_boundary_pt.dposition el.Left_node_coord 1)
  rw [hd i hi, hd 0 (by norm_num), hd 1 (by norm_num)]

theorem right_dtids_eq_left (sqrt : ℚ → ℚ) (el : DuplicateNodeConstraintElement)
    (hd : ∀ i, i < 2 → el.Left_boundary_pt.dposition el.Left_node_coord i
      = el.Right_boundary_pt.dposition el.Right_node_coord i)
    (hd2 : ∀ i, i < 2 → el.Left_boundary_pt.d2position el.Left_node_coord i
      = el.Right_boundary_pt.d2position el.Right_node_coord i)
    (i : Nat) (hi : i < 2) : (get_jac_and_hess_locals sqrt el).right_dtids i = (get_jac_and_hess_locals sqrt el).left_dtids i := by
  show el.Right_boundary_pt.d2position el.Right_node_coord i
        / sqrt (el.Right_boundary_pt.dposition el.Right_node_coord 0
            * el.Right_boundary_pt.dposition el.Right_node_coord 0
          + el.Right_boundary_pt.dposition el.Right_node_coord 1
            * el.Right_boundary_pt.dposition el.Right_node_coord 1) ^ 2
      - (el.Right_boundary_pt.dposition el.Right_node_coord 0
            * el.Right_boundary_pt.d2position el.Right_node_coord 0
          + el.Right_boundary_pt.dposition el.Right_node_coord 1
            * el.Right_boundary_pt.d2position el.Right_node_coord 1)
        * el.Right_boundary_pt.dposition el.Right_node_coord i
        / sqrt (el.Right_boundary_pt.dposition el.Right_node_coord 0
            * el.Right_boundary_pt.dposition el.Right_node_coord 0
          + el.Right_boundary_pt.dposition el.Right_node_coord 1
            * el.Right_boundary_pt.dposition el.Right_node_coord 1) ^ 4
    = el.Left_boundary_pt.d2position el.Left_node_coord i
        / sqrt (el.Left_boundary_pt.dposition el.Left_node_coord 0
            * el.Left_boundary_pt.dposition el.Left_node_coord 0
          + el.Left_boundary_pt.dposition el.Left_node_coord 1
            * el.Left_boundary_pt.dposition el.Left_node_coord 1) ^ 2
      - (el.Left_boundary_pt.dposition el.Left_node_coord 0
            * el.Left_boundary_pt.d2position el.Left_node_coord 0
          + el.Left_boundary_pt.dposition el.Left_node_coord 1
            * el.Left_boundary_pt.d2position el.Left_node_coord 1)
        * el.Left_boundary_pt.dposition el.Left_node_coord i
        / sqrt (el.Left_boundary_pt.dposition el.Left_node_coord 0
            * el.Left_boundary_pt.dposition el.Left_node_coord 0
          + el.Left_boundary_pt.dposition el.Left_node_coord 1
            * el.Left_boundary_pt.dposition el.Left_node_coord 1) ^ 4
  rw [hd i hi, hd 0 (by norm_num), hd 1 (by norm_num), hd2 i hi, hd2 0 (by norm_num),
    hd2 1 (by norm_num)]

theorem right_jac_eq_left (sqrt : ℚ → ℚ) (el : DuplicateNodeConstraintElement)
    (hd : ∀ i, i < 2 → el.Left_boundary_pt.dposition el.Left_node_coord i
      = el.Right_boundary_pt.dposition el.Right_node_coord i)
    (a c : Nat) (ha : a < 2) : (get_jac_and_hess_locals sqrt el).right_jac a c = (get_jac_and_hess_locals sqrt el).left_jac a c := by
  have hti := right_ti_eq_left sqrt el hd
  have hni : (get_jac_and_hess_locals sqrt el).right_ni a = (get_jac_and_hess_locals sqrt el).left_ni a := by
    show (-1) ^ a * (get_jac_and_hess_locals sqrt el).right_ti ((a + 1) % 2) = (-1) ^ a * (get_jac_and_hess_locals sqrt el).left_ti ((a + 1) % 2)
    rw [hti _ (Nat.mod_lt _ (by norm_num))]
  show ((match c with
    | 0 => (get_jac_and_hess_locals sqrt el).right_ni a
    | 1 => (get_jac_and_hess_locals sqrt el).right_ti a
    | _ => 0) : ℚ)
    = ((match c with
    | 0 => (get_jac_and_hess_locals sqrt el).left_ni a
    | 1 => (get_jac_and_hess_locals sqrt el).left_ti a
    | _ => 0) : ℚ)
  rw [hni, hti a ha]

theorem right_hess_eq_left (sqrt : ℚ → ℚ) (el : DuplicateNodeConstraintElement)
    (hd : ∀ i, i < 2 → el.Left_boundary_pt.dposition el.Left_node_coord i
      = el.Right_boundary_pt.dposition el.Right_node_coord i)
    (hd2 : ∀ i, i < 2 → el.Left_boundary_pt.d2position el.Left_node_coord i
      = el.Right_boundary_pt.d2position el.Right_node_coord i)
    (a b c : Nat) (ha : a < 2) : (get_jac_and_hess_locals sqrt el).right_hess a b c = (get_jac_and_hess_locals sqrt el).left_hess a b c := by
  have hdt := right_dtids_eq_left sqrt el hd hd2
  have hdn : (get_jac_and_hess_locals sqrt el).right_dnids a = (get_jac_and_hess_locals sqrt el).left_dnids a := by
    show (-1) ^ a * (get_jac_and_hess_locals sqrt el).right_dtids ((a + 1) % 2) = (-1) ^ a * (get_jac_and_hess_locals sqrt el).left_dtids ((a + 1) % 2)
    rw [hdt _ (Nat.mod_lt _ (by norm_num))]
  show ((match b, c with
    | 0, 1 => (get_jac_and_hess_locals sqrt el).right_dnids a
    | 1, 0 => (get_jac_and_hess_locals sqrt el).right_dnids a
    | 1, 1 => (get_jac_and_hess_locals sqrt el).right_dtids a
    | _, _ => 0) : ℚ)
    = ((match b, c with
    | 0, 1 => (get_jac_and_hess_locals sqrt el).left_dnids a
    | 1, 0 => (get_jac_and_hess_locals sqrt el).left_dnids a
    | 1, 1 => (get_jac_and_hess_locals sqrt el).left_dtids a
    | _, _ => 0) : ℚ)
  rw [hdn, hdt a ha]

/-- With the same first and second derivative on both sides, an exact `sqrt`
and a non-zero first derivative, the Jacobian of the transform is the
identity and its Hessian vanishes. -/
theorem transform_of_same_parametrisation (sqrt : ℚ → ℚ) (el : DuplicateNodeConstraintElement)
    (hd : ∀ i, i < 2 → el.Left_boundary_pt.dposition el.Left_node_coord i
      = el.Right_boundary_pt.dposition el.Right_node_coord i)
    (hd2 : ∀ i, i < 2 → el.Left_boundary_pt.d2position el.Left_node_coord i
      = el.Right_boundary_pt.d2position el.Right_node_coord i)
    (hs : ExactSqrtOfSpeed sqrt el.Left_boundary_pt el.Left_node_coord)
    (hn : el.Left_boundary_pt.dposition el.Left_node_coord 0 ≠ 0
      ∨ el.Left_boundary_pt.dposition el.Left_node_coord 1 ≠ 0) :
    (∀ a b, a < 2 → b < 2 →
      (get_jac_and_hess_of_coordinate_transform sqrt el).1 a b = if a = b then 1 else 0)
    ∧ (∀ a b c, a < 2 → b < 2 → c < 2 →
      (get_jac_and_hess_of_coordinate_transform sqrt el).2 a b c = 0) := by
  have hlu := left_ti_unit sqrt el hs hn
  have hl0 := left_ni_zero sqrt el
  have hl1 := left_ni_one sqrt el
  have hrj := right_jac_eq_left sqrt el hd
  have hrh := right_hess_eq_left sqrt el hd hd2
  have i00 : (get_jac_and_hess_locals sqrt el).left_jac_inv 0 0 = (get_jac_and_hess_locals sqrt el).left_ti 1 := rfl
  have i01 : (get_jac_and_hess_locals sqrt el).left_jac_inv 0 1 = -(get_jac_and_hess_locals sqrt el).left_ti 0 := rfl
  have i10 : (get_jac_and_hess_locals sqrt el).left_jac_inv 1 0 = -(get_jac_and_hess_locals sqrt el).left_ni 1 := rfl
  have i11 : (get_jac_and_hess_locals sqrt el).left_jac_inv 1 1 = (get_jac_and_hess_locals sqrt el).left_ni 0 := rfl
  have j00 : (get_jac_and_hess_locals sqrt el).left_jac 0 0 = (get_jac_and_hess_locals sqrt el).left_ni 0 := rfl
  have j01 : (get_jac_and_hess_locals sqrt el).left_jac 0 1 = (get_jac_and_hess_locals sqrt el).left_ti 0 := rfl
  have j10 : (get_jac_and_hess_locals sqrt el).left_jac 1 0 = (get_jac_and_hess_locals sqrt el).left_ni 1 := rfl
  have j11 : (get_jac_and_hess_locals sqrt el).left_jac 1 1 = (get_jac_and_hess_locals sqrt el).left_ti 1 := rfl
  constructor
  · intro a b ha hb
    rw [jac_of_transform_eq, hrj 0 b (by norm_num), hrj 1 b (by norm_num)]
    interval_cases a <;> interval_cases b <;>
      simp only [i00, i01, i10, i11, j00, j01, j10, j11, hl0, hl1] <;>
      first
        | (norm_num; done)
        | (norm_num; linarith)
  · intro a b c ha hb hc
    rw [hess_of_transform_eq]
    simp only [sum2_eq, left_hess_inv_eq, hrh 0 _ _ (by norm_num), hrh 1 _ _ (by norm_num),
      hrj 0 _ (by norm_num), hrj 1 _ (by norm_num)]
    interval_cases a <;> interval_cases b <;> interval_cases c <;>
      simp only [i00, i01, i10, i11, j00, j01, j10, j11, hl0, hl1]
    · linear_combination
        (-((get_jac_and_hess_locals sqrt el).left_ti 0 * (get_jac_and_hess_locals sqrt el).left_ti 0
            + (get_jac_and_hess_locals sqrt el).left_ti 1 * (get_jac_and_hess_locals sqrt el).left_ti 1 + 1)
          * ((get_jac_and_hess_locals sqrt el).left_ti 1 * (get_jac_and_hess_locals sqrt el).left_hess 0 0 0
          - (get_jac_and_hess_locals sqrt el).left_ti 0 * (get_jac_and_hess_locals sqrt el).left_hess 1 0 0)) * hlu
    · linear_combination
        (-((get_jac_and_hess_locals sqrt el).left_ti 0 * (get_jac_and_hess_locals sqrt el).left_ti 0
            + (get_jac_and_hess_locals sqrt el).left_ti 1 * (get_jac_and_hess_locals sqrt el).left_ti 1 + 1)
          * ((get_jac_and_hess_locals sqrt el).left_ti 1 * (get_jac_and_hess_locals sqrt el).left_hess 0 0 1
          - (get_jac_and_hess_locals sqrt el).left_ti 0 * (get_jac_and_hess_locals sqrt el).left_hess 1 0 1)) * hlu
    · linear_combination
        (-((get_jac_and_hess_locals sqrt el).left_ti 0 * (get_jac_and_hess_locals sqrt el).left_ti 0
            + (get_jac_and_hess_locals sqrt el).left_ti 1 * (get_jac_and_hess_locals sqrt el).left_ti 1 + 1)
          * ((get_jac_and_hess_locals sqrt el).left_ti 1 * (get_jac_and_hess_locals sqrt el).left_hess 0 1 0
          - (get_jac_and_hess_locals sqrt el).left_ti 0 * (get_jac_and_hess_locals sqrt el).left_hess 1 1 0)) * hlu
    · linear_combination
        (-((get_jac_and_hess_locals sqrt el).left_ti 0 * (get_jac_and_hess_locals sqrt el).left_ti 0
            + (get_jac_and_hess_locals sqrt el).left_ti 1 * (get_jac_and_hess_locals sqrt el).left_ti 1 + 1)
          * ((get_jac_and_hess_locals sqrt el).left_ti 1 * (get_jac_and_hess_locals sqrt el).left_hess 0 1 1
          - (get_jac_and_hess_locals sqrt el).left_ti 0 * (get_jac_and_hess_locals sqrt el).left_hess 1 1 1)) * hlu
    · linear_combination
        (-((get_jac_and_hess_locals sqrt el).left_ti 0 * (get_jac_and_hess_locals sqrt el).left_ti 0
            + (get_jac_and_hess_locals sqrt el).left_ti 1 * (get_jac_and_hess_locals sqrt el).left_ti 1 + 1)
          * ((get_jac_and_hess_locals sqrt el).left_ti 0 * (get_jac_and_hess_locals sqrt el).left_hess 0 0 0
          + (get_jac_and_hess_locals sqrt el).left_ti 1 * (get_jac_and_hess_locals sqrt el).left_hess 1 0 0)) * hlu
    · linear_combination
        (-((get_jac_and_hess_locals sqrt el).left_ti 0 * (get_jac_and_hess_locals sqrt el).left_ti 0
            + (get_jac_and_hess_locals sqrt el).left_ti 1 * (get_jac_and_hess_locals sqrt el).left_ti 1 + 1)
          * ((get_jac_and_hess_locals sqrt el).left_ti 0 * (get_jac_and_hess_locals sqrt el).left_hess 0 0 1
          + (get_jac_and_hess_locals sqrt el).left_ti 1 * (get_jac_and_hess_locals sqrt el).left_hess 1 0 1)) * hlu
    · linear_combination
        (-((get_jac_and_hess_locals sqrt el).left_ti 0 * (get_jac_and_hess_locals sqrt el).left_ti 0
            + (get_jac_and_hess_locals sqrt el).left_ti 1 * (get_jac_and_hess_locals sqrt el).left_ti 1 + 1)
          * ((get_jac_and_hess_locals sqrt el).left_ti 0 * (get_jac_and_hess_locals sqrt el).left_hess 0 1 0
          + (get_jac_and_hess_locals sqrt el).left_ti 1 * (get_jac_and_hess_locals sqrt el).left_hess 1 1 0)) * hlu
    · linear_combination
        (-((get_jac_and_hess_locals sqrt el).left_ti 0 * (get_jac_and_hess_locals sqrt el).left_ti 0
            + (get_jac_and_hess_locals sqrt el).left_ti 1 * (get_jac_and_hess_locals sqrt el).left_ti 1 + 1)
          * ((get_jac_and_hess_locals sqrt el).left_ti 0 * (get_jac_and_hess_locals sqrt el).left_hess 0 1 1
          + (get_jac_and_hess_locals sqrt el).left_ti 1 * (get_jac_and_hess_locals sqrt el).left_hess 1 1 1)) * hlu


/-! ## Assembly and validation compared -/

/-- The amount the assembly adds to the equation of an unpinned multiplier
`k` is the residual of constraint `k` as the specification writes it. -/
theorem assembly_amount_eq_spec (sqrt : ℚ → ℚ) (el : DuplicateNodeConstraintElement)
    (residuals : Int → ℚ) (h : LocalEqnsAssigned el) (k : Nat) (hk : k < 8)
    (hu : el.lagrange.is_pinned k = false) :
    fill_in_generic_residual_contribution_constraint sqrt el residuals
        (el.internal_local_eqn Index_of_lagrange_data k)
      - residuals (el.internal_local_eqn Index_of_lagrange_data k)
      = constraint_residual_spec (get_jac_and_hess_of_coordinate_transform sqrt el).1
          (get_jac_and_hess_of_coordinate_transform sqrt el).2 el.left.value el.right.value k := by
  have hn := internal_nonneg_of_unpinned h k hk hu
  rw [fill_in_apply sqrt el residuals _ _ _ rfl rfl]
  interval_cases k <;>
    simp [constraint_residual_spec, Index_of_lagrange_data, hit_self _ _ hn,
      hit_external_at_internal h _ (by norm_num) hn,
      hit_internal_at_internal h _ (by norm_num) hn, Finset.sum_range_succ] <;> ring

/-- With the identity for `J` and zero for `H` each constraint is
`right[k] - left[k]`. -/
theorem constraint_residual_spec_of_identity (J : Nat → Nat → ℚ) (H : Nat → Nat → Nat → ℚ)
    (hJ : ∀ a b, a < 2 → b < 2 → J a b = if a = b then 1 else 0)
    (hH : ∀ a b c, a < 2 → b < 2 → c < 2 → H a b c = 0)
    (left right : Nat → ℚ) (k : Nat) (hk : k < 8) :
    constraint_residual_spec J H left right k = right k - left k := by
  have J00 := hJ 0 0 (by norm_num) (by norm_num)
  have J01 := hJ 0 1 (by norm_num) (by norm_num)
  have J10 := hJ 1 0 (by norm_num) (by norm_num)
  have J11 := hJ 1 1 (by norm_num) (by norm_num)
  norm_num at J00 J01 J10 J11
  interval_cases k <;>
    simp [constraint_residual_spec, Finset.sum_range_succ, J00, J01, J10, J11,
      hH 0 0 0 (by norm_num) (by norm_num) (by norm_num),
      hH 1 0 0 (by norm_num) (by norm_num) (by norm_num),
      hH 0 0 1 (by norm_num) (by norm_num) (by norm_num),
      hH 1 0 1 (by norm_num) (by norm_num) (by norm_num),
      hH 0 1 1 (by norm_num) (by norm_num) (by norm_num),
      hH 1 1 1 (by norm_num) (by norm_num) (by norm_num)]

theorem smoothCorner_assigned (lagrange left right : Data) :
    LocalEqnsAssigned (smoothCorner lagrange left right) :=
  ⟨(exampleElement_assigned lagrange left right).internal_pinned,
    (exampleElement_assigned lagrange left right).left_pinned,
    (exampleElement_assigned lagrange left right).right_pinned,
    (exampleElement_assigned lagrange left right).internal_inj,
    (exampleElement_assigned lagrange left right).internal_ne_external,
    (exampleElement_assigned lagrange left right).external_inj⟩

theorem smoothCorner_exact (lagrange left right : Data) :
    ExactSqrtOfSpeed exampleSqrt (smoothCorner lagrange left right).Left_boundary_pt
      (smoothCorner lagrange left right).Left_node_coord := by
  norm_num [ExactSqrtOfSpeed, exampleSqrt, smoothCorner, exampleElement, parabolaBoundary]

/-! ## A corner at which validation and assembly disagree -/

theorem falseTearCorner_ti :
    (get_jac_and_hess_locals exampleSqrt falseTearCorner).left_ti 0 = 3 / 5
    ∧ (get_jac_and_hess_locals exampleSqrt falseTearCorner).left_ti 1 = 4 / 5
    ∧ (get_jac_and_hess_locals exampleSqrt falseTearCorner).right_ti 0 = -4 / 5
    ∧ (get_jac_and_hess_locals exampleSqrt falseTearCorner).right_ti 1 = 3 / 5
    ∧ (get_jac_and_hess_locals exampleSqrt falseTearCorner).right_dtids 0 = 12 / 25
    ∧ (get_jac_and_hess_locals exampleSqrt falseTearCorner).right_dtids 1 = 16 / 25 := by
  refine ⟨?_, ?_, ?_, ?_, ?_, ?_⟩ <;>
    simp only [left_ti_eq, right_ti_eq, right_dtids_eq, falseTearCorner, exampleElement,
      straightBoundary, parabolaBoundary] <;>
    norm_num [exampleSqrt]

theorem falseTearCorner_jac :
    (get_jac_and_hess_of_coordinate_transform exampleSqrt falseTearCorner).1 0 0 = 0
    ∧ (get_jac_and_hess_of_coordinate_transform exampleSqrt falseTearCorner).1 0 1 = -1
    ∧ (get_jac_and_hess_of_coordinate_transform exampleSqrt falseTearCorner).1 1 0 = 1
    ∧ (get_jac_and_hess_of_coordinate_transform exampleSqrt falseTearCorner).1 1 1 = 0 := by
  obtain ⟨l0, l1, r0, r1, _, _⟩ := falseTearCorner_ti
  obtain ⟨e00, e01, e10, e11⟩ := jac_of_transform_entries exampleSqrt falseTearCorner
  rw [e00, e01, e10, e11, l0, l1, r0, r1]
  norm_num

theorem falseTearCorner_hess :
    (get_jac_and_hess_of_coordinate_transform exampleSqrt falseTearCorner).2 0 0 0 = 0
    ∧ (get_jac_and_hess_of_coordinate_transform exampleSqrt falseTearCorner).2 0 0 1 = 4 / 5
    ∧ (get_jac_and_hess_of_coordinate_transform exampleSqrt falseTearCorner).2 0 1 0 = 4 / 5
    ∧ (get_jac_and_hess_of_coordinate_transform exampleSqrt falseTearCorner).2 0 1 1 = 0
    ∧ (get_jac_and_hess_of_coordinate_transform exampleSqrt falseTearCorner).2 1 0 0 = 0
    ∧ (get_jac_and_hess_of_coordinate_transform exampleSqrt falseTearCorner).2 1 0 1 = 0
    ∧ (get_jac_and_hess_of_coordinate_transform exampleSqrt falseTearCorner).2 1 1 0 = 0
    ∧ (get_jac_and_hess_of_coordinate_transform exampleSqrt falseTearCorner).2 1 1 1 = 4 / 5 := by
  obtain ⟨l0, l1, r0, r1, d0, d1⟩ := falseTearCorner_ti
  have hl : ∀ i, i < 2 →
      falseTearCorner.Left_boundary_pt.d2position falseTearCorner.Left_node_coord i = 0 :=
    fun _ _ => rfl
  have hlhi := left_hess_inv_of_straight exampleSqrt falseTearCorner hl
  have hl0 := left_ni_zero exampleSqrt falseTearCorner
  have hl1 := left_ni_one exampleSqrt falseTearCorner
  have i00 : (get_jac_and_hess_locals exampleSqrt falseTearCorner).left_jac_inv 0 0
      = (get_jac_and_hess_locals exampleSqrt falseTearCorner).left_ti 1 := rfl
  have i01 : (get_jac_and_hess_locals exampleSqrt falseTearCorner).left_jac_inv 0 1
      = -(get_jac_and_hess_locals exampleSqrt falseTearCorner).left_ti 0 := rfl
  have i10 : (get_jac_and_hess_locals exampleSqrt falseTearCorner).left_jac_inv 1 0
      = -(get_jac_and_hess_locals exampleSqrt falseTearCorner).left_ni 1 := rfl
  have i11 : (get_jac_and_hess_locals exampleSqrt falseTearCorner).left_jac_inv 1 1
      = (get_jac_and_hess_locals exampleSqrt falseTearCorner).left_ni 0 := rfl
  have h00 : ∀ a, (get_jac_and_hess_locals exampleSqrt falseTearCorner).right_hess a 0 0 = 0 :=
    fun _ => rfl
  have h01 : ∀ a, (get_jac_and_hess_locals exampleSqrt falseTearCorner).right_hess a 0 1
      = (-1) ^ a * (get_jac_and_hess_locals exampleSqrt falseTearCorner).right_dtids
        ((a + 1) % 2) := fun _ => rfl
  have h10 : ∀ a, (get_jac_and_hess_locals exampleSqrt falseTearCorner).right_hess a 1 0
      = (-1) ^ a * (get_jac_and_hess_locals exampleSqrt falseTearCorner).right_dtids
        ((a + 1) % 2) := fun _ => rfl
  have h11 : ∀ a, (get_jac_and_hess_locals exampleSqrt falseTearCorner).right_hess a 1 1
      = (get_jac_and_hess_locals exampleSqrt falseTearCorner).right_dtids a := fun _ => rfl
  refine ⟨?_, ?_, ?_, ?_, ?_, ?_, ?_, ?_⟩ <;>
    rw [hess_of_transform_eq] <;>
    simp only [sum2_eq, hlhi, i00, i01, i10, i11, hl0, hl1, h00, h01, h10, h11, l0, l1, d0, d1] <;>
    norm_num


theorem transform_of_validation_entry (sqrt : ℚ → ℚ) (el : DuplicateNodeConstraintElement) :
    get_jac_and_hess_of_coordinate_transform sqrt (validation_entry el).element
      = get_jac_and_hess_of_coordinate_transform sqrt el := rfl

theorem falseTearCorner_assigned : LocalEqnsAssigned falseTearCorner :=
  have h := exampleElement_assigned (freeData (fun _ => 0))
    (pinnedData (fun k => if k = 4 then -5 else 0))
    (pinnedData (fun k => if k = 3 then -5 else if k = 7 then -4 else 0))
  ⟨h.internal_pinned, h.left_pinned, h.right_pinned, h.internal_inj, h.internal_ne_external,
    h.external_inj⟩

/-- C24 (evaluation at the failing input): at a corner whose pinned values
satisfy all eight constraints as the assembly writes them (the assembly adds
0 to every multiplier equation), the validation computes the residual 4 for
the curvature constraint 5 and throws, because it reads
`hess_of_transform[alpha](beta,gamma)` where the assembly reads
`hess_of_transform[gamma](alpha,beta)`. -/
theorem validation_residual_differs_from_assembly :
    (∀ k, k < 8 → falseTearCorner.left.is_pinned k = true
      ∧ falseTearCorner.right.is_pinned k = true)
    ∧ (∀ k, k < 8 →
      fill_in_generic_residual_contribution_constraint exampleSqrt falseTearCorner (fun _ => 0)
        (falseTearCorner.internal_local_eqn Index_of_lagrange_data k) = 0)
    ∧ (validate_and_pin_redundant_constraints exampleSqrt falseTearCorner).error.map
        OomphLibError.i = some 5
    ∧ (validate_and_pin_redundant_constraints exampleSqrt falseTearCorner).error.map
        OomphLibError.res = some 4 := by
  obtain ⟨J00, J01, J10, J11⟩ := falseTearCorner_jac
  obtain ⟨H000, H001, H010, H011, H100, H101, H110, H111⟩ := falseTearCorner_hess
  have h4 : Constraint_tolerance < 4 := by unfold Constraint_tolerance; norm_num
  have h45 : (5 : ℚ) * (4 / 5) = 4 := by norm_num
  have htol := not_lt.mpr (le_of_lt Constraint_tolerance_pos)
  refine ⟨fun _ _ => ⟨rfl, rfl⟩, fun k hk => ?_, ?_, ?_⟩
  · have h := assembly_amount_eq_spec exampleSqrt falseTearCorner (fun _ => 0)
      falseTearCorner_assigned k hk rfl
    rw [sub_zero] at h
    rw [h]
    generalize get_jac_and_hess_of_coordinate_transform exampleSqrt falseTearCorner = jh
      at J00 J01 J10 J11 H000 H001 H010 H011 H100 H101 H110 H111 ⊢
    interval_cases k <;>
      simp [constraint_residual_spec, Finset.sum_range_succ, falseTearCorner, exampleElement,
        pinnedData, J00, J01, J10, J11, H000, H001, H010, H011, H100, H101, H110, H111]
    norm_num
  all_goals
    unfold validate_and_pin_redundant_constraints validate_run
    simp only [transform_of_validation_entry]
    generalize get_jac_and_hess_of_coordinate_transform exampleSqrt falseTearCorner = jh
      at J00 J01 J10 J11 H000 H001 H010 H011 H100 H101 H110 H111 ⊢
    simp [forLoopThrowing_zero_three,
      forLoopThrowing_zero_two, forLoopThrowing_one_two, validate_value_constraint,
      validate_gradient_constraint, validate_curvature_constraint, check_and_pin,
      falseTearCorner, exampleElement, pinnedData, freeData, Data.is_pinned,
      Data.pin, ValidationState.pin_multiplier, validation_entry, Data.unpin_all,
      ValidationState.use_right, ValidationState.use_left,
      Outcome.andThen, Outcome.error, forLoop_zero_two, throw_unsatisfiable_constraint_error,
      htol, h45, h4, J00, J01, J10, J11, H000, H001, H010, H011, H100, H101, H110, H111]

/-- C26 (evaluation at the failing input): with only the right node's dof 4
unpinned, one dof is free among the sixteen, yet the validation returns with
the two multipliers 4 and 5 unpinned: constraint 5 marks the left dof 4 as
used although it is pinned in the left node. -/
theorem more_free_multipliers_than_free_dofs (sqrt : ℚ → ℚ) :
    rightDof4FreeCorner.left.count_unpinned + rightDof4FreeCorner.right.count_unpinned = 1
    ∧ (validate_and_pin_redundant_constraints sqrt rightDof4FreeCorner).isReturned = true
    ∧ (validate_and_pin_redundant_constraints sqrt rightDof4FreeCorner).state.lagrange.count_unpinned
        = 2
    ∧ rightDof4FreeCorner.left.is_pinned 4 = true
    ∧ (validate_run sqrt rightDof4FreeCorner).state.left_data_used 4 = true := by
  have hr : List.range 8 = [0, 1, 2, 3, 4, 5, 6, 7] := rfl
  have htol := not_lt.mpr (le_of_lt Constraint_tolerance_pos)
  refine ⟨?_, ?_, ?_, rfl, ?_⟩
  · simp [Data.count_unpinned, hr, rightDof4FreeCorner, exampleElement, pinnedData,
      pinnedExcept, Data.is_pinned]
  all_goals
    simp [Data.count_unpinned, hr, rightDof4FreeCorner, htol, validate_and_pin_redundant_constraints, validate_run, forLoopThrowing_zero_three,
      forLoopThrowing_zero_two, forLoopThrowing_one_two, validate_value_constraint,
      validate_gradient_constraint, validate_curvature_constraint, check_and_pin,
      exampleElement, pinnedData, pinnedExcept, freeData, Data.is_pinned,
      Data.pin, ValidationState.pin_multiplier, validation_entry, Data.unpin_all,
      ValidationState.use_right, ValidationState.use_left,
      Outcome.andThen, Outcome.isReturned, Outcome.state, Outcome.error, forLoop_zero_two,
      throw_unsatisfiable_constraint_error, Function.update_apply]

/-- C30: in every run of `validate_and_pin_redundant_constraints`, whether it
returns or throws, the data of the left and of the right node (values and pin
flags) are what they were, as are the two curves, the boundary coordinates,
the local equation numbers and the multiplier values: only the pin flags of
the multipliers can differ. -/
theorem validation_changes_only_multiplier_pins (sqrt : ℚ → ℚ)
    (el : DuplicateNodeConstraintElement) :
    (validate_and_pin_redundant_constraints sqrt el).state.left = el.left
    ∧ (validate_and_pin_redundant_constraints sqrt el).state.right = el.right
    ∧ (∀ k, (validate_and_pin_redundant_constraints sqrt el).state.left.value k = el.left.value k
        ∧ (validate_and_pin_redundant_constraints sqrt el).state.left.is_pinned k
          = el.left.is_pinned k
        ∧ (validate_and_pin_redundant_constraints sqrt el).state.right.value k
          = el.right.value k
        ∧ (validate_and_pin_redundant_constraints sqrt el).state.right.is_pinned k
          = el.right.is_pinned k)
    ∧ (validate_and_pin_redundant_constraints sqrt el).state
        = { el with lagrange :=
            { el.lagrange with pinned :=
              (validate_and_pin_redundant_constraints sqrt el).state.lagrange.pinned } } := by
  have h := validate_state_nodes sqrt el
  have hleft : (validate_and_pin_redundant_constraints sqrt el).state.left = el.left :=
    (congrArg DuplicateNodeConstraintElement.left h).trans rfl
  have hright : (validate_and_pin_redundant_constraints sqrt el).state.right = el.right :=
    (congrArg DuplicateNodeConstraintElement.right h).trans rfl
  have hval : (validate_and_pin_redundant_constraints sqrt el).state.lagrange.value
      = el.lagrange.value := by
    obtain ⟨o, hsat, hstate, _, _⟩ := validate_sat sqrt el
    rw [hstate]
    cases o with
    | returned st => exact hsat.value_eq
    | threw e st => exact (show ValidationThrow el _ e st from hsat).inv.value_eq
  refine ⟨hleft, hright, fun k => ?_, ?_⟩
  · rw [hleft, hright]
    exact ⟨rfl, rfl, rfl, rfl⟩
  · have hl : (validate_and_pin_redundant_constraints sqrt el).state.lagrange
        = { el.lagrange with pinned :=
            (validate_and_pin_redundant_constraints sqrt el).state.lagrange.pinned } := by
      cases hd : (validate_and_pin_redundant_constraints sqrt el).state.lagrange with
      | mk value pinned =>
        rw [hd] at hval
        simp only at hval
        subst hval
        rfl
    rw [← hl]
    exact h


/-! ## The arguments of the upgrade call -/

theorem Run.eq_returned_of_error_none {ε σ : Type} (o : Run ε σ) (h : o.error = none) :
    o = Run.returned o.state := by
  cases o with
  | returned s => rfl
  | threw e s => cases h

/-- Whatever the loop does, the entry of an element with exactly one node
`i` off the boundary is either what it was or the element upgraded with the
edge `i` and the parameters of the nodes `(i+1) mod 3` and `(i+2) mod 3`; when
the loop returns, the entry of every element in range is the upgraded one. -/
theorem upgrade_loop_arguments (parametric_curve_pt : CurvilineGeomObject)
    (bound boundary_order ibound : Nat) (mesh : Mesh) (n e i : Nat)
    (hone : ExactlyOneOffBoundary bound (mesh.boundary_element_pt ibound e) i) :
    ((forLoopRun 0 n (upgrade_step parametric_curve_pt bound boundary_order ibound)
          mesh).state.boundary_element_pt ibound e = mesh.boundary_element_pt ibound e
      ∨ (forLoopRun 0 n (upgrade_step parametric_curve_pt bound boundary_order ibound)
          mesh).state.boundary_element_pt ibound e
        = (mesh.boundary_element_pt ibound e).upgrade_element_to_curved i
            (parametric_curve_pt.get_zeta
              ((mesh.boundary_element_pt ibound e).node_pt ((i + 1) % 3)).x)
            (parametric_curve_pt.get_zeta
              ((mesh.boundary_element_pt ibound e).node_pt ((i + 2) % 3)).x)
            parametric_curve_pt boundary_order)
    ∧ (∀ m, forLoopRun 0 n (upgrade_step parametric_curve_pt bound boundary_order ibound) mesh
          = Run.returned m → e < n →
        m.boundary_element_pt ibound e
          = (mesh.boundary_element_pt ibound e).upgrade_element_to_curved i
              (parametric_curve_pt.get_zeta
                ((mesh.boundary_element_pt ibound e).node_pt ((i + 1) % 3)).x)
              (parametric_curve_pt.get_zeta
                ((mesh.boundary_element_pt ibound e).node_pt ((i + 2) % 3)).x)
              parametric_curve_pt boundary_order) := by
  have hinv := upgrade_loop_inv parametric_curve_pt bound boundary_order ibound mesh n
  have hkey : ∀ k m, UpgradedUpTo
      (upgrade_boundary_element parametric_curve_pt bound boundary_order) ibound mesh k m →
      e < k →
      m.boundary_element_pt ibound e
        = (mesh.boundary_element_pt ibound e).upgrade_element_to_curved i
            (parametric_curve_pt.get_zeta
              ((mesh.boundary_element_pt ibound e).node_pt ((i + 1) % 3)).x)
            (parametric_curve_pt.get_zeta
              ((mesh.boundary_element_pt ibound e).node_pt ((i + 2) % 3)).x)
            parametric_curve_pt boundary_order := by
    intro k m hm hek
    have hv := hm.below e hek
    rw [upgrade_boundary_element_of_one _ _ _ _ i hone] at hv
    split at hv
    · cases hv
    · exact (Except.ok.inj hv).symm
  have hall : ∀ k m, UpgradedUpTo
      (upgrade_boundary_element parametric_curve_pt bound boundary_order) ibound mesh k m →
      m.boundary_element_pt ibound e = mesh.boundary_element_pt ibound e
      ∨ m.boundary_element_pt ibound e
        = (mesh.boundary_element_pt ibound e).upgrade_element_to_curved i
            (parametric_curve_pt.get_zeta
              ((mesh.boundary_element_pt ibound e).node_pt ((i + 1) % 3)).x)
            (parametric_curve_pt.get_zeta
              ((mesh.boundary_element_pt ibound e).node_pt ((i + 2) % 3)).x)
            parametric_curve_pt boundary_order := by
    intro k m hm
    by_cases hek : e < k
    · exact Or.inr (hkey k m hm hek)
    · exact Or.inl (hm.above e (by omega))
  constructor
  · cases ho : forLoopRun 0 n (upgrade_step parametric_curve_pt bound boundary_order ibound)
        mesh with
    | returned m =>
      rw [ho] at hinv
      exact hall n m hinv
    | threw err m =>
      rw [ho] at hinv
      obtain ⟨e0, _, hm, _⟩ := hinv
      exact hall e0 m hm
  · intro m ho hen
    rw [ho] at hinv
    exact hkey n m hinv hen

/-- C25: for a boundary element with exactly one node off the boundary, at
local index `i`, both drivers either leave the element as it was (the run
threw at this element or before it) or call `upgrade_element_to_curved` with
the edge `i`, `s_ubar` the curve parameter of node `(i+1) mod 3`, `s_obar` that
of node `(i+2) mod 3` and the curve of the boundary being upgraded; and when
the run returns, every such element of the boundary has received this call. -/
theorem upgrade_call_arguments :
    (∀ (Upper_parametric_elliptical_curve Lower_parametric_elliptical_curve :
          CurvilineGeomObject) (ibound : Nat) (mesh : Mesh) (e i : Nat),
      ExactlyOneOffBoundary ibound (mesh.boundary_element_pt ibound e) i →
      ((StarTrek.upgrade_edge_elements_to_curve Upper_parametric_elliptical_curve
            Lower_parametric_elliptical_curve ibound mesh).state.boundary_element_pt ibound e
          = mesh.boundary_element_pt ibound e
        ∨ (StarTrek.upgrade_edge_elements_to_curve Upper_parametric_elliptical_curve
            Lower_parametric_elliptical_curve ibound mesh).state.boundary_element_pt ibound e
          = (mesh.boundary_element_pt ibound e).upgrade_element_to_curved i
              ((if ibound = 0 then Upper_parametric_elliptical_curve
                else Lower_parametric_elliptical_curve).get_zeta
                ((mesh.boundary_element_pt ibound e).node_pt ((i + 1) % 3)).x)
              ((if ibound = 0 then Upper_parametric_elliptical_curve
                else Lower_parametric_elliptical_curve).get_zeta
                ((mesh.boundary_element_pt ibound e).node_pt ((i + 2) % 3)).x)
              (if ibound = 0 then Upper_parametric_elliptical_curve
                else Lower_parametric_elliptical_curve) 5)
      ∧ (∀ m, StarTrek.upgrade_edge_elements_to_curve Upper_parametric_elliptical_curve
            Lower_parametric_elliptical_curve ibound mesh = Run.returned m →
          e < mesh.nboundary_element ibound →
          m.boundary_element_pt ibound e
            = (mesh.boundary_element_pt ibound e).upgrade_element_to_curved i
                ((if ibound = 0 then Upper_parametric_elliptical_curve
                  else Lower_parametric_elliptical_curve).get_zeta
                  ((mesh.boundary_element_pt ibound e).node_pt ((i + 1) % 3)).x)
                ((if ibound = 0 then Upper_parametric_elliptical_curve
                  else Lower_parametric_elliptical_curve).get_zeta
                  ((mesh.boundary_element_pt ibound e).node_pt ((i + 2) % 3)).x)
                (if ibound = 0 then Upper_parametric_elliptical_curve
                  else Lower_parametric_elliptical_curve) 5))
    ∧ (∀ (parametric_arc : CurvilineGeomObject) (mesh : Mesh) (e i : Nat),
      ExactlyOneOffBoundary Circular_arc_bnum
        (mesh.boundary_element_pt Circular_arc_bnum e) i →
      ((CircularSector.upgrade_edge_elements_to_curve parametric_arc Circular_arc_bnum
            mesh).state.boundary_element_pt Circular_arc_bnum e
          = mesh.boundary_element_pt Circular_arc_bnum e
        ∨ (CircularSector.upgrade_edge_elements_to_curve parametric_arc Circular_arc_bnum
            mesh).state.boundary_element_pt Circular_arc_bnum e
          = (mesh.boundary_element_pt Circular_arc_bnum e).upgrade_element_to_curved i
              (parametric_arc.get_zeta
                ((mesh.boundary_element_pt Circular_arc_bnum e).node_pt ((i + 1) % 3)).x)
              (parametric_arc.get_zeta
                ((mesh.boundary_element_pt Circular_arc_bnum e).node_pt ((i + 2) % 3)).x)
              parametric_arc 3)
      ∧ (∀ m, CircularSector.upgrade_edge_elements_to_curve parametric_arc Circular_arc_bnum
            mesh = Run.returned m →
          e < mesh.nboundary_element Circular_arc_bnum →
          m.boundary_element_pt Circular_arc_bnum e
            = (mesh.boundary_element_pt Circular_arc_bnum e).upgrade_element_to_curved i
                (parametric_arc.get_zeta
                  ((mesh.boundary_element_pt Circular_arc_bnum e).node_pt ((i + 1) % 3)).x)
                (parametric_arc.get_zeta
                  ((mesh.boundary_element_pt Circular_arc_bnum e).node_pt ((i + 2) % 3)).x)
                parametric_arc 3)) := by
  refine ⟨fun Upper Lower ibound mesh e i hone => ?_, fun parametric_arc mesh e i hone => ?_⟩
  · by_cases hb : ibound < 2
    · rw [star_trek_upgrade_eq_loop _ _ _ _ hb]
      exact upgrade_loop_arguments _ ibound 5 ibound mesh _ e i hone
    · rw [star_trek_upgrade_unexpected _ _ _ _ (by omega)]
      exact ⟨Or.inl rfl, fun m hm => by cases hm⟩
  · rw [circular_sector_upgrade_eq_loop]
    exact upgrade_loop_arguments _ Circular_arc_bnum 3 Circular_arc_bnum mesh _ e i hone

theorem goodElement_run_returns :
    (StarTrek.upgrade_edge_elements_to_curve xAxis xAxis 0 (meshOf [goodElement])).error = none
    ∧ (CircularSector.upgrade_edge_elements_to_curve xAxis Circular_arc_bnum
        (meshOf [goodElement])).error = none := by
  constructor <;>
    simp [StarTrek.upgrade_edge_elements_to_curve, CircularSector.upgrade_edge_elements_to_curve,
      Circular_arc_bnum, forLoopRun_succ, forLoopRun_zero, Run.andThen, Run.error, Run.state,
      upgrade_step, upgrade_boundary_element, record_boundary_nodes_eq, meshOf,
      goodElement, triangle, exampleNode, xAxis, straightBoundary,
      Mesh.with_boundary_element, BulkElement.upgrade_element_to_curved]

/-- C25 on the mesh of the single element `goodElement` along the x axis:
both drivers return and the element has been upgraded with the edge 0 and
the parameters of its nodes 1 and 2. -/
theorem upgrade_call_arguments_witness :
    ExactlyOneOffBoundary 0 ((meshOf [goodElement]).boundary_element_pt 0 0) 0
    ∧ (StarTrek.upgrade_edge_elements_to_curve xAxis xAxis 0
        (meshOf [goodElement])).state.boundary_element_pt 0 0
      = goodElement.upgrade_element_to_curved 0
          (xAxis.get_zeta (goodElement.node_pt 1).x) (xAxis.get_zeta (goodElement.node_pt 2).x)
          xAxis 5
    ∧ (CircularSector.upgrade_edge_elements_to_curve xAxis Circular_arc_bnum
        (meshOf [goodElement])).state.boundary_element_pt Circular_arc_bnum 0
      = goodElement.upgrade_element_to_curved 0
          (xAxis.get_zeta (goodElement.node_pt 1).x) (xAxis.get_zeta (goodElement.node_pt 2).x)
          xAxis 3 :=
  ⟨goodElement_one_off 0,
    (upgrade_call_arguments.1 xAxis xAxis 0 (meshOf [goodElement]) 0 0
      (goodElement_one_off 0)).2 _
      (Run.eq_returned_of_error_none _ goodElement_run_returns.1) (by simp [meshOf]),
    (upgrade_call_arguments.2 xAxis (meshOf [goodElement]) 0 0
      (goodElement_one_off Circular_arc_bnum)).2 _
      (Run.eq_returned_of_error_none _ goodElement_run_returns.2) (by simp [meshOf])⟩


/-! ## The order of the rotation calls -/

theorem forLoop_append_flatMap {α : Type} (lo hi : Nat) (M : Nat → List α) (init : List α) :
    forLoop lo hi (fun calls i => calls ++ M i) init
      = init ++ (List.range' lo (hi - lo)).flatMap M := by
  unfold forLoop
  generalize List.range' lo (hi - lo) = l
  induction l generalizing init with
  | nil => simp
  | cons x xs ih => simp [List.foldl_cons, ih, List.append_assoc]

theorem forLoop_zero_append_flatMap {α : Type} (n : Nat) (M : Nat → List α) :
    forLoop 0 n (fun calls i => calls ++ M i) [] = (List.range n).flatMap M := by
  rw [forLoop_append_flatMap, List.nil_append, Nat.sub_zero, List.range_eq_range']

/-- The indices pushed by the node loop are the indices below 3 of the nodes
on the boundary, in increasing order. -/
theorem circular_boundary_nodes_eq (b : Nat) (el_pt : BulkElement) :
    CircularSector.boundary_nodes b el_pt
      = (List.range 3).filter (fun n => (el_pt.node_pt n).is_on_boundary b) := by
  unfold CircularSector.boundary_nodes
  rw [forLoop_zero_three]
  have hr : List.range 3 = [0, 1, 2] := rfl
  rw [hr]
  cases h0 : (el_pt.node_pt 0).is_on_boundary b <;>
    cases h1 : (el_pt.node_pt 1).is_on_boundary b <;>
    cases h2 : (el_pt.node_pt 2).is_on_boundary b <;> simp [List.filter, h0, h1, h2]

theorem star_trek_boundary_node_eq (Parametric_curve_pt : Nat → CurvilineGeomObject) (b : Nat)
    (el_pt : BulkElement) :
    (StarTrek.boundary_node Parametric_curve_pt b el_pt).1
        = (List.range 3).filter (fun n => (el_pt.node_pt n).is_on_boundary b)
    ∧ (StarTrek.boundary_node Parametric_curve_pt b el_pt).2
        = ((List.range 3).filter (fun n => (el_pt.node_pt n).is_on_boundary b)).map
            (fun n => (Parametric_curve_pt b).get_zeta (el_pt.node_pt n).x) := by
  unfold StarTrek.boundary_node
  rw [forLoop_zero_three]
  have hr : List.range 3 = [0, 1, 2] := rfl
  rw [hr]
  cases h0 : (el_pt.node_pt 0).is_on_boundary b <;>
    cases h1 : (el_pt.node_pt 1).is_on_boundary b <;>
    cases h2 : (el_pt.node_pt 2).is_on_boundary b <;> simp [List.filter, h0, h1, h2]

/-- The call the circular-sector driver issues for boundary `b` and element
`e`, if any. -/
theorem circular_rotate_eq (bulk_mesh_pt : ElementList) :
    CircularSector.rotate_edge_degrees_of_freedom bulk_mesh_pt
      = (List.range 3).flatMap (fun b =>
          (List.range bulk_mesh_pt.nelement).flatMap (fun e =>
            if !(CircularSector.boundary_nodes b (bulk_mesh_pt.element_pt e)).isEmpty then
              [RotatedDofsCall.mk e
                (CircularSector.boundary_nodes b (bulk_mesh_pt.element_pt e)).length
                (CircularSector.boundary_nodes b (bulk_mesh_pt.element_pt e)) b]
            else [])) := by
  unfold CircularSector.rotate_edge_degrees_of_freedom
  have hinner : ∀ b : Nat, (fun (calls : List RotatedDofsCall) (e : Nat) =>
      if !(CircularSector.boundary_nodes b (bulk_mesh_pt.element_pt e)).isEmpty then
        calls ++ [RotatedDofsCall.mk e
          (CircularSector.boundary_nodes b (bulk_mesh_pt.element_pt e)).length
          (CircularSector.boundary_nodes b (bulk_mesh_pt.element_pt e)) b]
      else calls)
      = (fun calls e => calls ++
        (if !(CircularSector.boundary_nodes b (bulk_mesh_pt.element_pt e)).isEmpty then
          [RotatedDofsCall.mk e
            (CircularSector.boundary_nodes b (bulk_mesh_pt.element_pt e)).length
            (CircularSector.boundary_nodes b (bulk_mesh_pt.element_pt e)) b]
        else [])) := by
    intro b
    funext calls e
    split <;> simp
  simp only [hinner, forLoop_append_flatMap, Nat.sub_zero, ← List.range_eq_range',
    List.nil_append]

theorem star_trek_rotate_eq (Parametric_curve_pt : Nat → CurvilineGeomObject)
    (Bulk_mesh_pt : ElementList) :
    StarTrek.rotate_edge_degrees_of_freedom Parametric_curve_pt Bulk_mesh_pt
      = (List.range Bulk_mesh_pt.nelement).flatMap (fun e =>
          (List.range 2).flatMap (fun b =>
            if !(StarTrek.boundary_node Parametric_curve_pt b
                (Bulk_mesh_pt.element_pt e)).1.isEmpty then
              [BoundaryParametrisationCall.mk e
                (StarTrek.boundary_node Parametric_curve_pt b (Bulk_mesh_pt.element_pt e)).1
                (StarTrek.boundary_node Parametric_curve_pt b (Bulk_mesh_pt.element_pt e)).2 b]
            else [])) := by
  unfold StarTrek.rotate_edge_degrees_of_freedom
  have hinner : ∀ e : Nat, (fun (calls : List BoundaryParametrisationCall) (b : Nat) =>
      if !(StarTrek.boundary_node Parametric_curve_pt b
          (Bulk_mesh_pt.element_pt e)).1.isEmpty then
        calls ++ [BoundaryParametrisationCall.mk e
          (StarTrek.boundary_node Parametric_curve_pt b (Bulk_mesh_pt.element_pt e)).1
          (StarTrek.boundary_node Parametric_curve_pt b (Bulk_mesh_pt.element_pt e)).2 b]
      else calls)
      = (fun calls b => calls ++
        (if !(StarTrek.boundary_node Parametric_curve_pt b
            (Bulk_mesh_pt.element_pt e)).1.isEmpty then
          [BoundaryParametrisationCall.mk e
            (StarTrek.boundary_node Parametric_curve_pt b (Bulk_mesh_pt.element_pt e)).1
            (StarTrek.boundary_node Parametric_curve_pt b (Bulk_mesh_pt.element_pt e)).2 b]
        else [])) := by
    intro e
    funext calls b
    split <;> simp
  simp only [hinner, forLoop_append_flatMap, Nat.sub_zero, ← List.range_eq_range',
    List.nil_append]


theorem pairwise_flatMap_range {α : Type} (n : Nat) (f : Nat → List α) (R : α → α → Prop)
    (h1 : ∀ i, i < n → (f i).Pairwise R)
    (h2 : ∀ i j, i < j → j < n → ∀ x, x ∈ f i → ∀ y, y ∈ f j → R x y) :
    ((List.range n).flatMap f).Pairwise R := by
  rw [List.pairwise_flatMap]
  refine ⟨fun a ha => h1 a (List.mem_range.mp ha), ?_⟩
  refine List.Pairwise.imp_of_mem ?_ (List.pairwise_lt_range n)
  intro a b _ hb hab x hx y hy
  exact h2 a b hab (List.mem_range.mp hb) x hx y hy

theorem mem_ite_singleton {α : Type} (p : Bool) (c x : α) :
    x ∈ (if p then [c] else []) ↔ p = true ∧ x = c := by
  cases p <;> simp

theorem mem_circular_rotate (bulk_mesh_pt : ElementList) (c : RotatedDofsCall) :
    c ∈ CircularSector.rotate_edge_degrees_of_freedom bulk_mesh_pt
      ↔ ∃ b, b < 3 ∧ ∃ e, e < bulk_mesh_pt.nelement
          ∧ (!(CircularSector.boundary_nodes b (bulk_mesh_pt.element_pt e)).isEmpty) = true
          ∧ c = RotatedDofsCall.mk e
              (CircularSector.boundary_nodes b (bulk_mesh_pt.element_pt e)).length
              (CircularSector.boundary_nodes b (bulk_mesh_pt.element_pt e)) b := by
  rw [circular_rotate_eq]
  simp only [List.mem_flatMap, List.mem_range, mem_ite_singleton]

theorem mem_star_trek_rotate (Parametric_curve_pt : Nat → CurvilineGeomObject)
    (Bulk_mesh_pt : ElementList) (c : BoundaryParametrisationCall) :
    c ∈ StarTrek.rotate_edge_degrees_of_freedom Parametric_curve_pt Bulk_mesh_pt
      ↔ ∃ e, e < Bulk_mesh_pt.nelement ∧ ∃ b, b < 2
          ∧ (!(StarTrek.boundary_node Parametric_curve_pt b
                (Bulk_mesh_pt.element_pt e)).1.isEmpty) = true
          ∧ c = BoundaryParametrisationCall.mk e
              (StarTrek.boundary_node Parametric_curve_pt b (Bulk_mesh_pt.element_pt e)).1
              (StarTrek.boundary_node Parametric_curve_pt b (Bulk_mesh_pt.element_pt e)).2
              b := by
  rw [star_trek_rotate_eq]
  simp only [List.mem_flatMap, List.mem_range, mem_ite_singleton]

/-- The list of the nodes on a boundary is non-empty exactly when some node is
on the boundary. -/
theorem filter_range_three_nonempty (p : Nat → Bool) :
    (!((List.range 3).filter p).isEmpty) = true ↔ ∃ j, j < 3 ∧ p j = true := by
  have hr : List.range 3 = [0, 1, 2] := rfl
  rw [hr]
  constructor
  · intro h
    cases h0 : p 0
    · cases h1 : p 1
      · cases h2 : p 2
        · simp [List.filter, h0, h1, h2] at h
        · exact ⟨2, by norm_num, h2⟩
      · exact ⟨1, by norm_num, h1⟩
    · exact ⟨0, by norm_num, h0⟩
  · rintro ⟨j, hj, hp⟩
    interval_cases j <;> cases h0 : p 0 <;> cases h1 : p 1 <;> cases h2 : p 2 <;>
      simp_all [List.filter]

theorem filter_range_three_sorted (p : Nat → Bool) :
    ((List.range 3).filter p).Pairwise (fun j1 j2 => j1 < j2) :=
  (List.pairwise_lt_range 3).sublist (List.filter_sublist _)


/-- C21 (counterexample): on two elements that both have nodes on the
boundaries 0 and 1, the driver of src/star_trek.cc issues its calls in the
order (boundary, element) = (0,0), (1,0), (0,1), (1,1): the call for boundary
1 and element 0 precedes the call for boundary 0 and element 1. -/
theorem star_trek_rotation_not_boundary_major :
    (StarTrek.rotate_edge_degrees_of_freedom (fun _ => xAxis)
        (elementsOf [goodElement, goodElement])).map (fun c => (c.b, c.e))
      = [(0, 0), (1, 0), (0, 1), (1, 1)]
    ∧ ¬ ((StarTrek.rotate_edge_degrees_of_freedom (fun _ => xAxis)
        (elementsOf [goodElement, goodElement])).map (fun c => c.b)).Pairwise
          (fun b1 b2 => b1 ≤ b2) := by
  have h : (StarTrek.rotate_edge_degrees_of_freedom (fun _ => xAxis)
        (elementsOf [goodElement, goodElement])).map (fun c => (c.b, c.e))
      = [(0, 0), (1, 0), (0, 1), (1, 1)] := by
    rfl
  refine ⟨h, ?_⟩
  have hb : (StarTrek.rotate_edge_degrees_of_freedom (fun _ => xAxis)
        (elementsOf [goodElement, goodElement])).map (fun c => c.b)
      = [0, 1, 0, 1] := by
    have := congrArg (List.map Prod.fst) h
    simpa [List.map_map, Function.comp] using this
  rw [hb]
  decide

/-- C21 (amended): the driver of src/circular_sector.cc issues its calls in
boundary-major order (boundaries 0, 1, 2 outside, increasing element index
inside) and the driver of src/star_trek.cc in element-major order
(increasing element index outside, boundaries 0, 1 inside). In both, there is
a call for boundary `b` and element `e` exactly when `b` is one of the
boundaries, `e` one of the elements and at least one of the three nodes of
`e` is on `b`; the call lists the local indices of those nodes in increasing
order (for src/star_trek.cc with their boundary coordinates). -/
theorem rotation_call_order :
    (∀ (bulk_mesh_pt : ElementList),
      (CircularSector.rotate_edge_degrees_of_freedom bulk_mesh_pt).Pairwise
        (fun c1 c2 => c1.b < c2.b ∨ (c1.b = c2.b ∧ c1.e < c2.e))
      ∧ (∀ b e, (∃ c, c ∈ CircularSector.rotate_edge_degrees_of_freedom bulk_mesh_pt
            ∧ c.b = b ∧ c.e = e)
          ↔ (b < 3 ∧ e < bulk_mesh_pt.nelement
            ∧ ∃ j, j < 3 ∧ ((bulk_mesh_pt.element_pt e).node_pt j).is_on_boundary b = true))
      ∧ (∀ c, c ∈ CircularSector.rotate_edge_degrees_of_freedom bulk_mesh_pt →
          c.boundary_nodes = (List.range 3).filter
              (fun j => ((bulk_mesh_pt.element_pt c.e).node_pt j).is_on_boundary c.b)
          ∧ c.n_boundary_nodes = c.boundary_nodes.length
          ∧ c.boundary_nodes.Pairwise (fun j1 j2 => j1 < j2)))
    ∧ (∀ (Parametric_curve_pt : Nat → CurvilineGeomObject) (Bulk_mesh_pt : ElementList),
      (StarTrek.rotate_edge_degrees_of_freedom Parametric_curve_pt Bulk_mesh_pt).Pairwise
        (fun c1 c2 => c1.e < c2.e ∨ (c1.e = c2.e ∧ c1.b < c2.b))
      ∧ (∀ b e, (∃ c, c ∈ StarTrek.rotate_edge_degrees_of_freedom Parametric_curve_pt
              Bulk_mesh_pt ∧ c.b = b ∧ c.e = e)
          ↔ (b < 2 ∧ e < Bulk_mesh_pt.nelement
            ∧ ∃ j, j < 3 ∧ ((Bulk_mesh_pt.element_pt e).node_pt j).is_on_boundary b = true))
      ∧ (∀ c, c ∈ StarTrek.rotate_edge_degrees_of_freedom Parametric_curve_pt Bulk_mesh_pt →
          c.boundary_node = (List.range 3).filter
              (fun j => ((Bulk_mesh_pt.element_pt c.e).node_pt j).is_on_boundary c.b)
          ∧ c.boundary_coordinate_of_node = c.boundary_node.map
              (fun j => (Parametric_curve_pt c.b).get_zeta
                ((Bulk_mesh_pt.element_pt c.e).node_pt j).x)
          ∧ c.boundary_node.Pairwise (fun j1 j2 => j1 < j2))) := by
  refine ⟨fun bulk_mesh_pt => ⟨?_, fun b e => ⟨?_, ?_⟩, fun c hc => ?_⟩,
    fun Parametric_curve_pt Bulk_mesh_pt => ⟨?_, fun b e => ⟨?_, ?_⟩, fun c hc => ?_⟩⟩
  · rw [circular_rotate_eq]
    refine pairwise_flatMap_range 3 _ _ (fun b _ => ?_) (fun b1 b2 hlt _ x hx y hy => ?_)
    · refine pairwise_flatMap_range _ _ _ (fun e _ => ?_) (fun e1 e2 hlt _ x hx y hy => ?_)
      · split <;> simp
      · rw [mem_ite_singleton] at hx hy
        rw [hx.2, hy.2]
        exact Or.inr ⟨rfl, hlt⟩
    · simp only [List.mem_flatMap, List.mem_range, mem_ite_singleton] at hx hy
      obtain ⟨_, _, _, rfl⟩ := hx
      obtain ⟨_, _, _, rfl⟩ := hy
      exact Or.inl hlt
  · rintro ⟨c, hc, rfl, rfl⟩
    obtain ⟨b, hb, e, he, hne, rfl⟩ := (mem_circular_rotate _ _).mp hc
    rw [circular_boundary_nodes_eq] at hne
    exact ⟨hb, he, (filter_range_three_nonempty _).mp hne⟩
  · rintro ⟨hb, he, hj⟩
    refine ⟨_, (mem_circular_rotate _ _).mpr ⟨b, hb, e, he, ?_, rfl⟩, rfl, rfl⟩
    rw [circular_boundary_nodes_eq]
    exact (filter_range_three_nonempty _).mpr hj
  · obtain ⟨b, _, e, _, _, rfl⟩ := (mem_circular_rotate _ _).mp hc
    refine ⟨circular_boundary_nodes_eq _ _, rfl, ?_⟩
    show (CircularSector.boundary_nodes b (bulk_mesh_pt.element_pt e)).Pairwise _
    rw [circular_boundary_nodes_eq]
    exact filter_range_three_sorted _
  · rw [star_trek_rotate_eq]
    refine pairwise_flatMap_range _ _ _ (fun e _ => ?_) (fun e1 e2 hlt _ x hx y hy => ?_)
    · refine pairwise_flatMap_range 2 _ _ (fun b _ => ?_) (fun b1 b2 hlt _ x hx y hy => ?_)
      · split <;> simp
      · rw [mem_ite_singleton] at hx hy
        rw [hx.2, hy.2]
        exact Or.inr ⟨rfl, hlt⟩
    · simp only [List.mem_flatMap, List.mem_range, mem_ite_singleton] at hx hy
      obtain ⟨_, _, _, rfl⟩ := hx
      obtain ⟨_, _, _, rfl⟩ := hy
      exact Or.inl hlt
  · rintro ⟨c, hc, rfl, rfl⟩
    obtain ⟨e, he, b, hb, hne, rfl⟩ := (mem_star_trek_rotate _ _ _).mp hc
    rw [(star_trek_boundary_node_eq _ _ _).1] at hne
    exact ⟨hb, he, (filter_range_three_nonempty _).mp hne⟩
  · rintro ⟨hb, he, hj⟩
    refine ⟨_, (mem_star_trek_rotate _ _ _).mpr ⟨e, he, b, hb, ?_, rfl⟩, rfl, rfl⟩
    rw [(star_trek_boundary_node_eq _ _ _).1]
    exact (filter_range_three_nonempty _).mpr hj
  · obtain ⟨e, _, b, _, _, rfl⟩ := (mem_star_trek_rotate _ _ _).mp hc
    refine ⟨(star_trek_boundary_node_eq _ _ _).1, ?_, ?_⟩
    · show (StarTrek.boundary_node Parametric_curve_pt b (Bulk_mesh_pt.element_pt e)).2
        = (StarTrek.boundary_node Parametric_curve_pt b (Bulk_mesh_pt.element_pt e)).1.map _
      rw [(star_trek_boundary_node_eq _ _ _).2, (star_trek_boundary_node_eq _ _ _).1]
    · show (StarTrek.boundary_node Parametric_curve_pt b (Bulk_mesh_pt.element_pt e)).1.Pairwise _
      rw [(star_trek_boundary_node_eq _ _ _).1]
      exact filter_range_three_sorted _

/-- C21 (amended) on two elements with nodes on every boundary: the
circular-sector driver has a call for boundary 2 and element 1, the driver of
src/star_trek.cc has none for boundary 2, and both call lists are ordered. -/
theorem rotation_call_order_witness :
    (CircularSector.rotate_edge_degrees_of_freedom
        (elementsOf [goodElement, goodElement])).Pairwise
      (fun c1 c2 => c1.b < c2.b ∨ (c1.b = c2.b ∧ c1.e < c2.e))
    ∧ (∃ c, c ∈ CircularSector.rotate_edge_degrees_of_freedom
          (elementsOf [goodElement, goodElement]) ∧ c.b = 2 ∧ c.e = 1)
    ∧ (StarTrek.rotate_edge_degrees_of_freedom (fun _ => xAxis)
        (elementsOf [goodElement, goodElement])).Pairwise
      (fun c1 c2 => c1.e < c2.e ∨ (c1.e = c2.e ∧ c1.b < c2.b))
    ∧ ¬ (∃ c, c ∈ StarTrek.rotate_edge_degrees_of_freedom (fun _ => xAxis)
          (elementsOf [goodElement, goodElement]) ∧ c.b = 2 ∧ c.e = 1) :=
  ⟨(rotation_call_order.1 (elementsOf [goodElement, goodElement])).1,
    ((rotation_call_order.1 (elementsOf [goodElement, goodElement])).2.1 2 1).mpr
      ⟨by norm_num, by simp [elementsOf], 1, by norm_num, rfl⟩,
    (rotation_call_order.2 (fun _ => xAxis) (elementsOf [goodElement, goodElement])).1,
    fun h => absurd
      (((rotation_call_order.2 (fun _ => xAxis)
        (elementsOf [goodElement, goodElement])).2.1 2 1).mp h).1 (by norm_num)⟩


/-! ## Forcing of the circular-sector driver -/

/-- C22 (counterexample): with the parameters as the driver initialises them,
`get_pressure` assigns the pressure 10, not 0, at the corner of the sector. -/
theorem pressure_is_not_zero :
    Parameters.get_pressure cornerPoint = 10 ∧ Parameters.get_pressure cornerPoint ≠ 0 := by
  have h : Parameters.get_pressure cornerPoint = 10 := by
    unfold Parameters.get_pressure Parameters.P_mag
    norm_num
  refine ⟨h, ?_⟩
  rw [h]
  norm_num

/-- C22 (amended): with the parameters as the driver initialises them,
`get_pressure` assigns the uniform pressure `P_mag = 10` at every point, and
`get_in_plane_force` assigns `(0, 0)` at every point, whatever `grad` held. -/
theorem pressure_is_uniform_P_mag (x : Nat → ℚ) (grad : Nat → ℚ) :
    Parameters.get_pressure x = Parameters.P_mag
    ∧ Parameters.get_pressure x = 10
    ∧ Parameters.get_in_plane_force x grad 0 = 0
    ∧ Parameters.get_in_plane_force x grad 1 = 0 := by
  refine ⟨rfl, ?_, ?_, ?_⟩
  · unfold Parameters.get_pressure Parameters.P_mag
    norm_num
  · simp [Parameters.get_in_plane_force]
  · simp [Parameters.get_in_plane_force]


/-! ## Duplication of the corner nodes -/

theorem succ_mod_ne (i n : Nat) (h2 : 2 ≤ n) (hi : i < n) : (i + 1) % n ≠ i := by
  by_cases h : i + 1 < n
  · rw [Nat.mod_eq_of_lt h]; omega
  · have : i + 1 = n := by omega
    rw [this, Nat.mod_self]; omega

theorem find_corner_node_spec (m : CornerMesh) (i_bound ip1_bound old : Nat)
    (h : m.find_corner_node i_bound ip1_bound = some old) :
    old ∈ m.boundary_node_pt i_bound ∧ m.is_on_boundary old ip1_bound = true := by
  unfold CornerMesh.find_corner_node at h
  exact ⟨List.mem_of_find?_eq_some h,
    @List.find?_some _ (fun node_pt => m.is_on_boundary node_pt ip1_bound) _ _ h⟩

theorem get_node_number_ne (m : CornerMesh) (el_pt n old : Nat) (hn : n < 3)
    (h : m.node_pt el_pt n = old) : m.get_node_number el_pt (some old) ≠ -1 := by
  unfold CornerMesh.get_node_number
  interval_cases n <;> simp only [h] <;> split_ifs <;> simp

theorem find_right_element_isSome (m : CornerMesh) (ip1_bound old : Nat)
    (h : ∃ el, el ∈ m.boundary_element_pt ip1_bound ∧ ∃ n, n < 3 ∧ m.node_pt el n = old) :
    ∃ right_element, m.find_right_element ip1_bound (some old) = some right_element := by
  obtain ⟨el, hel, n, hn, hnode⟩ := h
  have : (m.find_right_element ip1_bound (some old)).isSome = true := by
    unfold CornerMesh.find_right_element
    rw [List.find?_isSome]
    exact ⟨el, hel, by simpa using get_node_number_ne m el n old hn hnode⟩
  exact Option.isSome_iff_exists.mp this

/-- The state after one iteration that found its corner node and its right
element. -/
theorem duplicate_corner_node_eq (Parametric_curve_pt : Nat → CurvilineGeomObject)
    (m : CornerMesh) (i old right_element : Nat) (hwf : m.WellFormed)
    (hold : m.find_corner_node i ((i + 1) % m.nboundary) = some old)
    (hel : m.find_right_element ((i + 1) % m.nboundary) (some old) = some right_element) :
    duplicate_corner_node Parametric_curve_pt m.nboundary m i
      = some
        { nnode := m.nnode + 1,
          x := Function.update m.x m.nnode
            (Function.update (Function.update (fun _ => 0) 0 (m.x old 0)) 1 (m.x old 1)),
          is_on_boundary := Function.update
            (Function.update m.is_on_boundary old
              (Function.update (m.is_on_boundary old) ((i + 1) % m.nboundary) false))
            m.nnode (Function.update (fun _ => false) ((i + 1) % m.nboundary) true),
          nboundary := m.nboundary,
          boundary_node_pt := Function.update m.boundary_node_pt ((i + 1) % m.nboundary)
            ((m.boundary_node_pt ((i + 1) % m.nboundary)).erase old ++ [m.nnode]),
          boundary_element_pt := m.boundary_element_pt,
          node_pt := Function.update m.node_pt right_element
            (Function.update (m.node_pt right_element)
              (m.get_node_number right_element (some old)).toNat m.nnode),
          constraint_elements := m.constraint_elements ++
            [ConstraintElementArgs.mk old m.nnode (Parametric_curve_pt i)
              (Parametric_curve_pt ((i + 1) % m.nboundary))
              ((Parametric_curve_pt i).get_zeta (m.x old))
              ((Parametric_curve_pt ((i + 1) % m.nboundary)).get_zeta
                (Function.update (Function.update (fun _ => 0) 0 (m.x old 0)) 1
                  (m.x old 1)))] } := by
  obtain ⟨hmem_i, hflag⟩ := find_corner_node_spec m i _ old hold
  have hlt : old < m.nnode := ((hwf.registry i old).mp hmem_i).1
  have hne : old ≠ m.nnode := by omega
  have hne2 : m.nnode ≠ old := by omega
  have hmem_j : old ∈ m.boundary_node_pt ((i + 1) % m.nboundary) :=
    (hwf.registry _ old).mpr ⟨hlt, hflag⟩
  have hnew : m.nnode ∉ m.boundary_node_pt ((i + 1) % m.nboundary) := by
    intro h
    have := ((hwf.registry _ _).mp h).1
    omega
  have hnew2 : m.nnode ∉ (m.boundary_node_pt ((i + 1) % m.nboundary)).erase old :=
    fun h => hnew (List.mem_of_mem_erase h)
  unfold duplicate_corner_node
  simp only [hold, hel]
  simp [CornerMesh.construct_boundary_node, CornerMesh.add_node_pt,
    CornerMesh.remove_boundary_node, CornerMesh.add_boundary_node, hmem_j, hnew2, hne, hne2,
    Function.update_noteq]
  funext k
  simp only [Function.update_apply]
  split_ifs <;> simp_all


/-- An iteration that returns adds exactly one constraint element and keeps
the number of boundaries. -/
theorem duplicate_corner_node_length (Parametric_curve_pt : Nat → CurvilineGeomObject)
    (n_bound : Nat) (m m2 : CornerMesh) (i : Nat)
    (h : duplicate_corner_node Parametric_curve_pt n_bound m i = some m2) :
    m2.constraint_elements.length = m.constraint_elements.length + 1
    ∧ m2.nboundary = m.nboundary := by
  cases ho : m.find_corner_node i ((i + 1) % n_bound) with
  | none => simp [duplicate_corner_node, ho] at h
  | some old =>
    cases he : m.find_right_element ((i + 1) % n_bound) (some old) with
    | none => simp [duplicate_corner_node, ho, he] at h
    | some right_element =>
      simp only [duplicate_corner_node, ho, he, Option.some.injEq] at h
      subst h
      simp only [CornerMesh.add_boundary_node, CornerMesh.remove_boundary_node,
        CornerMesh.add_node_pt, CornerMesh.construct_boundary_node]
      split_ifs <;> simp

theorem duplicate_corner_nodes_fold (Parametric_curve_pt : Nat → CurvilineGeomObject)
    (n_bound : Nat) (l : List Nat) (o : Option CornerMesh) (m2 : CornerMesh)
    (h : l.foldl (fun o i_bound =>
        o.bind (fun m => duplicate_corner_node Parametric_curve_pt n_bound m i_bound)) o
      = some m2) :
    ∃ m0, o = some m0
      ∧ m2.constraint_elements.length = m0.constraint_elements.length + l.length := by
  induction l generalizing o with
  | nil => exact ⟨m2, h, rfl⟩
  | cons x xs ih =>
    rw [List.foldl_cons] at h
    obtain ⟨m1, h1, hlen⟩ := ih _ h
    cases o with
    | none => cases h1
    | some m0 =>
      have hstep : duplicate_corner_node Parametric_curve_pt n_bound m0 x = some m1 := h1
      have := (duplicate_corner_node_length _ _ _ _ _ hstep).1
      refine ⟨m0, rfl, ?_⟩
      rw [hlen, this, List.length_cons]
      omega

theorem duplicate_corner_node_wellFormed (m : CornerMesh) (old right_element j n : Nat)
    (x2 : Nat → Nat → ℚ) (cs : List ConstraintElementArgs)
    (hwf : m.WellFormed) (hlt : old < m.nnode) :
    CornerMesh.WellFormed
      { nnode := m.nnode + 1,
        x := x2,
        is_on_boundary := Function.update
          (Function.update m.is_on_boundary old
            (Function.update (m.is_on_boundary old) j false))
          m.nnode (Function.update (fun _ => false) j true),
        nboundary := m.nboundary,
        boundary_node_pt := Function.update m.boundary_node_pt j
          ((m.boundary_node_pt j).erase old ++ [m.nnode]),
        boundary_element_pt := m.boundary_element_pt,
        node_pt := Function.update m.node_pt right_element
          (Function.update (m.node_pt right_element) n m.nnode),
        constraint_elements := cs } := by
  have hnew : ∀ b, m.nnode ∉ m.boundary_node_pt b := by
    intro b h
    have := ((hwf.registry _ _).mp h).1
    omega
  constructor
  · intro b k
    simp only [Function.update_apply]
    by_cases hb : b = j
    · subst hb
      simp only [if_true, List.mem_append, List.mem_singleton,
        (hwf.nodup b).mem_erase_iff, hwf.registry]
      by_cases hk : k = m.nnode
      · subst hk
        simp
      · by_cases hko : k = old
        · subst hko
          simp [hk]
        · simp [hk, hko]
          intro _
          omega
    · simp only [hb, if_false, hwf.registry]
      by_cases hk : k = m.nnode
      · subst hk
        simp [hb]
      · by_cases hko : k = old
        · subst hko
          simp [hk, hb]
          intro _
          omega
        · simp [hk, hko]
          intro _
          omega
  · intro b
    simp only [Function.update_apply]
    by_cases hb : b = j
    · subst hb
      simp only [if_true]
      rw [List.nodup_append]
      refine ⟨(hwf.nodup b).erase old, List.nodup_singleton _, ?_⟩
      intro a ha hb2
      rw [List.mem_singleton] at hb2
      subst hb2
      exact hnew b (List.mem_of_mem_erase ha)
    · simp only [hb, if_false]
      exact hwf.nodup b


/-- C23: in a mesh with at least two boundaries whose registries are set up,
an iteration of `duplicate_corner_nodes` for boundary `i`, with next boundary
`j = (i+1) mod n_bound`, whose search finds the corner node `old` and some
boundary element of `j` containing it, returns; the node it creates (the node
number `nnode`) has the position of `old`; afterwards `old` is on boundary `i`
and not on `j`, the new node is on `j` and not on `i`; and one constraint
element is appended, with left node `old` on curve `i` and right node the new
node on curve `j`. A run of `duplicate_corner_nodes` that returns has added
exactly `n_bound` constraint elements. -/
theorem corner_nodes_duplicated :
    (∀ (Parametric_curve_pt : Nat → CurvilineGeomObject) (m : CornerMesh) (i old : Nat),
      m.WellFormed → 2 ≤ m.nboundary → i < m.nboundary →
      m.find_corner_node i ((i + 1) % m.nboundary) = some old →
      (∃ el, el ∈ m.boundary_element_pt ((i + 1) % m.nboundary)
        ∧ ∃ n, n < 3 ∧ m.node_pt el n = old) →
      ∃ m2, duplicate_corner_node Parametric_curve_pt m.nboundary m i = some m2
        ∧ m2.nnode = m.nnode + 1
        ∧ (∀ c, c < 2 → m2.x m.nnode c = m.x old c)
        ∧ (∀ c, m2.x old c = m.x old c)
        ∧ m2.is_on_boundary old i = true
        ∧ m2.is_on_boundary old ((i + 1) % m.nboundary) = false
        ∧ m2.is_on_boundary m.nnode ((i + 1) % m.nboundary) = true
        ∧ m2.is_on_boundary m.nnode i = false
        ∧ m2.constraint_elements = m.constraint_elements ++
            [ConstraintElementArgs.mk old m.nnode (Parametric_curve_pt i)
              (Parametric_curve_pt ((i + 1) % m.nboundary))
              ((Parametric_curve_pt i).get_zeta (m.x old))
              ((Parametric_curve_pt ((i + 1) % m.nboundary)).get_zeta (m2.x m.nnode))]
        ∧ m2.WellFormed)
    ∧ (∀ (Parametric_curve_pt : Nat → CurvilineGeomObject) (m m2 : CornerMesh),
      duplicate_corner_nodes Parametric_curve_pt m = some m2 →
      m2.constraint_elements.length = m.constraint_elements.length + m.nboundary) := by
  constructor
  · intro Parametric_curve_pt m i old hwf h2 hi hold hel
    obtain ⟨right_element, hre⟩ := find_right_element_isSome m _ old hel
    obtain ⟨hmem_i, _⟩ := find_corner_node_spec m i _ old hold
    obtain ⟨hlt, hflag_i⟩ := (hwf.registry i old).mp hmem_i
    have hne : old ≠ m.nnode := by omega
    have hne2 : m.nnode ≠ old := by omega
    have hij : (i + 1) % m.nboundary ≠ i := succ_mod_ne i m.nboundary h2 hi
    have hji : i ≠ (i + 1) % m.nboundary := fun h => hij h.symm
    refine ⟨_, duplicate_corner_node_eq Parametric_curve_pt m i old right_element hwf hold hre,
      rfl, ?_, ?_, ?_, ?_, ?_, ?_, ?_, ?_⟩
    · intro c hc
      interval_cases c <;> simp
    · intro c
      simp [Function.update_noteq hne]
    · simp [Function.update_noteq hne, Function.update_noteq hji, hflag_i]
    · simp [Function.update_noteq hne]
    · simp
    · simp [Function.update_noteq hji]
    · simp
    · exact duplicate_corner_node_wellFormed m old right_element _ _ _ _ hwf hlt
  · intro Parametric_curve_pt m m2 h
    unfold duplicate_corner_nodes forLoop at h
    obtain ⟨m0, h0, hlen⟩ := duplicate_corner_nodes_fold _ _ _ _ _ h
    rw [Option.some.injEq] at h0
    subst h0
    rw [hlen, List.length_range', Nat.sub_zero]

theorem lensMesh_wellFormed : lensMesh.WellFormed := by
  constructor
  · intro b k
    by_cases hb0 : b = 0
    · subst hb0
      simp [lensMesh]
      omega
    · by_cases hb1 : b = 1
      · subst hb1
        simp [lensMesh]
        omega
      · simp [lensMesh, hb0, hb1]
  · intro b
    by_cases hb0 : b = 0
    · subst hb0
      simp [lensMesh]
    · by_cases hb1 : b = 1
      · subst hb1
        simp [lensMesh]
      · simp [lensMesh, hb0, hb1]

/-- C23 on the mesh of two boundaries meeting at the nodes 0 and 1: the
first iteration duplicates the node 0, found in element 3 of boundary 1, and
the whole run returns with two constraint elements. -/
theorem corner_nodes_duplicated_witness :
    lensMesh.WellFormed
    ∧ lensMesh.find_corner_node 0 ((0 + 1) % lensMesh.nboundary) = some 0
    ∧ (∃ m2, duplicate_corner_node (fun _ => xAxis) lensMesh.nboundary lensMesh 0 = some m2
        ∧ m2.nnode = lensMesh.nnode + 1
        ∧ (∀ c, c < 2 → m2.x lensMesh.nnode c = lensMesh.x 0 c)
        ∧ (∀ c, m2.x 0 c = lensMesh.x 0 c)
        ∧ m2.is_on_boundary 0 0 = true
        ∧ m2.is_on_boundary 0 ((0 + 1) % lensMesh.nboundary) = false
        ∧ m2.is_on_boundary lensMesh.nnode ((0 + 1) % lensMesh.nboundary) = true
        ∧ m2.is_on_boundary lensMesh.nnode 0 = false
        ∧ m2.constraint_elements = lensMesh.constraint_elements ++
            [ConstraintElementArgs.mk 0 lensMesh.nnode xAxis xAxis
              (xAxis.get_zeta (lensMesh.x 0)) (xAxis.get_zeta (m2.x lensMesh.nnode))]
        ∧ m2.WellFormed)
    ∧ (∃ m2, duplicate_corner_nodes (fun _ => xAxis) lensMesh = some m2
        ∧ m2.constraint_elements.length = lensMesh.constraint_elements.length
            + lensMesh.nboundary) :=
  ⟨lensMesh_wellFormed, rfl,
    corner_nodes_duplicated.1 (fun _ => xAxis) lensMesh 0 0 lensMesh_wellFormed (le_refl 2)
      (by decide) rfl ⟨3, by decide, 1, by decide, rfl⟩,
    (Option.isSome_iff_exists.mp
      (rfl : (duplicate_corner_nodes (fun _ => xAxis) lensMesh).isSome = true)).elim
      (fun m2 h => ⟨m2, h, corner_nodes_duplicated.2 (fun _ => xAxis) lensMesh m2 h⟩)⟩

/-! ## A redundant multiplier that enters a node equation -/

/-- The coordinate transform reads the two boundaries and the two boundary
coordinates of the element and nothing else. -/
theorem transform_of_boundaries (sqrt : ℚ → ℚ) (el el2 : DuplicateNodeConstraintElement)
    (hL : el2.Left_boundary_pt = el.Left_boundary_pt)
    (hR : el2.Right_boundary_pt = el.Right_boundary_pt)
    (hlc : el2.Left_node_coord = el.Left_node_coord)
    (hrc : el2.Right_node_coord = el.Right_node_coord) :
    get_jac_and_hess_of_coordinate_transform sqrt el2
      = get_jac_and_hess_of_coordinate_transform sqrt el := by
  unfold get_jac_and_hess_of_coordinate_transform get_jac_and_hess_locals
  rw [hL, hR, hlc, hrc]

/-- Between the straight boundaries of velocities `(3, 4)` and `(-4, 3)` the
Jacobian of the transform is the quarter turn `[[0, -1], [1, 0]]`. -/
theorem exampleElement_jac (lagrange left right : Data) :
    (get_jac_and_hess_of_coordinate_transform exampleSqrt
        (exampleElement lagrange left right)).1 0 0 = 0
    ∧ (get_jac_and_hess_of_coordinate_transform exampleSqrt
        (exampleElement lagrange left right)).1 0 1 = -1
    ∧ (get_jac_and_hess_of_coordinate_transform exampleSqrt
        (exampleElement lagrange left right)).1 1 0 = 1
    ∧ (get_jac_and_hess_of_coordinate_transform exampleSqrt
        (exampleElement lagrange left right)).1 1 1 = 0 := by
  have l0 : (get_jac_and_hess_locals exampleSqrt (exampleElement lagrange left right)).left_ti 0
      = 3 / 5 := by
    simp only [left_ti_eq, exampleElement, straightBoundary]
    norm_num [exampleSqrt]
  have l1 : (get_jac_and_hess_locals exampleSqrt (exampleElement lagrange left right)).left_ti 1
      = 4 / 5 := by
    simp only [left_ti_eq, exampleElement, straightBoundary]
    norm_num [exampleSqrt]
  have r0 : (get_jac_and_hess_locals exampleSqrt (exampleElement lagrange left right)).right_ti 0
      = -4 / 5 := by
    simp only [right_ti_eq, exampleElement, straightBoundary]
    norm_num [exampleSqrt]
  have r1 : (get_jac_and_hess_locals exampleSqrt (exampleElement lagrange left right)).right_ti 1
      = 3 / 5 := by
    simp only [right_ti_eq, exampleElement, straightBoundary]
    norm_num [exampleSqrt]
  obtain ⟨e00, e01, e10, e11⟩ :=
    jac_of_transform_entries exampleSqrt (exampleElement lagrange left right)
  rw [e00, e01, e10, e11, l0, l1, r0, r1]
  norm_num

theorem staleGradientCorner_validated :
    (validate_and_pin_redundant_constraints exampleSqrt staleGradientCorner).isReturned = true
    ∧ ∀ k, k < 8 →
        (validate_and_pin_redundant_constraints exampleSqrt
          staleGradientCorner).state.lagrange.is_pinned k = decide (k ≠ 3) := by
  constructor
  · simp [validate_and_pin_redundant_constraints, validate_run, forLoopThrowing_zero_three,
      forLoopThrowing_zero_two, forLoopThrowing_one_two, validate_value_constraint,
      validate_gradient_constraint, validate_curvature_constraint, check_and_pin,
      staleGradientCorner, exampleElement, pinnedData, pinnedExcept, freeData, Data.is_pinned,
      Data.pin, ValidationState.pin_multiplier, validation_entry, Data.unpin_all,
      ValidationState.use_right, ValidationState.use_left,
      Outcome.andThen, Outcome.isReturned, Outcome.state, forLoop_zero_two,
      not_lt.mpr (le_of_lt Constraint_tolerance_pos), Function.update_apply]
  · intro k hk
    interval_cases k <;>
    simp [validate_and_pin_redundant_constraints, validate_run, forLoopThrowing_zero_three,
      forLoopThrowing_zero_two, forLoopThrowing_one_two, validate_value_constraint,
      validate_gradient_constraint, validate_curvature_constraint, check_and_pin,
      staleGradientCorner, exampleElement, pinnedData, pinnedExcept, freeData, Data.is_pinned,
      Data.pin, ValidationState.pin_multiplier, validation_entry, Data.unpin_all,
      ValidationState.use_right, ValidationState.use_left,
      Outcome.andThen, Outcome.isReturned, Outcome.state, forLoop_zero_two,
      not_lt.mpr (le_of_lt Constraint_tolerance_pos), Function.update_apply]

theorem staleGradientCorner_assigned :
    LocalEqnsAssigned
      (renumbered (validate_and_pin_redundant_constraints exampleSqrt staleGradientCorner).state
        (fun _ k => if k = 3 then 0 else -1) (fun d k => if d = 0 ∧ k = 3 then 1 else -1)) := by
  have hp := staleGradientCorner_validated.2
  have hn := validate_state_nodes exampleSqrt staleGradientCorner
  have hl : (validate_and_pin_redundant_constraints exampleSqrt staleGradientCorner).state.left
      = staleGradientCorner.left := by
    rw [hn]
  have hr : (validate_and_pin_redundant_constraints exampleSqrt staleGradientCorner).state.right
      = staleGradientCorner.right := by
    rw [hn]
  constructor
  · intro k hk
    show (validate_and_pin_redundant_constraints exampleSqrt
        staleGradientCorner).state.lagrange.is_pinned k = true
      ↔ (if k = 3 then (0 : Int) else -1) < 0
    rw [hp k hk]
    interval_cases k <;> simp
  · intro k hk
    show (validate_and_pin_redundant_constraints exampleSqrt
        staleGradientCorner).state.left.is_pinned k = true
      ↔ (if Index_of_left_data = 0 ∧ k = 3 then (1 : Int) else -1) < 0
    rw [hl]
    interval_cases k <;>
      simp [staleGradientCorner, exampleElement, pinnedExcept, Data.is_pinned,
        Index_of_left_data]
  · intro k hk
    show (validate_and_pin_redundant_constraints exampleSqrt
        staleGradientCorner).state.right.is_pinned k = true
      ↔ (if Index_of_right_data = 0 ∧ k = 3 then (1 : Int) else -1) < 0
    rw [hr]
    simp [staleGradientCorner, exampleElement, pinnedData, Data.is_pinned, Index_of_right_data]
  · intro i hi j hj h0 h1
    simp only [renumbered, Index_of_lagrange_data] at h0 h1
    by_cases h3 : i = 3
    · by_cases h4 : j = 3
      · rw [h3, h4]
      · simp [h3, h4] at h1
    · simp [h3] at h0
  · intro i hi d hd j hj h0
    simp only [renumbered, Index_of_lagrange_data] at h0 ⊢
    by_cases h3 : i = 3
    · by_cases h4 : d = 0 ∧ j = 3 <;> simp [h3, h4]
    · simp [h3] at h0
  · intro d hd i hi e he j hj h0 h1
    simp only [renumbered] at h0 h1
    by_cases h3 : d = 0 ∧ i = 3
    · by_cases h4 : e = 0 ∧ j = 3
      · exact ⟨h3.1.trans h4.1.symm, h3.2.trans h4.2.symm⟩
      · simp [h3, h4] at h1
    · simp [h3] at h0

/-- C8 (evaluation at the failing input): the left node's dof 3 is the only
free nodal dof and multiplier 4 holds the value 7. The validation returns
normally with every multiplier but multiplier 3 pinned, so multiplier 4 is
redundant; its value is still 7; and the assembly that follows, with the local
equation numbers reassigned (multiplier 3 has equation 0, the left dof 3 has
equation 1), adds 7 to the equation of the left dof 3, starting from a zero
residual vector: the pinned multiplier takes part in a node equation. -/
theorem stale_multiplier_enters_node_equation :
    staleGradientCorner.left.is_pinned 3 = false
    ∧ staleGradientCorner.lagrange.value 4 = 7
    ∧ (validate_and_pin_redundant_constraints exampleSqrt staleGradientCorner).isReturned = true
    ∧ (∀ k, k < 8 →
        (validate_and_pin_redundant_constraints exampleSqrt
          staleGradientCorner).state.lagrange.is_pinned k = decide (k ≠ 3))
    ∧ (validate_and_pin_redundant_constraints exampleSqrt
        staleGradientCorner).state.lagrange.value 4 = 7
    ∧ LocalEqnsAssigned
        (renumbered (validate_and_pin_redundant_constraints exampleSqrt staleGradientCorner).state
          (fun _ k => if k = 3 then 0 else -1) (fun d k => if d = 0 ∧ k = 3 then 1 else -1))
    ∧ fill_in_generic_residual_contribution_constraint exampleSqrt
        (renumbered (validate_and_pin_redundant_constraints exampleSqrt staleGradientCorner).state
          (fun _ k => if k = 3 then 0 else -1) (fun d k => if d = 0 ∧ k = 3 then 1 else -1))
        (fun _ => 0) 1 = 7 := by
  have hv : (validate_and_pin_redundant_constraints exampleSqrt
      staleGradientCorner).state.lagrange.value = staleGradientCorner.lagrange.value :=
    funext (fun k => (multiplier_values_kept exampleSqrt staleGradientCorner k).1)
  have hn := validate_state_nodes exampleSqrt staleGradientCorner
  have hJ : get_jac_and_hess_of_coordinate_transform exampleSqrt
        (renumbered (validate_and_pin_redundant_constraints exampleSqrt
          staleGradientCorner).state
          (fun _ k => if k = 3 then 0 else -1) (fun d k => if d = 0 ∧ k = 3 then 1 else -1))
      = get_jac_and_hess_of_coordinate_transform exampleSqrt staleGradientCorner := by
    refine transform_of_boundaries exampleSqrt _ _ ?_ ?_ ?_ ?_
    · show (validate_and_pin_redundant_constraints exampleSqrt
        staleGradientCorner).state.Left_boundary_pt = _
      rw [hn]
    · show (validate_and_pin_redundant_constraints exampleSqrt
        staleGradientCorner).state.Right_boundary_pt = _
      rw [hn]
    · show (validate_and_pin_redundant_constraints exampleSqrt
        staleGradientCorner).state.Left_node_coord = _
      rw [hn]
    · show (validate_and_pin_redundant_constraints exampleSqrt
        staleGradientCorner).state.Right_node_coord = _
      rw [hn]
  obtain ⟨-, J01, -, -⟩ := exampleElement_jac (freeData (fun k => if k = 4 then 7 else 0))
    (pinnedExcept 3 (fun _ => 0)) (pinnedData (fun _ => 0))
  refine ⟨rfl, rfl, staleGradientCorner_validated.1, staleGradientCorner_validated.2, ?_,
    staleGradientCorner_assigned, ?_⟩
  · rw [hv]
    rfl
  · rw [fill_in_apply exampleSqrt _ _ _ _ _ rfl rfl, hJ]
    have J01b : (get_jac_and_hess_of_coordinate_transform exampleSqrt staleGradientCorner).1 0 1
        = -1 := J01
    have l3 : staleGradientCorner.lagrange.value 3 = 0 := rfl
    have l4 : staleGradientCorner.lagrange.value 4 = 7 := rfl
    have l5 : staleGradientCorner.lagrange.value 5 = 0 := rfl
    have l6 : staleGradientCorner.lagrange.value 6 = 0 := rfl
    have l7 : staleGradientCorner.lagrange.value 7 = 0 := rfl
    simp [renumbered, hit, hv, J01b, l3, l4, l5, l6, l7]

/-! ## Properties of the rounding to the nearest double -/

theorem Binary64.ulp_pos (x : ℚ) : 0 < Binary64.ulp x := by
  unfold Binary64.ulp
  positivity

/-- The rounding returns a nearest double: it differs from `x` by at most half
the spacing of the doubles around `x`. -/
theorem Binary64.abs_round_sub_le (x : ℚ) :
    |Binary64.round x - x| ≤ Binary64.ulp x / 2 := by
  have key : ∀ y : ℚ, 0 ≤ y → |Binary64.roundMagnitude y - y| ≤ Binary64.ulp y / 2 := by
    intro y _
    have hu := Binary64.ulp_pos y
    have hm : |(Binary64.roundHalfEven (y / Binary64.ulp y) : ℚ) - y / Binary64.ulp y|
        ≤ 1 / 2 := by
      have h1 := Int.floor_le (y / Binary64.ulp y)
      have h2 := Int.lt_floor_add_one (y / Binary64.ulp y)
      unfold Binary64.roundHalfEven
      rw [abs_le]
      split_ifs <;> push_cast <;> constructor <;> linarith
    unfold Binary64.roundMagnitude
    have hy : (Binary64.roundHalfEven (y / Binary64.ulp y) : ℚ) * Binary64.ulp y - y
        = ((Binary64.roundHalfEven (y / Binary64.ulp y) : ℚ) - y / Binary64.ulp y)
          * Binary64.ulp y := by
      field_simp
    rw [hy, abs_mul, abs_of_pos hu]
    calc |(Binary64.roundHalfEven (y / Binary64.ulp y) : ℚ) - y / Binary64.ulp y|
          * Binary64.ulp y
        ≤ 1 / 2 * Binary64.ulp y := mul_le_mul_of_nonneg_right hm hu.le
      _ = Binary64.ulp y / 2 := by ring
  have hneg : Binary64.ulp (-x) = Binary64.ulp x := by
    unfold Binary64.ulp Binary64.exponent
    simp only [Rat.num_neg_eq_neg_num, Int.natAbs_neg, Rat.den_neg_eq_den, abs_neg]
  by_cases h : 0 ≤ x
  · unfold Binary64.round
    rw [if_pos h]
    exact key x h
  · unfold Binary64.round
    rw [if_neg h]
    have h2 := key (-x) (by linarith)
    rw [hneg] at h2
    have : - Binary64.roundMagnitude (-x) - x = - (Binary64.roundMagnitude (-x) - -x) := by ring
    rw [this, abs_neg]
    exact h2

/-- The rounding on numbers whose doubles are known: `0.1` and `0.6`, two ties
(to the even mantissa), and a number below half the smallest subnormal. -/
theorem Binary64.round_examples :
    Binary64.round (1 / 10) = 3602879701896397 / 36028797018963968
    ∧ Binary64.round (3 / 5) = 5404319552844595 / 9007199254740992
    ∧ Binary64.round (2 ^ 53 + 1) = 2 ^ 53
    ∧ Binary64.round (2 ^ 53 + 3) = 2 ^ 53 + 4
    ∧ Binary64.round (1 / 2 ^ 1076) = 0 := by
  decide!

/-- The square root on numbers whose doubles are known. -/
theorem Binary64.sqrt_examples :
    Binary64.sqrt 2 = 6369051672525773 / 4503599627370496
    ∧ Binary64.sqrt 25 = 5 ∧ Binary64.sqrt 169 = 13 ∧ Binary64.sqrt (1 / 4) = 1 / 2
    ∧ Binary64.sqrt 0 = 0 := by
  decide!

theorem Binary64.isqrtFrom_spec (fuel n g : Nat) (hg : 1 ≤ g) (hfuel : g ≤ fuel)
    (hn : 1 ≤ n) (hup : n < (g + 1) * (g + 1)) :
    Binary64.isqrtFrom fuel n g * Binary64.isqrtFrom fuel n g ≤ n
    ∧ n < (Binary64.isqrtFrom fuel n g + 1) * (Binary64.isqrtFrom fuel n g + 1) := by
  induction fuel generalizing g with
  | zero => omega
  | succ f ih =>
    unfold Binary64.isqrtFrom
    have hq1 : g * (n / g) ≤ n := Nat.mul_div_le n g
    have hq2 : n < g * (n / g + 1) := Nat.lt_mul_div_succ n (by omega)
    have hq3 : g = 1 → 1 ≤ n / g := by
      intro h1
      subst h1
      simpa using hn
    generalize n / g = q at hq1 hq2 hq3 ⊢
    have hd1 : 2 * ((g + q) / 2) ≤ g + q := Nat.mul_div_le _ 2
    have hd2 : g + q < 2 * ((g + q) / 2) + 2 := by
      have := Nat.lt_mul_div_succ (g + q) (by norm_num : 0 < 2)
      omega
    generalize (g + q) / 2 = next at hd1 hd2 ⊢
    by_cases hlt : next < g
    · rw [if_pos hlt]
      have hnext1 : 1 ≤ next := by
        by_cases h2 : 2 ≤ g
        · omega
        · have := hq3 (by omega)
          omega
      refine ih next hnext1 (by omega) ?_
      have h4 : g * (q + 1) ≤ (next + 1) * (next + 1) := by
        have h5 : g + q + 1 ≤ 2 * (next + 1) := by omega
        have h6 : 4 * (g * (q + 1)) ≤ (g + q + 1) * (g + q + 1) := by
          nlinarith [sq_nonneg ((g : ℤ) - (q : ℤ) - 1), sq_nonneg ((q : ℤ) + 1 - (g : ℤ))]
        have h7 : (g + q + 1) * (g + q + 1) ≤ (2 * (next + 1)) * (2 * (next + 1)) :=
          Nat.mul_le_mul h5 h5
        nlinarith
      omega
    · rw [if_neg hlt]
      refine ⟨?_, hup⟩
      have hge : g ≤ q := by omega
      calc g * g ≤ g * q := Nat.mul_le_mul_left g hge
        _ ≤ n := hq1

/-- The integer square root is the largest number whose square is at most `n`. -/
theorem Binary64.isqrt_spec (n : Nat) :
    Binary64.isqrt n * Binary64.isqrt n ≤ n
    ∧ n < (Binary64.isqrt n + 1) * (Binary64.isqrt n + 1) := by
  unfold Binary64.isqrt
  split
  · rename_i h
    subst h
    simp
  · rename_i h
    exact Binary64.isqrtFrom_spec n n n (by omega) le_rfl (by omega) (by nlinarith)

/-! ## The coordinate transform with explicit rounding -/

theorem Rounded.left_ti_idem {K : Type} [Field K] (fl sqrt : K → K)
    (hfl : Rounded.IsRounding fl) (ldx ld2 rdx rd2 : Nat → K) (a : Nat) :
    fl ((Rounded.get_jac_and_hess_locals fl sqrt ldx ld2 rdx rd2).left_ti a)
      = (Rounded.get_jac_and_hess_locals fl sqrt ldx ld2 rdx rd2).left_ti a :=
  hfl.idem _

theorem Rounded.rounded_jac_of_transform_eq {K : Type} [Field K] (fl sqrt : K → K)
    (ldx ld2 rdx rd2 : Nat → K) (a b : Nat) :
    (Rounded.get_jac_and_hess_locals fl sqrt ldx ld2 rdx rd2).jac_of_transform a b
      = fl (fl (0 + fl ((Rounded.get_jac_and_hess_locals fl sqrt ldx ld2 rdx rd2).left_jac_inv a 0
            * (Rounded.get_jac_and_hess_locals fl sqrt ldx ld2 rdx rd2).right_jac 0 b))
          + fl ((Rounded.get_jac_and_hess_locals fl sqrt ldx ld2 rdx rd2).left_jac_inv a 1
            * (Rounded.get_jac_and_hess_locals fl sqrt ldx ld2 rdx rd2).right_jac 1 b)) := rfl

/-- The eight subtractions that fill an entry of `left_hess_inv`, in the
order of the loops over `alpha2`, `beta2`, `gamma2`. -/
theorem Rounded.rounded_left_hess_inv_eq {K : Type} [Field K] (fl sqrt : K → K)
    (ldx ld2 rdx rd2 : Nat → K) (L : Rounded.TransformLocals K)
    (hL : L = Rounded.get_jac_and_hess_locals fl sqrt ldx ld2 rdx rd2) (a b c : Nat) :
    L.left_hess_inv a b c
      = fl (fl (fl (fl (fl (fl (fl (fl (0
          - fl (fl (fl (L.left_jac_inv a 0 * L.left_hess 0 0 0) * L.left_jac_inv 0 b)
              * L.left_jac_inv 0 c))
          - fl (fl (fl (L.left_jac_inv a 0 * L.left_hess 0 0 1) * L.left_jac_inv 0 b)
              * L.left_jac_inv 1 c))
          - fl (fl (fl (L.left_jac_inv a 0 * L.left_hess 0 1 0) * L.left_jac_inv 1 b)
              * L.left_jac_inv 0 c))
          - fl (fl (fl (L.left_jac_inv a 0 * L.left_hess 0 1 1) * L.left_jac_inv 1 b)
              * L.left_jac_inv 1 c))
          - fl (fl (fl (L.left_jac_inv a 1 * L.left_hess 1 0 0) * L.left_jac_inv 0 b)
              * L.left_jac_inv 0 c))
          - fl (fl (fl (L.left_jac_inv a 1 * L.left_hess 1 0 1) * L.left_jac_inv 0 b)
              * L.left_jac_inv 1 c))
          - fl (fl (fl (L.left_jac_inv a 1 * L.left_hess 1 1 0) * L.left_jac_inv 1 b)
              * L.left_jac_inv 0 c))
          - fl (fl (fl (L.left_jac_inv a 1 * L.left_hess 1 1 1) * L.left_jac_inv 1 b)
              * L.left_jac_inv 1 c)) := by
  subst hL
  rfl

/-- The six additions that fill an entry of `hess_of_transform`, in the order
of the loops over `mu` and `nu`. -/
theorem Rounded.rounded_hess_of_transform_eq {K : Type} [Field K] (fl sqrt : K → K)
    (ldx ld2 rdx rd2 : Nat → K) (L : Rounded.TransformLocals K)
    (hL : L = Rounded.get_jac_and_hess_locals fl sqrt ldx ld2 rdx rd2) (a b c : Nat) :
    L.hess_of_transform a b c
      = fl (fl (fl (fl (fl (fl (0
          + fl (L.left_jac_inv a 0 * L.right_hess 0 b c))
          + fl (fl (L.left_hess_inv a 0 0 * L.right_jac 0 b) * L.right_jac 0 c))
          + fl (fl (L.left_hess_inv a 0 1 * L.right_jac 0 b) * L.right_jac 1 c))
          + fl (L.left_jac_inv a 1 * L.right_hess 1 b c))
          + fl (fl (L.left_hess_inv a 1 0 * L.right_jac 1 b) * L.right_jac 0 c))
          + fl (fl (L.left_hess_inv a 1 1 * L.right_jac 1 b) * L.right_jac 1 c)) := by
  subst hL
  rfl

/-- The exact rational reading of the routine used by the validation and the
assembly is the routine with no rounding: both give the same Jacobian and
Hessian, whatever `sqrt` returns. -/
theorem exact_reading_agrees (sqrt : ℚ → ℚ) (el : DuplicateNodeConstraintElement)
    (a b c : Nat) :
    (get_jac_and_hess_of_coordinate_transform sqrt el).1 a b
        = (Rounded.get_jac_and_hess_locals id sqrt
            (el.Left_boundary_pt.dposition el.Left_node_coord)
            (el.Left_boundary_pt.d2position el.Left_node_coord)
            (el.Right_boundary_pt.dposition el.Right_node_coord)
            (el.Right_boundary_pt.d2position el.Right_node_coord)).jac_of_transform a b
    ∧ (get_jac_and_hess_of_coordinate_transform sqrt el).2 a b c
        = (Rounded.get_jac_and_hess_locals id sqrt
            (el.Left_boundary_pt.dposition el.Left_node_coord)
            (el.Left_boundary_pt.d2position el.Left_node_coord)
            (el.Right_boundary_pt.dposition el.Right_node_coord)
            (el.Right_boundary_pt.d2position el.Right_node_coord)).hess_of_transform a b c := by
  have hji : (get_jac_and_hess_locals sqrt el).left_jac_inv
      = (Rounded.get_jac_and_hess_locals id sqrt
          (el.Left_boundary_pt.dposition el.Left_node_coord)
          (el.Left_boundary_pt.d2position el.Left_node_coord)
          (el.Right_boundary_pt.dposition el.Right_node_coord)
          (el.Right_boundary_pt.d2position el.Right_node_coord)).left_jac_inv := rfl
  have hlh : (get_jac_and_hess_locals sqrt el).left_hess
      = (Rounded.get_jac_and_hess_locals id sqrt
          (el.Left_boundary_pt.dposition el.Left_node_coord)
          (el.Left_boundary_pt.d2position el.Left_node_coord)
          (el.Right_boundary_pt.dposition el.Right_node_coord)
          (el.Right_boundary_pt.d2position el.Right_node_coord)).left_hess := rfl
  have hrj : (get_jac_and_hess_locals sqrt el).right_jac
      = (Rounded.get_jac_and_hess_locals id sqrt
          (el.Left_boundary_pt.dposition el.Left_node_coord)
          (el.Left_boundary_pt.d2position el.Left_node_coord)
          (el.Right_boundary_pt.dposition el.Right_node_coord)
          (el.Right_boundary_pt.d2position el.Right_node_coord)).right_jac := rfl
  have hrh : (get_jac_and_hess_locals sqrt el).right_hess
      = (Rounded.get_jac_and_hess_locals id sqrt
          (el.Left_boundary_pt.dposition el.Left_node_coord)
          (el.Left_boundary_pt.d2position el.Left_node_coord)
          (el.Right_boundary_pt.dposition el.Right_node_coord)
          (el.Right_boundary_pt.d2position el.Right_node_coord)).right_hess := rfl
  have hinv : ∀ a b c, (get_jac_and_hess_locals sqrt el).left_hess_inv a b c
      = (Rounded.get_jac_and_hess_locals id sqrt
          (el.Left_boundary_pt.dposition el.Left_node_coord)
          (el.Left_boundary_pt.d2position el.Left_node_coord)
          (el.Right_boundary_pt.dposition el.Right_node_coord)
          (el.Right_boundary_pt.d2position el.Right_node_coord)).left_hess_inv a b c := by
    intro a b c
    rw [left_hess_inv_eq, Rounded.rounded_left_hess_inv_eq id sqrt _ _ _ _ _ rfl a b c, hji, hlh]
    simp only [sum2_eq, id_eq]
    ring
  constructor
  · rfl
  · rw [hess_of_transform_eq, Rounded.rounded_hess_of_transform_eq id sqrt _ _ _ _ _ rfl a b c, hji, hrj,
      hrh]
    simp only [sum2_eq, id_eq, hinv]
    ring

/-- The assembly clause of C28 is not empty: at the corner with the parabola on
both sides, read in exact rationals with `exampleSqrt`, the routine returns
the identity and a zero Hessian, and the equation of multiplier 6 receives
`right[6] - left[6]`. -/
theorem same_parametrisation_assembly_example :
    (∀ a b, a < 2 → b < 2 →
        (get_jac_and_hess_of_coordinate_transform exampleSqrt
          (smoothCorner (freeData (fun _ => 0)) (freeData (fun k => (k : ℚ)))
            (freeData (fun k => 2 * (k : ℚ))))).1 a b = if a = b then 1 else 0)
    ∧ (∀ a b c, a < 2 → b < 2 → c < 2 →
        (get_jac_and_hess_of_coordinate_transform exampleSqrt
          (smoothCorner (freeData (fun _ => 0)) (freeData (fun k => (k : ℚ)))
            (freeData (fun k => 2 * (k : ℚ))))).2 a b c = 0)
    ∧ fill_in_generic_residual_contribution_constraint exampleSqrt
          (smoothCorner (freeData (fun _ => 0)) (freeData (fun k => (k : ℚ)))
            (freeData (fun k => 2 * (k : ℚ)))) (fun _ => 0)
          ((smoothCorner (freeData (fun _ => 0)) (freeData (fun k => (k : ℚ)))
            (freeData (fun k => 2 * (k : ℚ)))).internal_local_eqn Index_of_lagrange_data 6)
        = 6 := by
  obtain ⟨hJ, hH⟩ := transform_of_same_parametrisation exampleSqrt
    (smoothCorner (freeData (fun _ => 0)) (freeData (fun k => (k : ℚ)))
      (freeData (fun k => 2 * (k : ℚ)))) (fun _ _ => rfl) (fun _ _ => rfl)
    (smoothCorner_exact _ _ _)
    (Or.inl (by norm_num [smoothCorner, exampleElement, parabolaBoundary]))
  refine ⟨hJ, hH, ?_⟩
  have h := assembly_amount_eq_spec exampleSqrt _ (fun _ => 0) (smoothCorner_assigned
    (freeData (fun _ => 0)) (freeData (fun k => (k : ℚ))) (freeData (fun k => 2 * (k : ℚ))))
    6 (by norm_num) rfl
  rw [constraint_residual_spec_of_identity _ _ hJ hH _ _ 6 (by norm_num)] at h
  rw [sub_zero] at h
  rw [h]
  norm_num [smoothCorner, exampleElement, freeData]

end C1FvK
